import Mathlib

/-!
Shallow embedding of the host-address acquisition core of the CycloneTCP
1.6.4 stack contained in this repository: the DHCPv4 client
(dhcp_client.c), the DHCPv6 client (dhcpv6_client.c) and the SLAAC engine
(slaac.c), together with theorems that settle the specification claims
about these engines.

Machine integers are modelled as Nat with explicit reduction modulo 2^32
where the C code relies on uint32 wrap-around (systime_t arithmetic).
Pointers that may be NULL are modelled as Option; fallible operations
return Except.  Helper routines whose definitions live in files outside
the repository slice (dhcp_common.c, dhcpv6_common.c, ndp.c, ipv4.c,
ipv6.c, slaac.h enumerations and numeric configuration defaults) are
modelled from the specification text and carry a doc comment saying so；
everything else is translated directly from the C sources.
-/

namespace CycloneTcp

/-- 2^32, the modulus of the 32-bit arithmetic used by the stack. -/
def U32 : Nat := 4294967296

/-- Wrap-safe monotonic time comparison: models `timeCompare(a, b) >= 0`,
i.e. the uint32 difference `a - b` reinterpreted as int32 being
non-negative. -/
def timeCompareGe (a b : Nat) : Bool :=
  (a % U32 + U32 - b % U32) % U32 < 2147483648

/-- Reduction of a C integer expression to a uint32 (systime_t) value. -/
def u32ofInt (x : Int) : Nat := (x % (U32 : Int)).toNat

/-- Big-endian encoding of a 16-bit value as two bytes (models the
network-byte-order representation produced by htons). -/
def beBytes16 (v : Nat) : List Nat := [v / 256 % 256, v % 256]

/-- LOAD32BE: big-endian 32-bit load from the first four bytes. -/
def load32be (bs : List Nat) : Nat :=
  bs.getD 0 0 * 16777216 + bs.getD 1 0 * 65536 + bs.getD 2 0 * 256 + bs.getD 3 0

/-- LOAD16BE: big-endian 16-bit load from the first two bytes. -/
def load16be (bs : List Nat) : Nat := bs.getD 0 0 * 256 + bs.getD 1 0

/-- Address states of the IPv4/IPv6 addressing architecture. -/
inductive AddrState where
  | invalid
  | tentative
  | preferred
  | valid
  deriving DecidableEq

/-- Error codes returned by the engines (error_t).  nullDereference is a
modelling device: it marks the outcome of a C function that receives a
NULL pointer it dereferences without checking. -/
inductive ErrorT where
  | invalidParameter
  | outOfResources
  | invalidMessage
  | invalidOption
  | noAddrsAvailable
  | nullDereference
  deriving DecidableEq

/-- Outgoing datagrams, the observable transmissions of the three
engines: DHCPv4 messages over UDP, DHCPv6 messages over UDP (carrying the
two Elapsed-Time option bytes), NDP Router/Neighbor Solicitations. -/
inductive NetSend where
  | dhcpDiscover (xid : Nat)
  | dhcpRequest (xid : Nat)
  | dhcpDecline (xid : Nat)
  | dhcpv6 (msgType : Nat) (elapsedTimeBytes : List Nat)
  | ndpRouterSol
  | ndpNeighborSol (target : List Nat)
  deriving DecidableEq

/-- Oracle for the environment consulted during one call: the monotonic
clock (osGetSystemTime), the raw 32-bit random source (netGetRand) and the
bounded random source (netGetRandRange). -/
structure NetEnv where
  time : Nat
  rand : Nat
  randRange : Int → Int → Int

/-- IPv4 configuration of a network interface (the fields the DHCPv4
client reads or writes). -/
structure Ipv4Config where
  addr : Nat
  addrState : AddrState
  subnetMask : Nat
  defaultGateway : Nat
  dnsServer : List Nat
  mtu : Nat
  deriving DecidableEq

/-- IPv6 configuration of a network interface (the fields the DHCPv6
client and the SLAAC engine read or write).  IPv6 addresses are lists of
eight 16-bit words; the advertised prefix is stored with its length. -/
structure Ipv6Config where
  linkLocalAddr : List Nat
  linkLocalAddrState : AddrState
  linkLocalAddrDup : Bool
  globalAddr : List Nat
  globalAddrState : AddrState
  globalAddrDup : Bool
  ipv6Pfx : List Nat
  ipv6PfxLen : Nat
  dnsServer : List (List Nat)
  retransTimer : Nat
  deriving DecidableEq

/-- The slice of a NetInterface visible to the three engines. -/
structure NetIface where
  id : Nat
  linkState : Bool
  macAddr : List Nat
  ipv4 : Ipv4Config
  ipv6 : Ipv6Config
  deriving DecidableEq

/-- The all-zero IPv6 address (IPV6_UNSPECIFIED_ADDR). -/
def IPV6_UNSPECIFIED_ADDR : List Nat := [0, 0, 0, 0, 0, 0, 0, 0]

/-- IPV4_UNSPECIFIED_ADDR. -/
def IPV4_UNSPECIFIED_ADDR : Nat := 0

/-- Modelled from the spec: ipv4.c is outside the repository slice.
`ipv4SetHostAddrEx` records a host address together with its state. -/
def ipv4SetHostAddrEx (iface : NetIface) (addr : Nat) (st : AddrState) : NetIface :=
  { iface with ipv4 := { iface.ipv4 with addr := addr, addrState := st } }

/-- Modelled from the spec: ipv4.c is outside the repository slice. -/
def ipv4SetSubnetMask (iface : NetIface) (mask : Nat) : NetIface :=
  { iface with ipv4 := { iface.ipv4 with subnetMask := mask } }

/-- Modelled from the spec: ipv4.c is outside the repository slice. -/
def ipv4SetMtu (iface : NetIface) (mtu : Nat) : NetIface :=
  { iface with ipv4 := { iface.ipv4 with mtu := mtu } }

/-- Modelled from the spec: ipv6.c is outside the repository slice. -/
def ipv6SetGlobalAddrEx (iface : NetIface) (addr : List Nat) (st : AddrState) : NetIface :=
  { iface with ipv6 := { iface.ipv6 with globalAddr := addr, globalAddrState := st } }

/-- Modelled from the spec: ipv6.c is outside the repository slice. -/
def ipv6SetLinkLocalAddrEx (iface : NetIface) (addr : List Nat) (st : AddrState) : NetIface :=
  { iface with ipv6 := { iface.ipv6 with linkLocalAddr := addr, linkLocalAddrState := st } }

/-- Modelled from the spec: ipv6.c is outside the repository slice;
records the advertised prefix and its length (ipv6SetPrefix). -/
def ipv6SetPfx (iface : NetIface) (pfx : List Nat) (len : Nat) : NetIface :=
  { iface with ipv6 := { iface.ipv6 with ipv6Pfx := pfx, ipv6PfxLen := len } }

/-- Modelled from the spec: ipv6.c is outside the repository slice;
stores a DNS server address at the given index, ignoring indices beyond
the fixed table size (the C setter rejects them). -/
def ipv6SetDnsServer (iface : NetIface) (i : Nat) (addr : List Nat) : NetIface :=
  { iface with ipv6 := { iface.ipv6 with dnsServer := iface.ipv6.dnsServer.set i addr } }

/-! ## DHCPv4 client: constants

The FSM state encoding is the C enum order of dhcp_client.h, confirmed by
the stateLabel table of dhcpChangeState and the ordered comparison
`state >= DHCP_STATE_INIT_REBOOT` in dhcpClientLinkChangeEvent.  The
numeric retransmission defaults live in dhcp_client.h, which is outside
the repository slice; they are modelled from the spec and from the
comments of dhcp_client.c (64-second caps, 60-second minimum delay); no
claim depends on their exact values. -/

def DHCP_STATE_INIT : Nat := 0
def DHCP_STATE_SELECTING : Nat := 1
def DHCP_STATE_REQUESTING : Nat := 2
def DHCP_STATE_INIT_REBOOT : Nat := 3
def DHCP_STATE_REBOOTING : Nat := 4
def DHCP_STATE_BOUND : Nat := 5
def DHCP_STATE_RENEWING : Nat := 6
def DHCP_STATE_REBINDING : Nat := 7

def DHCP_CLIENT_INIT_DELAY : Nat := 2000
def DHCP_CLIENT_DISCOVER_INIT_RT : Nat := 4000
def DHCP_CLIENT_DISCOVER_MAX_RT : Nat := 64000
def DHCP_CLIENT_REQUEST_INIT_RT : Nat := 4000
def DHCP_CLIENT_REQUEST_MAX_RT : Nat := 64000
def DHCP_CLIENT_REQUEST_MAX_RC : Nat := 4
def DHCP_CLIENT_REQUEST_MIN_DELAY : Nat := 60000
def DHCP_CLIENT_RAND_FACTOR : Nat := 1000

def DHCP_INFINITE_TIME : Nat := 4294967295

def DHCP_OPCODE_BOOTREQUEST : Nat := 1
def DHCP_OPCODE_BOOTREPLY : Nat := 2
def DHCP_HARDWARE_TYPE_ETH : Nat := 1
def DHCP_MAGIC_COOKIE : Nat := 0x63825363

def DHCP_MESSAGE_TYPE_DISCOVER : Nat := 1
def DHCP_MESSAGE_TYPE_OFFER : Nat := 2
def DHCP_MESSAGE_TYPE_REQUEST : Nat := 3
def DHCP_MESSAGE_TYPE_DECLINE : Nat := 4
def DHCP_MESSAGE_TYPE_ACK : Nat := 5
def DHCP_MESSAGE_TYPE_NAK : Nat := 6

def DHCP_OPT_SUBNET_MASK : Nat := 1
def DHCP_OPT_ROUTER : Nat := 3
def DHCP_OPT_DNS_SERVER : Nat := 6
def DHCP_OPT_HOST_NAME : Nat := 12
def DHCP_OPT_INTERFACE_MTU : Nat := 26
def DHCP_OPT_REQUESTED_IP_ADDRESS : Nat := 50
def DHCP_OPT_IP_ADDRESS_LEASE_TIME : Nat := 51
def DHCP_OPT_DHCP_MESSAGE_TYPE : Nat := 53
def DHCP_OPT_SERVER_IDENTIFIER : Nat := 54
def DHCP_OPT_RENEWAL_TIME_VALUE : Nat := 58
def DHCP_OPT_REBINDING_TIME_VALUE : Nat := 59

/-- IPV4_MAX_DNS_SERVERS (configuration default; value immaterial to the
claims). -/
def IPV4_MAX_DNS_SERVERS : Nat := 2

/-! ## DHCPv4 client: data model -/

/-- One decoded DHCPv4 option: a code and its value bytes (the encoded
length is the length of the value). -/
structure DhcpOption where
  code : Nat
  value : List Nat
  deriving DecidableEq

/-- The fields of a BOOTP-framed DHCPv4 message that the client reads.
Multi-byte header fields are stored in host order (the C code applies
ntohl before comparing); `chaddr` is the 6-byte hardware address,
`yiaddr` the offered IPv4 address as a 32-bit value. -/
structure DhcpMessage where
  op : Nat
  htype : Nat
  hlen : Nat
  xid : Nat
  yiaddr : Nat
  chaddr : List Nat
  magicCookie : Nat
  options : List DhcpOption
  deriving DecidableEq

/-- Modelled from the spec: dhcp_common.c is outside the repository
slice.  Returns the first option carrying the given code, scanning the
decoded option list in order. -/
def dhcpGetOption (options : List DhcpOption) (code : Nat) : Option DhcpOption :=
  options.find? (fun o => o.code == code)

/-- DHCPv4 client settings (hostname handling is outside the modelled
claims; callback registrations are tracked as presence flags since the
callbacks cannot mutate the context). -/
structure DhcpClientSettings where
  rapidCommit : Bool
  manualDnsConfig : Bool
  timeout : Nat
  timeoutEvent : Bool
  linkChangeEvent : Bool
  stateChangeEvent : Bool
  deriving DecidableEq

/-- The DHCPv4 client context (DhcpClientCtx). -/
structure DhcpClientCtx where
  settings : DhcpClientSettings
  running : Bool
  state : Nat
  timeoutEventDone : Bool
  timestamp : Nat
  timeout : Nat
  retransmitTimeout : Nat
  retransmitCount : Nat
  configStartTime : Nat
  leaseStartTime : Nat
  transactionId : Nat
  requestedIpAddr : Nat
  serverIpAddr : Nat
  leaseTime : Nat
  t1 : Nat
  t2 : Nat
  deriving DecidableEq

/-- dhcpChangeState: stamp the time, set the initial delay, clear the
retransmission counter and switch to the new state (the optional
state-change callback only observes the context). -/
def dhcpChangeState (c : DhcpClientCtx) (newState : Nat) (delay : Nat)
    (time : Nat) : DhcpClientCtx :=
  { c with timestamp := time % U32, timeout := delay,
           retransmitCount := 0, state := newState }

/-- The DNS-server copy loop of dhcpParseAckNak: record the first n
server addresses from the option value. -/
def dhcpCopyDnsServers (dns : List Nat) (value : List Nat) (n : Nat) : List Nat :=
  (List.range n).foldl (fun d i => d.set i (load32be (value.drop (4 * i)))) dns

/-- The Renewal-T1 recording of dhcpParseAckNak: the server-supplied
value when the option is present with a well-formed length, otherwise
50% of the lease time, or the infinite sentinel for an infinite lease. -/
def dhcpAckT1 (lease : Nat) (opt : Option DhcpOption) : Nat :=
  match opt with
  | some o =>
    if o.value.length = 4 then load32be o.value
    else if lease ≠ DHCP_INFINITE_TIME then lease / 2
    else DHCP_INFINITE_TIME
  | none =>
    if lease ≠ DHCP_INFINITE_TIME then lease / 2
    else DHCP_INFINITE_TIME

/-- The Rebinding-T2 recording of dhcpParseAckNak: the server-supplied
value when the option is present with a well-formed length, otherwise
`leaseTime * 7 / 8` computed on uint32 (the product wraps mod 2^32 for
leases above 613566756 s), or the infinite sentinel for an infinite
lease. -/
def dhcpAckT2 (lease : Nat) (opt : Option DhcpOption) : Nat :=
  match opt with
  | some o =>
    if o.value.length = 4 then load32be o.value
    else if lease ≠ DHCP_INFINITE_TIME then lease * 7 % U32 / 8
    else DHCP_INFINITE_TIME
  | none =>
    if lease ≠ DHCP_INFINITE_TIME then lease * 7 % U32 / 8
    else DHCP_INFINITE_TIME

/-- The interface updates of the dhcpParseAckNak commit: subnet mask,
first router, DNS servers (unless manual DNS), MTU, and the assignment
of yiaddr in Valid state. -/
def dhcpAckIfaceUpdate (iface : NetIface) (msg : DhcpMessage)
    (manualDns : Bool) : NetIface :=
  let iface :=
    match dhcpGetOption msg.options DHCP_OPT_SUBNET_MASK with
    | some o =>
      if o.value.length = 4 then ipv4SetSubnetMask iface (load32be o.value)
      else iface
    | none => iface
  let iface :=
    match dhcpGetOption msg.options DHCP_OPT_ROUTER with
    | some o =>
      if o.value.length % 4 = 0 ∧ 4 ≤ o.value.length then
        { iface with ipv4 := { iface.ipv4 with defaultGateway := load32be o.value } }
      else iface
    | none => iface
  let iface :=
    if manualDns then iface
    else
      match dhcpGetOption msg.options DHCP_OPT_DNS_SERVER with
      | some o =>
        if o.value.length % 4 = 0 then
          { iface with ipv4 := { iface.ipv4 with
              dnsServer := dhcpCopyDnsServers iface.ipv4.dnsServer o.value
                (min (o.value.length / 4) IPV4_MAX_DNS_SERVERS) } }
        else iface
      | none => iface
  let iface :=
    match dhcpGetOption msg.options DHCP_OPT_INTERFACE_MTU with
    | some o =>
      if o.value.length = 2 then ipv4SetMtu iface (load16be o.value)
      else iface
    | none => iface
  ipv4SetHostAddrEx iface msg.yiaddr AddrState.valid

/-- dhcpParseAckNak: validate a DHCPACK or DHCPNAK message received in
REQUESTING, REBOOTING, RENEWING or REBINDING and commit the lease on a
valid Ack; any check failure drops the message with no change. -/
def dhcpParseAckNak (c : DhcpClientCtx) (iface : NetIface) (msg : DhcpMessage)
    (time : Nat) : DhcpClientCtx × NetIface :=
  if msg.op ≠ DHCP_OPCODE_BOOTREPLY then (c, iface)
  else if msg.htype ≠ DHCP_HARDWARE_TYPE_ETH then (c, iface)
  else if msg.hlen ≠ 6 then (c, iface)
  else if msg.xid ≠ c.transactionId then (c, iface)
  else if msg.chaddr ≠ iface.macAddr then (c, iface)
  else if msg.magicCookie ≠ DHCP_MAGIC_COOKIE then (c, iface)
  else
    match dhcpGetOption msg.options DHCP_OPT_DHCP_MESSAGE_TYPE with
    | none => (c, iface)
    | some mt =>
      if mt.value.length ≠ 1 then (c, iface)
      else if mt.value.getD 0 0 = DHCP_MESSAGE_TYPE_NAK then
        -- the host address is no longer appropriate for the link
        let iface := ipv4SetHostAddrEx iface IPV4_UNSPECIFIED_ADDR AddrState.invalid
        let iface := ipv4SetSubnetMask iface IPV4_UNSPECIFIED_ADDR
        (dhcpChangeState c DHCP_STATE_INIT 0 time, iface)
      else if mt.value.getD 0 0 = DHCP_MESSAGE_TYPE_ACK then
        match dhcpGetOption msg.options DHCP_OPT_SERVER_IDENTIFIER with
        | none => (c, iface)
        | some sid =>
          if sid.value.length ≠ 4 then (c, iface)
          else if load32be sid.value ≠ c.serverIpAddr then (c, iface)
          else
            match dhcpGetOption msg.options DHCP_OPT_IP_ADDRESS_LEASE_TIME with
            | none => (c, iface)
            | some lt =>
              if lt.value.length ≠ 4 then (c, iface)
              else
                (dhcpChangeState
                  { c with
                    leaseTime := load32be lt.value,
                    t1 := dhcpAckT1 (load32be lt.value)
                      (dhcpGetOption msg.options DHCP_OPT_RENEWAL_TIME_VALUE),
                    t2 := dhcpAckT2 (load32be lt.value)
                      (dhcpGetOption msg.options DHCP_OPT_REBINDING_TIME_VALUE),
                    leaseStartTime := time % U32 }
                  DHCP_STATE_BOUND 0 time,
                 dhcpAckIfaceUpdate iface msg c.settings.manualDnsConfig)
      else (c, iface)

/-- dhcpParseOffer: validate a DHCPOFFER received in SELECTING; record
the offered address and the server identifier and move to REQUESTING. -/
def dhcpParseOffer (c : DhcpClientCtx) (iface : NetIface) (msg : DhcpMessage)
    (time : Nat) : DhcpClientCtx :=
  if msg.op ≠ DHCP_OPCODE_BOOTREPLY then c
  else if msg.htype ≠ DHCP_HARDWARE_TYPE_ETH then c
  else if msg.hlen ≠ 6 then c
  else if msg.xid ≠ c.transactionId then c
  else if msg.yiaddr = IPV4_UNSPECIFIED_ADDR then c
  else if msg.chaddr ≠ iface.macAddr then c
  else if msg.magicCookie ≠ DHCP_MAGIC_COOKIE then c
  else
    match dhcpGetOption msg.options DHCP_OPT_DHCP_MESSAGE_TYPE with
    | none => c
    | some mt =>
      if mt.value.length ≠ 1 then c
      else if mt.value.getD 0 0 ≠ DHCP_MESSAGE_TYPE_OFFER then c
      else
        match dhcpGetOption msg.options DHCP_OPT_SERVER_IDENTIFIER with
        | none => c
        | some sid =>
          if sid.value.length ≠ 4 then c
          else
            let c := { c with serverIpAddr := load32be sid.value,
                              requestedIpAddr := msg.yiaddr }
            dhcpChangeState c DHCP_STATE_REQUESTING 0 time

/-- dhcpCheckTimeout: fire the advisory user timeout callback at most
once per acquisition attempt (the callback itself only observes the
context). -/
def dhcpCheckTimeout (c : DhcpClientCtx) (time : Nat) : DhcpClientCtx :=
  if c.settings.timeoutEvent then
    if timeCompareGe time (c.configStartTime + c.settings.timeout) then
      if ¬c.timeoutEventDone then { c with timeoutEventDone := true }
      else c
    else c
  else c

/-- dhcpStateInit: when running with the link up, schedule SELECTING
after a random desynchronization delay. -/
def dhcpStateInit (c : DhcpClientCtx) (iface : NetIface) (env : NetEnv) :
    DhcpClientCtx :=
  if c.running then
    if iface.linkState then
      let delay := u32ofInt (env.randRange 0 (DHCP_CLIENT_INIT_DELAY : Int))
      let c := { c with configStartTime := env.time % U32, timeoutEventDone := false }
      dhcpChangeState c DHCP_STATE_SELECTING delay env.time
    else c
  else c

/-- dhcpStateSelecting: retransmit DHCPDISCOVER with doubled, capped,
jittered timeouts; no retransmission cap. -/
def dhcpStateSelecting (c : DhcpClientCtx) (env : NetEnv) :
    DhcpClientCtx × List NetSend :=
  if timeCompareGe env.time (c.timestamp + c.timeout) then
    let c :=
      if c.retransmitCount = 0 then
        { c with transactionId := env.rand % U32,
                 retransmitTimeout := DHCP_CLIENT_DISCOVER_INIT_RT }
      else
        let rt := c.retransmitTimeout * 2 % U32
        { c with retransmitTimeout :=
            if rt > DHCP_CLIENT_DISCOVER_MAX_RT then DHCP_CLIENT_DISCOVER_MAX_RT
            else rt }
    let send := NetSend.dhcpDiscover c.transactionId
    let c := { c with
      timestamp := env.time % U32,
      timeout := u32ofInt ((c.retransmitTimeout : Int) +
        env.randRange (-(DHCP_CLIENT_RAND_FACTOR : Int)) (DHCP_CLIENT_RAND_FACTOR : Int)),
      retransmitCount := c.retransmitCount + 1 }
    (dhcpCheckTimeout c env.time, [send])
  else
    (dhcpCheckTimeout c env.time, [])

/-- The shared retransmission body of dhcpStateRequesting and
dhcpStateRebooting (the two functions are textually identical): send
DHCPREQUEST with doubled, capped, jittered timeouts up to
DHCP_CLIENT_REQUEST_MAX_RC attempts, then restart from INIT. -/
def dhcpStateRequestRetrans (c : DhcpClientCtx) (env : NetEnv) :
    DhcpClientCtx × List NetSend :=
  if timeCompareGe env.time (c.timestamp + c.timeout) then
    if c.retransmitCount = 0 then
      let c := { c with transactionId := env.rand % U32 }
      let send := NetSend.dhcpRequest c.transactionId
      let c := { c with
        retransmitTimeout := DHCP_CLIENT_REQUEST_INIT_RT,
        timestamp := env.time % U32,
        timeout := u32ofInt ((DHCP_CLIENT_REQUEST_INIT_RT : Int) +
          env.randRange (-(DHCP_CLIENT_RAND_FACTOR : Int)) (DHCP_CLIENT_RAND_FACTOR : Int)),
        retransmitCount := c.retransmitCount + 1 }
      (dhcpCheckTimeout c env.time, [send])
    else if c.retransmitCount < DHCP_CLIENT_REQUEST_MAX_RC then
      let send := NetSend.dhcpRequest c.transactionId
      let rt := c.retransmitTimeout * 2 % U32
      let rt := if rt > DHCP_CLIENT_REQUEST_MAX_RT then DHCP_CLIENT_REQUEST_MAX_RT else rt
      let c := { c with
        retransmitTimeout := rt,
        timestamp := env.time % U32,
        timeout := u32ofInt ((rt : Int) +
          env.randRange (-(DHCP_CLIENT_RAND_FACTOR : Int)) (DHCP_CLIENT_RAND_FACTOR : Int)),
        retransmitCount := c.retransmitCount + 1 }
      (dhcpCheckTimeout c env.time, [send])
    else
      (dhcpCheckTimeout (dhcpChangeState c DHCP_STATE_INIT 0 env.time) env.time, [])
  else
    (dhcpCheckTimeout c env.time, [])

/-- dhcpStateRequesting. -/
def dhcpStateRequesting (c : DhcpClientCtx) (env : NetEnv) :
    DhcpClientCtx × List NetSend :=
  dhcpStateRequestRetrans c env

/-- dhcpStateInitReboot: as INIT but entering REBOOTING. -/
def dhcpStateInitReboot (c : DhcpClientCtx) (iface : NetIface) (env : NetEnv) :
    DhcpClientCtx :=
  if c.running then
    if iface.linkState then
      let delay := u32ofInt (env.randRange 0 (DHCP_CLIENT_INIT_DELAY : Int))
      let c := { c with configStartTime := env.time % U32, timeoutEventDone := false }
      dhcpChangeState c DHCP_STATE_REBOOTING delay env.time
    else c
  else c

/-- dhcpStateRebooting. -/
def dhcpStateRebooting (c : DhcpClientCtx) (env : NetEnv) :
    DhcpClientCtx × List NetSend :=
  dhcpStateRequestRetrans c env

/-- dhcpStateBound: on T1 expiry (suppressed for an infinite T1) start
the renewal process. -/
def dhcpStateBound (c : DhcpClientCtx) (env : NetEnv) : DhcpClientCtx :=
  if c.t1 ≠ DHCP_INFINITE_TIME then
    let t1ms := c.t1 * 1000 % U32
    if timeCompareGe env.time (c.leaseStartTime + t1ms) then
      let c := { c with configStartTime := env.time % U32 }
      dhcpChangeState c DHCP_STATE_RENEWING 0 env.time
    else c
  else c

/-- dhcpStateRenewing: unicast DHCPREQUEST to the leasing server,
retransmitting after half the remaining time until T2 (min 60 s); on T2
expiry move to REBINDING. -/
def dhcpStateRenewing (c : DhcpClientCtx) (env : NetEnv) :
    DhcpClientCtx × List NetSend :=
  if timeCompareGe env.time (c.timestamp + c.timeout) then
    let t2ms := c.t2 * 1000 % U32
    if ¬timeCompareGe env.time (c.leaseStartTime + t2ms) then
      let c :=
        if c.retransmitCount = 0 then { c with transactionId := env.rand % U32 }
        else c
      let send := NetSend.dhcpRequest c.transactionId
      let remaining := (c.leaseStartTime + t2ms + U32 - env.time % U32) % U32
      let c := { c with
        timestamp := env.time % U32,
        timeout := if remaining > 2 * DHCP_CLIENT_REQUEST_MIN_DELAY then remaining / 2
                   else remaining,
        retransmitCount := c.retransmitCount + 1 }
      (c, [send])
    else
      (dhcpChangeState c DHCP_STATE_REBINDING 0 env.time, [])
  else (c, [])

/-- dhcpStateRebinding: broadcast DHCPREQUEST until the lease expires;
on expiry invalidate the interface address and restart from INIT. -/
def dhcpStateRebinding (c : DhcpClientCtx) (iface : NetIface) (env : NetEnv) :
    DhcpClientCtx × NetIface × List NetSend :=
  if timeCompareGe env.time (c.timestamp + c.timeout) then
    let ltms := c.leaseTime * 1000 % U32
    if ¬timeCompareGe env.time (c.leaseStartTime + ltms) then
      let c :=
        if c.retransmitCount = 0 then { c with transactionId := env.rand % U32 }
        else c
      let send := NetSend.dhcpRequest c.transactionId
      let remaining := (c.leaseStartTime + ltms + U32 - env.time % U32) % U32
      let c := { c with
        timestamp := env.time % U32,
        timeout := if remaining > 2 * DHCP_CLIENT_REQUEST_MIN_DELAY then remaining / 2
                   else remaining,
        retransmitCount := c.retransmitCount + 1 }
      (c, iface, [send])
    else
      let iface := ipv4SetHostAddrEx iface IPV4_UNSPECIFIED_ADDR AddrState.invalid
      let iface := ipv4SetSubnetMask iface IPV4_UNSPECIFIED_ADDR
      (dhcpChangeState c DHCP_STATE_INIT 0 env.time, iface, [])
  else (c, iface, [])

/-- dhcpClientTick: dispatch on the current state; an unrecognized state
value falls into the default case, which resets the FSM to INIT. -/
def dhcpClientTick (c : DhcpClientCtx) (iface : NetIface) (env : NetEnv) :
    DhcpClientCtx × NetIface × List NetSend :=
  if c.state = DHCP_STATE_INIT then (dhcpStateInit c iface env, iface, [])
  else if c.state = DHCP_STATE_SELECTING then
    let r := dhcpStateSelecting c env
    (r.1, iface, r.2)
  else if c.state = DHCP_STATE_REQUESTING then
    let r := dhcpStateRequesting c env
    (r.1, iface, r.2)
  else if c.state = DHCP_STATE_INIT_REBOOT then (dhcpStateInitReboot c iface env, iface, [])
  else if c.state = DHCP_STATE_REBOOTING then
    let r := dhcpStateRebooting c env
    (r.1, iface, r.2)
  else if c.state = DHCP_STATE_BOUND then (dhcpStateBound c env, iface, [])
  else if c.state = DHCP_STATE_RENEWING then
    let r := dhcpStateRenewing c env
    (r.1, iface, r.2)
  else if c.state = DHCP_STATE_REBINDING then dhcpStateRebinding c iface env
  else ({ c with state := DHCP_STATE_INIT }, iface, [])

/-- dhcpClientProcessMessage: the UDP receive callback; check the raw
length bounds and dispatch on the current state, dropping the message in
all other states.  sizeof(DhcpMessage) is 240 bytes and
DHCP_MAX_MSG_SIZE 548 bytes. -/
def dhcpClientProcessMessage (c : DhcpClientCtx) (iface : NetIface)
    (msg : DhcpMessage) (len : Nat) (env : NetEnv) : DhcpClientCtx × NetIface :=
  if len < 240 then (c, iface)
  else if len > 548 then (c, iface)
  else if c.state = DHCP_STATE_SELECTING then (dhcpParseOffer c iface msg env.time, iface)
  else if c.state = DHCP_STATE_REQUESTING ∨ c.state = DHCP_STATE_REBOOTING ∨
          c.state = DHCP_STATE_RENEWING ∨ c.state = DHCP_STATE_REBINDING then
    dhcpParseAckNak c iface msg env.time
  else (c, iface)

/-- dhcpClientLinkChangeEvent: when running, invalidate the interface
address; re-enter INIT-REBOOT when a prior lease exists
(state ≥ INIT-REBOOT) and INIT otherwise. -/
def dhcpClientLinkChangeEvent (c : DhcpClientCtx) (iface : NetIface) :
    DhcpClientCtx × NetIface :=
  let iface :=
    if c.running then
      ipv4SetSubnetMask
        (ipv4SetHostAddrEx iface IPV4_UNSPECIFIED_ADDR AddrState.invalid)
        IPV4_UNSPECIFIED_ADDR
    else iface
  let c :=
    if c.state ≥ DHCP_STATE_INIT_REBOOT then { c with state := DHCP_STATE_INIT_REBOOT }
    else { c with state := DHCP_STATE_INIT }
  (c, iface)

/-- The context produced by a successful dhcpClientInit: the context is
zeroed, the settings copied, running cleared and the state set to INIT. -/
def dhcpInitialCtx (s : DhcpClientSettings) : DhcpClientCtx :=
  { settings := s, running := false, state := DHCP_STATE_INIT,
    timeoutEventDone := false, timestamp := 0, timeout := 0,
    retransmitTimeout := 0, retransmitCount := 0, configStartTime := 0,
    leaseStartTime := 0, transactionId := 0, requestedIpAddr := 0,
    serverIpAddr := 0, leaseTime := 0, t1 := 0, t2 := 0 }

/-- dhcpClientInit: validate the context, settings and interface
pointers, then build the context; mutex creation and UDP callback
registration may fail (oracle booleans). -/
def dhcpClientInit (context : Option DhcpClientCtx)
    (settings : Option DhcpClientSettings) (ifacePtr : Option NetIface)
    (mutexOk : Bool) (udpAttachOk : Bool) : Except ErrorT DhcpClientCtx :=
  match context with
  | none => .error .invalidParameter
  | some _ =>
    match settings with
    | none => .error .invalidParameter
    | some s =>
      match ifacePtr with
      | none => .error .invalidParameter
      | some _ =>
        if ¬mutexOk then .error .outOfResources
        else if ¬udpAttachOk then .error .outOfResources
        else .ok (dhcpInitialCtx s)

/-- dhcpClientStart: NULL check, then set the running flag and reset the
FSM to INIT under the mutex. -/
def dhcpClientStart (context : Option DhcpClientCtx) :
    Except ErrorT DhcpClientCtx :=
  match context with
  | none => .error .invalidParameter
  | some c => .ok { c with running := true, state := DHCP_STATE_INIT }

/-- dhcpClientStop: NULL check, then clear the running flag and reset
the FSM to INIT under the mutex; the interface is not touched. -/
def dhcpClientStop (context : Option DhcpClientCtx) (iface : NetIface) :
    Except ErrorT (DhcpClientCtx × NetIface) :=
  match context with
  | none => .error .invalidParameter
  | some c => .ok ({ c with running := false, state := DHCP_STATE_INIT }, iface)

/-- dhcpClientGetState: the source performs no NULL check and
dereferences the context immediately (it also has no error channel: the
return type is DhcpState). -/
def dhcpClientGetState (context : Option DhcpClientCtx) : Except ErrorT Nat :=
  match context with
  | none => .error .nullDereference
  | some c => .ok c.state

/-! ## DHCPv6 client: constants

The FSM state encoding and the retransmission parameters are those of
dhcpv6_client.h (present in the repository slice).  Message types, option
codes, status codes and structure sizes are those of RFC 3315, used here
because dhcpv6_common.h is outside the slice; the spec fixes the wire
layout (§6) and the option codes. -/

def DHCPV6_STATE_INIT : Nat := 0
def DHCPV6_STATE_SOLICIT : Nat := 1
def DHCPV6_STATE_REQUEST : Nat := 2
def DHCPV6_STATE_INIT_CONFIRM : Nat := 3
def DHCPV6_STATE_CONFIRM : Nat := 4
def DHCPV6_STATE_BOUND : Nat := 5
def DHCPV6_STATE_RENEW : Nat := 6
def DHCPV6_STATE_REBIND : Nat := 7
def DHCPV6_STATE_DECLINE : Nat := 8

def DHCPV6_CLIENT_SOL_MAX_DELAY : Nat := 1000
def DHCPV6_CLIENT_SOL_TIMEOUT : Nat := 1000
def DHCPV6_CLIENT_SOL_MAX_RT : Nat := 120000
def DHCPV6_CLIENT_REQ_TIMEOUT : Nat := 1000
def DHCPV6_CLIENT_REQ_MAX_RT : Nat := 30000
def DHCPV6_CLIENT_REQ_MAX_RC : Nat := 10
def DHCPV6_CLIENT_CNF_MAX_DELAY : Nat := 1000
def DHCPV6_CLIENT_CNF_TIMEOUT : Nat := 1000
def DHCPV6_CLIENT_CNF_MAX_RT : Nat := 4000
def DHCPV6_CLIENT_CNF_MAX_RD : Nat := 10000
def DHCPV6_CLIENT_REN_TIMEOUT : Nat := 10000
def DHCPV6_CLIENT_REN_MAX_RT : Nat := 600000
def DHCPV6_CLIENT_REB_TIMEOUT : Nat := 10000
def DHCPV6_CLIENT_REB_MAX_RT : Nat := 600000
def DHCPV6_CLIENT_DEC_TIMEOUT : Nat := 1000
def DHCPV6_CLIENT_DEC_MAX_RC : Nat := 5

def DHCPV6_INFINITE_TIME : Nat := 4294967295

def DHCPV6_MSG_TYPE_SOLICIT : Nat := 1
def DHCPV6_MSG_TYPE_ADVERTISE : Nat := 2
def DHCPV6_MSG_TYPE_REQUEST : Nat := 3
def DHCPV6_MSG_TYPE_CONFIRM : Nat := 4
def DHCPV6_MSG_TYPE_RENEW : Nat := 5
def DHCPV6_MSG_TYPE_REBIND : Nat := 6
def DHCPV6_MSG_TYPE_REPLY : Nat := 7
def DHCPV6_MSG_TYPE_DECLINE : Nat := 9

def DHCPV6_OPTION_CLIENTID : Nat := 1
def DHCPV6_OPTION_SERVERID : Nat := 2
def DHCPV6_OPTION_IA_NA : Nat := 3
def DHCPV6_OPTION_IAADDR : Nat := 5
def DHCPV6_OPTION_ORO : Nat := 6
def DHCPV6_OPTION_PREFERENCE : Nat := 7
def DHCPV6_OPTION_ELAPSED_TIME : Nat := 8
def DHCPV6_OPTION_STATUS_CODE : Nat := 13
def DHCPV6_OPTION_RAPID_COMMIT : Nat := 14
def DHCPV6_OPTION_DNS_SERVERS : Nat := 23

def DHCPV6_STATUS_NO_ADDRS_AVAILABLE : Nat := 2

def DHCPV6_MAX_SERVER_PREFERENCE : Int := 255

/-- Modelled from the spec: the configured bound on DUID sizes
(DHCPV6_MAX_DUID_SIZE lives in dhcpv6.h, outside the slice).  Only the
comparison against it matters to the claims, not its value. -/
def DHCPV6_MAX_DUID_SIZE : Nat := 32

/-- IPV6_MAX_DNS_SERVERS (configuration default; value immaterial to the
claims). -/
def IPV6_MAX_DNS_SERVERS : Nat := 2

/-! ## DHCPv6 client: data model -/

/-- A DHCPv6 message: one type byte, a 24-bit transaction id (stored in
host order; the code applies LOAD24BE) and the raw option bytes. -/
structure Dhcpv6Message where
  msgType : Nat
  transactionId : Nat
  options : List Nat
  deriving DecidableEq

/-- Modelled from the spec: dhcpv6_common.c is outside the repository
slice.  Scan the TLV-encoded option bytes (2-byte big-endian code,
2-byte big-endian length) and return the value bytes of the first option
carrying the given code; an option whose declared length overruns the
buffer terminates the scan.  The fuel argument only bounds the number of
scan steps so that the recursion is structural (every step consumes at
least four bytes, so a fuel equal to the buffer length is never
exhausted before the scan ends). -/
def dhcpv6GetOptionAux (code : Nat) : Nat → List Nat → Option (List Nat)
  | 0, _ => none
  | fuel + 1, data =>
    if data.length < 4 then none
    else
      let l := load16be (data.drop 2)
      if 4 + l ≤ data.length then
        if load16be data = code then some ((data.drop 4).take l)
        else dhcpv6GetOptionAux code fuel (data.drop (4 + l))
      else none

/-- First option carrying the given code among the TLV option bytes. -/
def dhcpv6GetOption (data : List Nat) (code : Nat) : Option (List Nat) :=
  dhcpv6GetOptionAux code data.length data

/-- Helper for building TLV option bytes in concrete test messages. -/
def mkDhcpv6Opt (code : Nat) (value : List Nat) : List Nat :=
  beBytes16 code ++ beBytes16 value.length ++ value

/-- Modelled from the spec: dhcpv6_common.c is outside the repository
slice.  dhcpv6ParseStatusCodeOption reports an error exactly when a
Status Code option is present and carries NoAddrsAvail. -/
def dhcpv6ParseStatusCodeOption (data : List Nat) : Bool :=
  match dhcpv6GetOption data DHCPV6_OPTION_STATUS_CODE with
  | some v => load16be v == DHCPV6_STATUS_NO_ADDRS_AVAILABLE
  | none => false

/-- DHCPv6 client settings. -/
structure Dhcpv6ClientSettings where
  rapidCommit : Bool
  manualDnsConfig : Bool
  timeout : Nat
  timeoutEvent : Bool
  linkChangeEvent : Bool
  stateChangeEvent : Bool
  deriving DecidableEq

/-- The DHCPv6 client context (Dhcpv6ClientCtx).  DUIDs are byte lists;
serverPreference is an int (−1 meaning that no Advertise has been
accepted yet). -/
structure Dhcpv6ClientCtx where
  settings : Dhcpv6ClientSettings
  running : Bool
  state : Nat
  timeoutEventDone : Bool
  timestamp : Nat
  timeout : Nat
  retransmitCount : Nat
  clientId : List Nat
  clientAddr : List Nat
  serverId : List Nat
  serverPreference : Int
  transactionId : Nat
  configStartTime : Nat
  exchangeStartTime : Nat
  leaseStartTime : Nat
  t1 : Nat
  t2 : Nat
  preferredLifetime : Nat
  validLifetime : Nat
  deriving DecidableEq

/-- dhcpv6ChangeState. -/
def dhcpv6ChangeState (c : Dhcpv6ClientCtx) (newState : Nat) (delay : Nat)
    (time : Nat) : Dhcpv6ClientCtx :=
  { c with timestamp := time % U32, timeout := delay,
           retransmitCount := 0, state := newState }

/-- dhcpv6RandRange: `min + netGetRand() % (max − min + 1)` (the usual
ranges keep the C integer conversions value-preserving). -/
def dhcpv6RandRange (lo hi : Int) (rand : Nat) : Int :=
  lo + (rand : Int) % (hi - lo + 1)

/-- dhcpv6Rand: multiplication by a randomization factor drawn uniformly
from −0.1 … +0.1, computed as `value * dhcpv6RandRange(-100, 100) / 1000`
with C (truncating) division. -/
def dhcpv6Rand (value : Int) (rand : Nat) : Int :=
  Int.tdiv (value * dhcpv6RandRange (-100) 100 rand) 1000

/-- dhcpv6ComputeElapsedTime: zero on the first message of a series
(retransmit count 0), otherwise the uint32 difference between now and
`exchangeStartTime` in hundredths of a second, saturated at 0xFFFF. -/
def dhcpv6ComputeElapsedTime (c : Dhcpv6ClientCtx) (time : Nat) : Nat :=
  if c.retransmitCount > 0 then
    min (((time % U32 + U32 - c.exchangeStartTime % U32) % U32) / 10) 65535
  else 0

/-- The Elapsed-Time option payload carried by every transmitted DHCPv6
message: the htons-encoded elapsed time. -/
def dhcpv6SendMsg (c : Dhcpv6ClientCtx) (msgType : Nat) (time : Nat) : NetSend :=
  NetSend.dhcpv6 msgType (beBytes16 (dhcpv6ComputeElapsedTime c time))

/-- dhcpv6CheckTimeout: fire the advisory user timeout callback at most
once per acquisition attempt. -/
def dhcpv6CheckTimeout (c : Dhcpv6ClientCtx) (time : Nat) : Dhcpv6ClientCtx :=
  if c.settings.timeoutEvent then
    if timeCompareGe time (c.configStartTime + c.settings.timeout) then
      if ¬c.timeoutEventDone then { c with timeoutEventDone := true }
      else c
    else c
  else c

/-- dhcpv6StateInit: when running with the link up, schedule SOLICIT
after a random delay in [0, SOL_MAX_DELAY]. -/
def dhcpv6StateInit (c : Dhcpv6ClientCtx) (iface : NetIface) (env : NetEnv) :
    Dhcpv6ClientCtx :=
  if c.running then
    if iface.linkState then
      let delay := u32ofInt (dhcpv6RandRange 0 (DHCPV6_CLIENT_SOL_MAX_DELAY : Int) env.rand)
      let c := { c with configStartTime := env.time % U32, timeoutEventDone := false }
      dhcpv6ChangeState c DHCPV6_STATE_SOLICIT delay env.time
    else c
  else c

/-- dhcpv6StateSolicit: the first expiry sends a Router Solicitation and
the first Solicit (fresh xid, preference reset); later expiries move to
REQUEST once a valid Advertise has been recorded and otherwise
retransmit with doubled, capped, jittered timeouts.  The time at which
the first message of the exchange was sent is not recorded. -/
def dhcpv6StateSolicit (c : Dhcpv6ClientCtx) (env : NetEnv) :
    Dhcpv6ClientCtx × List NetSend :=
  if timeCompareGe env.time (c.timestamp + c.timeout) then
    if c.retransmitCount = 0 then
      let c := { c with serverPreference := -1,
                        transactionId := env.rand % 16777216 }
      let send := dhcpv6SendMsg c DHCPV6_MSG_TYPE_SOLICIT env.time
      let t0 := (DHCPV6_CLIENT_SOL_TIMEOUT : Int)
      let c := { c with
        timestamp := env.time % U32,
        timeout := u32ofInt (t0 + dhcpv6Rand t0 env.rand),
        retransmitCount := c.retransmitCount + 1 }
      (dhcpv6CheckTimeout c env.time, [NetSend.ndpRouterSol, send])
    else if c.serverPreference ≥ 0 then
      (dhcpv6CheckTimeout (dhcpv6ChangeState c DHCPV6_STATE_REQUEST 0 env.time) env.time, [])
    else
      let send := dhcpv6SendMsg c DHCPV6_MSG_TYPE_SOLICIT env.time
      let t0 := min (c.timeout * 2 % U32) DHCPV6_CLIENT_SOL_MAX_RT
      let c := { c with
        timestamp := env.time % U32,
        timeout := u32ofInt ((t0 : Int) + dhcpv6Rand (t0 : Int) env.rand),
        retransmitCount := c.retransmitCount + 1 }
      (dhcpv6CheckTimeout c env.time, [send])
  else (dhcpv6CheckTimeout c env.time, [])

/-- dhcpv6StateRequest: send Request with a fresh xid on the first
expiry, retransmit up to REQ_MAX_RC times, then restart from INIT. -/
def dhcpv6StateRequest (c : Dhcpv6ClientCtx) (env : NetEnv) :
    Dhcpv6ClientCtx × List NetSend :=
  if timeCompareGe env.time (c.timestamp + c.timeout) then
    if c.retransmitCount = 0 then
      let c := { c with transactionId := env.rand % 16777216 }
      let send := dhcpv6SendMsg c DHCPV6_MSG_TYPE_REQUEST env.time
      let t0 := (DHCPV6_CLIENT_REQ_TIMEOUT : Int)
      let c := { c with
        timestamp := env.time % U32,
        timeout := u32ofInt (t0 + dhcpv6Rand t0 env.rand),
        retransmitCount := c.retransmitCount + 1 }
      (dhcpv6CheckTimeout c env.time, [send])
    else if c.retransmitCount < DHCPV6_CLIENT_REQ_MAX_RC then
      let send := dhcpv6SendMsg c DHCPV6_MSG_TYPE_REQUEST env.time
      let t0 := min (c.timeout * 2 % U32) DHCPV6_CLIENT_REQ_MAX_RT
      let c := { c with
        timestamp := env.time % U32,
        timeout := u32ofInt ((t0 : Int) + dhcpv6Rand (t0 : Int) env.rand),
        retransmitCount := c.retransmitCount + 1 }
      (dhcpv6CheckTimeout c env.time, [send])
    else
      (dhcpv6CheckTimeout (dhcpv6ChangeState c DHCPV6_STATE_INIT 0 env.time) env.time, [])
  else (dhcpv6CheckTimeout c env.time, [])

/-- dhcpv6StateInitConfirm: as INIT but entering CONFIRM. -/
def dhcpv6StateInitConfirm (c : Dhcpv6ClientCtx) (iface : NetIface) (env : NetEnv) :
    Dhcpv6ClientCtx :=
  if c.running then
    if iface.linkState then
      let delay := u32ofInt (dhcpv6RandRange 0 (DHCPV6_CLIENT_CNF_MAX_DELAY : Int) env.rand)
      let c := { c with configStartTime := env.time % U32, timeoutEventDone := false }
      dhcpv6ChangeState c DHCPV6_STATE_CONFIRM delay env.time
    else c
  else c

/-- dhcpv6StateConfirm: the only exchange that records
`exchangeStartTime` on its first transmission; gives up MRD
milliseconds after the first Confirm. -/
def dhcpv6StateConfirm (c : Dhcpv6ClientCtx) (env : NetEnv) :
    Dhcpv6ClientCtx × List NetSend :=
  if timeCompareGe env.time (c.timestamp + c.timeout) then
    if c.retransmitCount = 0 then
      let c := { c with transactionId := env.rand % 16777216 }
      let send := dhcpv6SendMsg c DHCPV6_MSG_TYPE_CONFIRM env.time
      let t0 := (DHCPV6_CLIENT_CNF_TIMEOUT : Int)
      let c := { c with
        exchangeStartTime := env.time % U32,
        timestamp := env.time % U32,
        timeout := u32ofInt (t0 + dhcpv6Rand t0 env.rand),
        retransmitCount := c.retransmitCount + 1 }
      (dhcpv6CheckTimeout c env.time, [NetSend.ndpRouterSol, send])
    else
      let send := dhcpv6SendMsg c DHCPV6_MSG_TYPE_CONFIRM env.time
      let t0 := min (c.timeout * 2 % U32) DHCPV6_CLIENT_CNF_MAX_RT
      let c := { c with
        timestamp := env.time % U32,
        timeout := u32ofInt ((t0 : Int) + dhcpv6Rand (t0 : Int) env.rand),
        retransmitCount := c.retransmitCount + 1 }
      (dhcpv6CheckTimeout c env.time, [send])
  else
    if c.retransmitCount > 0 then
      if timeCompareGe env.time (c.exchangeStartTime + DHCPV6_CLIENT_CNF_MAX_RD) then
        (dhcpv6CheckTimeout (dhcpv6ChangeState c DHCPV6_STATE_INIT 0 env.time) env.time, [])
      else (dhcpv6CheckTimeout c env.time, [])
    else (dhcpv6CheckTimeout c env.time, [])

/-- dhcpv6StateBound: on T1 expiry (suppressed for an infinite T1) start
the renewal process. -/
def dhcpv6StateBound (c : Dhcpv6ClientCtx) (env : NetEnv) : Dhcpv6ClientCtx :=
  if c.t1 ≠ DHCPV6_INFINITE_TIME then
    let t1ms := c.t1 * 1000 % U32
    if timeCompareGe env.time (c.leaseStartTime + t1ms) then
      let c := { c with configStartTime := env.time % U32 }
      dhcpv6ChangeState c DHCPV6_STATE_RENEW 0 env.time
    else c
  else c

/-- dhcpv6StateRenew: unicast Renew, with T2 expiry (suppressed for an
infinite T2) moving to REBIND. -/
def dhcpv6StateRenew (c : Dhcpv6ClientCtx) (env : NetEnv) :
    Dhcpv6ClientCtx × List NetSend :=
  if timeCompareGe env.time (c.timestamp + c.timeout) then
    let c :=
      if c.retransmitCount = 0 then { c with transactionId := env.rand % 16777216 }
      else c
    let send := dhcpv6SendMsg c DHCPV6_MSG_TYPE_RENEW env.time
    let t0 :=
      if c.retransmitCount = 0 then DHCPV6_CLIENT_REN_TIMEOUT
      else min (c.timeout * 2 % U32) DHCPV6_CLIENT_REN_MAX_RT
    let c := { c with
      timestamp := env.time % U32,
      timeout := u32ofInt ((t0 : Int) + dhcpv6Rand (t0 : Int) env.rand),
      retransmitCount := c.retransmitCount + 1 }
    (c, [send])
  else
    if c.t2 ≠ DHCPV6_INFINITE_TIME then
      let t2ms := c.t2 * 1000 % U32
      if timeCompareGe env.time (c.leaseStartTime + t2ms) then
        (dhcpv6ChangeState c DHCPV6_STATE_REBIND 0 env.time, [])
      else (c, [])
    else (c, [])

/-- dhcpv6StateRebind: multicast Rebind, with valid-lifetime expiry
(suppressed for an infinite lifetime) invalidating the global address
and restarting from INIT. -/
def dhcpv6StateRebind (c : Dhcpv6ClientCtx) (iface : NetIface) (env : NetEnv) :
    Dhcpv6ClientCtx × NetIface × List NetSend :=
  if timeCompareGe env.time (c.timestamp + c.timeout) then
    let c :=
      if c.retransmitCount = 0 then { c with transactionId := env.rand % 16777216 }
      else c
    let send := dhcpv6SendMsg c DHCPV6_MSG_TYPE_REBIND env.time
    let t0 :=
      if c.retransmitCount = 0 then DHCPV6_CLIENT_REB_TIMEOUT
      else min (c.timeout * 2 % U32) DHCPV6_CLIENT_REB_MAX_RT
    let c := { c with
      timestamp := env.time % U32,
      timeout := u32ofInt ((t0 : Int) + dhcpv6Rand (t0 : Int) env.rand),
      retransmitCount := c.retransmitCount + 1 }
    (c, iface, [send])
  else
    if c.validLifetime ≠ DHCPV6_INFINITE_TIME then
      let vms := c.validLifetime * 1000 % U32
      if timeCompareGe env.time (c.leaseStartTime + vms) then
        let iface := ipv6SetGlobalAddrEx iface IPV6_UNSPECIFIED_ADDR AddrState.invalid
        (dhcpv6ChangeState c DHCPV6_STATE_INIT 0 env.time, iface, [])
      else (c, iface, [])
    else (c, iface, [])

/-- dhcpv6StateDecline: one-shot Decline series capped at DEC_MAX_RC
attempts, then back to INIT.  (dhcpv6ClientTick never dispatches to this
handler: the DECLINE state falls into the default case.) -/
def dhcpv6StateDecline (c : Dhcpv6ClientCtx) (env : NetEnv) :
    Dhcpv6ClientCtx × List NetSend :=
  if timeCompareGe env.time (c.timestamp + c.timeout) then
    if c.retransmitCount = 0 then
      let c := { c with transactionId := env.rand % 16777216 }
      let send := dhcpv6SendMsg c DHCPV6_MSG_TYPE_DECLINE env.time
      let t0 := (DHCPV6_CLIENT_DEC_TIMEOUT : Int)
      let c := { c with
        timestamp := env.time % U32,
        timeout := u32ofInt (t0 + dhcpv6Rand t0 env.rand),
        retransmitCount := c.retransmitCount + 1 }
      (c, [send])
    else if c.retransmitCount < DHCPV6_CLIENT_DEC_MAX_RC then
      let send := dhcpv6SendMsg c DHCPV6_MSG_TYPE_DECLINE env.time
      let t0 := c.timeout * 2 % U32
      let c := { c with
        timestamp := env.time % U32,
        timeout := u32ofInt ((t0 : Int) + dhcpv6Rand (t0 : Int) env.rand),
        retransmitCount := c.retransmitCount + 1 }
      (c, [send])
    else (dhcpv6ChangeState c DHCPV6_STATE_INIT 0 env.time, [])
  else (c, [])

/-- dhcpv6ClientTick: dispatch on the current state.  The switch has no
case for DECLINE, so both the DECLINE state and every unrecognized state
value fall into the default case, which resets the FSM to INIT. -/
def dhcpv6ClientTick (c : Dhcpv6ClientCtx) (iface : NetIface) (env : NetEnv) :
    Dhcpv6ClientCtx × NetIface × List NetSend :=
  if c.state = DHCPV6_STATE_INIT then (dhcpv6StateInit c iface env, iface, [])
  else if c.state = DHCPV6_STATE_SOLICIT then
    let r := dhcpv6StateSolicit c env
    (r.1, iface, r.2)
  else if c.state = DHCPV6_STATE_REQUEST then
    let r := dhcpv6StateRequest c env
    (r.1, iface, r.2)
  else if c.state = DHCPV6_STATE_INIT_CONFIRM then
    (dhcpv6StateInitConfirm c iface env, iface, [])
  else if c.state = DHCPV6_STATE_CONFIRM then
    let r := dhcpv6StateConfirm c env
    (r.1, iface, r.2)
  else if c.state = DHCPV6_STATE_BOUND then (dhcpv6StateBound c env, iface, [])
  else if c.state = DHCPV6_STATE_RENEW then
    let r := dhcpv6StateRenew c env
    (r.1, iface, r.2)
  else if c.state = DHCPV6_STATE_REBIND then dhcpv6StateRebind c iface env
  else ({ c with state := DHCPV6_STATE_INIT }, iface, [])

/-- dhcpv6ParseIaNaOption: validate one IA_NA option value and record
the address and the timers; invalid options are rejected with
ERROR_INVALID_OPTION before any context field is written. -/
def dhcpv6ParseIaNaOption (c : Dhcpv6ClientCtx) (ifaceId : Nat)
    (optValue : List Nat) : Except ErrorT Dhcpv6ClientCtx :=
  if optValue.length < 12 then .error .invalidOption
  else
    let t1v := load32be (optValue.drop 4)
    let t2v := load32be (optValue.drop 8)
    let subOpts := optValue.drop 12
    if load32be optValue ≠ ifaceId then .error .invalidOption
    else if t1v > t2v ∧ t2v > 0 then .error .invalidOption
    else if dhcpv6ParseStatusCodeOption subOpts then .error .invalidOption
    else
      match dhcpv6GetOption subOpts DHCPV6_OPTION_IAADDR with
      | none => .error .invalidOption
      | some addrVal =>
        if addrVal.length < 24 then .error .invalidOption
        else
          let preferred := load32be (addrVal.drop 16)
          let validLt := load32be (addrVal.drop 20)
          if preferred > validLt then .error .invalidOption
          else
            let c := { c with clientAddr := addrVal.take 16, t1 := t1v, t2 := t2v,
                              preferredLifetime := preferred, validLifetime := validLt }
            let c := if c.t1 = 0 then { c with t1 := c.preferredLifetime / 2 } else c
            let c := if c.t2 = 0 then { c with t2 := (c.t1 + c.t1 / 2) % U32 } else c
            .ok c

/-- The DNS-server copy loop of dhcpv6ParseReply. -/
def dhcpv6CopyDnsServers (dns : List (List Nat)) (value : List Nat) (n : Nat) :
    List (List Nat) :=
  (List.range n).foldl (fun d i => d.set i ((value.drop (16 * i)).take 16)) dns

/-- The IA_NA scan loop of dhcpv6ParseReply: search the remaining option
bytes for an IA_NA option; on a parse failure skip forward by the size
of the found option (counted from the current position, as in the C
loop) and continue; on success commit the lease: record the server DUID,
the DNS servers (unless manual DNS), assign the address in Valid state,
stamp the lease start and enter BOUND.  The fuel argument only bounds
the number of iterations so that the recursion is structural (each
iteration advances the offset by at least four bytes, so a fuel of
one more than the option-bytes length is never exhausted before the
loop ends). -/
def dhcpv6ParseReplyLoop (c : Dhcpv6ClientCtx) (iface : NetIface)
    (opts : List Nat) (serverDuid : List Nat) (time : Nat) :
    Nat → Nat → Except ErrorT (Dhcpv6ClientCtx × NetIface)
  | 0, _ => .error .invalidMessage
  | fuel + 1, i =>
  if i < opts.length then
    match dhcpv6GetOption (opts.drop i) DHCPV6_OPTION_IA_NA with
    | none => .error .invalidMessage
    | some iaNaVal =>
      match dhcpv6ParseIaNaOption c iface.id iaNaVal with
      | .error _ =>
        dhcpv6ParseReplyLoop c iface opts serverDuid time fuel (i + 4 + iaNaVal.length)
      | .ok c1 =>
        let c2 := { c1 with serverId := serverDuid }
        let iface :=
          if c2.settings.manualDnsConfig then iface
          else
            match dhcpv6GetOption opts DHCPV6_OPTION_DNS_SERVERS with
            | some v =>
              if v.length % 16 = 0 then
                { iface with ipv6 := { iface.ipv6 with
                    dnsServer := dhcpv6CopyDnsServers iface.ipv6.dnsServer v
                      (min (v.length / 16) IPV6_MAX_DNS_SERVERS) } }
              else iface
            | none => iface
        let iface := ipv6SetGlobalAddrEx iface c2.clientAddr AddrState.valid
        let c3 := { c2 with leaseStartTime := time % U32 }
        .ok (dhcpv6ChangeState c3 DHCPV6_STATE_BOUND 0 time, iface)
  else .error .invalidMessage

/-- The state-dependent Server Identifier validation of
dhcpv6ParseReply: in SOLICIT a Reply is acceptable only with rapid
commit enabled and a Rapid Commit option present (and then the server
DUID is recorded at once); in REQUEST/RENEW the server DUID must be
byte-equal to the recorded one; in CONFIRM/REBIND (and the other
dispatch states) it is not compared. -/
def dhcpv6ReplyCheckServerId (c : Dhcpv6ClientCtx) (msg : Dhcpv6Message)
    (sid : List Nat) : Dhcpv6ClientCtx × Option ErrorT :=
  if c.state = DHCPV6_STATE_SOLICIT then
    if ¬c.settings.rapidCommit then (c, some .invalidMessage)
    else
      match dhcpv6GetOption msg.options DHCPV6_OPTION_RAPID_COMMIT with
      | none => (c, some .invalidMessage)
      | some rc =>
        if rc.length ≠ 0 then (c, some .invalidMessage)
        else ({ c with serverId := sid }, none)
  else if c.state = DHCPV6_STATE_REQUEST ∨ c.state = DHCPV6_STATE_RENEW then
    if sid.length ≠ c.serverId.length then (c, some .invalidMessage)
    else if sid ≠ c.serverId then (c, some .invalidMessage)
    else (c, none)
  else (c, none)

/-- dhcpv6ParseReply: validate a Reply message (length, type, xid,
byte-equal Client Identifier, well-formed Server Identifier, rapid
commit in SOLICIT, byte-equal server DUID in REQUEST/RENEW, status
code), then scan its IA_NA options.  The result carries the possibly
updated context and interface together with the error code, because the
SOLICIT rapid-commit branch records the server DUID in the context
before the status-code check can still reject the message. -/
def dhcpv6ParseReply (c : Dhcpv6ClientCtx) (iface : NetIface)
    (msg : Dhcpv6Message) (len : Nat) (time : Nat) :
    (Dhcpv6ClientCtx × NetIface) × Option ErrorT :=
  if len < 4 then ((c, iface), some .invalidMessage)
  else if msg.msgType ≠ DHCPV6_MSG_TYPE_REPLY then ((c, iface), some .invalidMessage)
  else if msg.transactionId ≠ c.transactionId then ((c, iface), some .invalidMessage)
  else
    match dhcpv6GetOption msg.options DHCPV6_OPTION_CLIENTID with
    | none => ((c, iface), some .invalidMessage)
    | some cid =>
      if cid.length ≠ c.clientId.length then ((c, iface), some .invalidMessage)
      else if cid ≠ c.clientId then ((c, iface), some .invalidMessage)
      else
        match dhcpv6GetOption msg.options DHCPV6_OPTION_SERVERID with
        | none => ((c, iface), some .invalidMessage)
        | some sid =>
          if sid.length = 0 then ((c, iface), some .invalidMessage)
          else if sid.length ≥ DHCPV6_MAX_DUID_SIZE then ((c, iface), some .invalidMessage)
          else
            match dhcpv6ReplyCheckServerId c msg sid with
            | (c, some e) => ((c, iface), some e)
            | (c, none) =>
              if dhcpv6ParseStatusCodeOption msg.options then
                ((c, iface), some .noAddrsAvailable)
              else
                match dhcpv6ParseReplyLoop c iface msg.options sid time (msg.options.length + 1) 0 with
                | .ok r => (r, none)
                | .error e => ((c, iface), some e)

/-- The server-selection step of dhcpv6ParseAdvertise: record the
server with the highest preference seen so far, and complete the
message exchange at once when the preference is 255 or when the first
retransmission has already elapsed. -/
def dhcpv6AdvertiseSelect (c : Dhcpv6ClientCtx) (sid : List Nat) (pref : Int)
    (time : Nat) : Dhcpv6ClientCtx :=
  let c :=
    if pref > c.serverPreference then
      { c with serverPreference := pref, serverId := sid }
    else c
  if pref = DHCPV6_MAX_SERVER_PREFERENCE then
    dhcpv6ChangeState c DHCPV6_STATE_REQUEST 0 time
  else if c.retransmitCount > 1 then
    dhcpv6ChangeState c DHCPV6_STATE_REQUEST 0 time
  else c

/-- dhcpv6ParseAdvertise: with rapid commit enabled, first try to accept
the message as a Reply; otherwise validate the Advertise (length, type,
xid, byte-equal Client Identifier, Server Identifier of non-zero length
strictly below DHCPV6_MAX_DUID_SIZE, no NoAddrsAvail status), record the
server with the highest preference, and complete the exchange at once
for preference 255 or after the first retransmission. -/
def dhcpv6ParseAdvertise (c : Dhcpv6ClientCtx) (iface : NetIface)
    (msg : Dhcpv6Message) (len : Nat) (time : Nat) :
    (Dhcpv6ClientCtx × NetIface) × Option ErrorT :=
  let rcTry :=
    if c.settings.rapidCommit then dhcpv6ParseReply c iface msg len time
    else ((c, iface), some .invalidMessage)
  match rcTry with
  | (r, none) => (r, none)
  | ((c, iface), some _) =>
    if len < 4 then ((c, iface), some .invalidMessage)
    else if msg.msgType ≠ DHCPV6_MSG_TYPE_ADVERTISE then ((c, iface), some .invalidMessage)
    else if msg.transactionId ≠ c.transactionId then ((c, iface), some .invalidMessage)
    else
      match dhcpv6GetOption msg.options DHCPV6_OPTION_CLIENTID with
      | none => ((c, iface), some .invalidMessage)
      | some cid =>
        if cid.length ≠ c.clientId.length then ((c, iface), some .invalidMessage)
        else if cid ≠ c.clientId then ((c, iface), some .invalidMessage)
        else
          match dhcpv6GetOption msg.options DHCPV6_OPTION_SERVERID with
          | none => ((c, iface), some .invalidMessage)
          | some sid =>
            if sid.length = 0 then ((c, iface), some .invalidMessage)
            else if sid.length ≥ DHCPV6_MAX_DUID_SIZE then
              ((c, iface), some .invalidMessage)
            else if dhcpv6ParseStatusCodeOption msg.options then
              ((c, iface), some .invalidMessage)
            else
              ((dhcpv6AdvertiseSelect c sid
                  (match dhcpv6GetOption msg.options DHCPV6_OPTION_PREFERENCE with
                   | some v => if v.length = 1 then (v.getD 0 0 : Int) else 0
                   | none => 0) time, iface), none)

/-- dhcpv6ClientProcessMessage: the UDP receive callback; check the
4-byte minimum length and dispatch on the current state (Advertise in
SOLICIT, Reply in REQUEST/CONFIRM/RENEW/REBIND/DECLINE), dropping the
message in all other states; a parse error leaves everything unchanged. -/
def dhcpv6ClientProcessMessage (c : Dhcpv6ClientCtx) (iface : NetIface)
    (msg : Dhcpv6Message) (len : Nat) (env : NetEnv) :
    Dhcpv6ClientCtx × NetIface :=
  if len < 4 then (c, iface)
  else if c.state = DHCPV6_STATE_SOLICIT then
    (dhcpv6ParseAdvertise c iface msg len env.time).1
  else if c.state = DHCPV6_STATE_REQUEST ∨ c.state = DHCPV6_STATE_CONFIRM ∨
          c.state = DHCPV6_STATE_RENEW ∨ c.state = DHCPV6_STATE_REBIND ∨
          c.state = DHCPV6_STATE_DECLINE then
    (dhcpv6ParseReply c iface msg len env.time).1
  else (c, iface)

/-- dhcpv6ClientLinkChangeEvent: when running, invalidate the global
address; re-enter INIT-CONFIRM when a prior lease exists
(state ≥ INIT-CONFIRM) and INIT otherwise. -/
def dhcpv6ClientLinkChangeEvent (c : Dhcpv6ClientCtx) (iface : NetIface) :
    Dhcpv6ClientCtx × NetIface :=
  let iface :=
    if c.running then ipv6SetGlobalAddrEx iface IPV6_UNSPECIFIED_ADDR AddrState.invalid
    else iface
  let c :=
    if c.state ≥ DHCPV6_STATE_INIT_CONFIRM then { c with state := DHCPV6_STATE_INIT_CONFIRM }
    else { c with state := DHCPV6_STATE_INIT }
  (c, iface)

/-- The context produced by a successful dhcpv6ClientInit: the context
is zeroed, the settings copied, the DUID-LL client identifier generated
from the interface MAC (type 3, hardware type 1, 6-byte address),
running cleared and the state set to INIT. -/
def dhcpv6InitialCtx (s : Dhcpv6ClientSettings) (iface : NetIface) :
    Dhcpv6ClientCtx :=
  { settings := s, running := false, state := DHCPV6_STATE_INIT,
    timeoutEventDone := false, timestamp := 0, timeout := 0,
    retransmitCount := 0,
    clientId := [0, 3, 0, 1] ++ iface.macAddr,
    clientAddr := IPV6_UNSPECIFIED_ADDR, serverId := [],
    serverPreference := 0, transactionId := 0, configStartTime := 0,
    exchangeStartTime := 0, leaseStartTime := 0, t1 := 0, t2 := 0,
    preferredLifetime := 0, validLifetime := 0 }

/-- dhcpv6ClientInit. -/
def dhcpv6ClientInit (context : Option Dhcpv6ClientCtx)
    (settings : Option Dhcpv6ClientSettings) (ifacePtr : Option NetIface)
    (mutexOk : Bool) (udpAttachOk : Bool) : Except ErrorT Dhcpv6ClientCtx :=
  match context with
  | none => .error .invalidParameter
  | some _ =>
    match settings with
    | none => .error .invalidParameter
    | some s =>
      match ifacePtr with
      | none => .error .invalidParameter
      | some iface =>
        if ¬mutexOk then .error .outOfResources
        else if ¬udpAttachOk then .error .outOfResources
        else .ok (dhcpv6InitialCtx s iface)

/-- dhcpv6ClientStart. -/
def dhcpv6ClientStart (context : Option Dhcpv6ClientCtx) :
    Except ErrorT Dhcpv6ClientCtx :=
  match context with
  | none => .error .invalidParameter
  | some c => .ok { c with running := true, state := DHCPV6_STATE_INIT }

/-- dhcpv6ClientStop: NULL check, then clear the running flag and reset
the FSM to INIT; the interface is not touched. -/
def dhcpv6ClientStop (context : Option Dhcpv6ClientCtx) (iface : NetIface) :
    Except ErrorT (Dhcpv6ClientCtx × NetIface) :=
  match context with
  | none => .error .invalidParameter
  | some c => .ok ({ c with running := false, state := DHCPV6_STATE_INIT }, iface)

/-- dhcpv6ClientGetState: the source performs no NULL check and
dereferences the context immediately. -/
def dhcpv6ClientGetState (context : Option Dhcpv6ClientCtx) : Except ErrorT Nat :=
  match context with
  | none => .error .nullDereference
  | some c => .ok c.state

/-! ## SLAAC engine

slaac.h is outside the repository slice; the state encoding below is
modelled from the spec's enumeration {INIT, LINK-LOCAL-ADDR-DAD,
ROUTER-SOLICIT, GLOBAL-ADDR-DAD, CONFIGURED, NO-ROUTER, DAD-FAILURE} in
C enum order.  No claim depends on the numeric values, only on the set
having exactly these seven members. -/

def SLAAC_STATE_INIT : Nat := 0
def SLAAC_STATE_LINK_LOCAL_ADDR_DAD : Nat := 1
def SLAAC_STATE_ROUTER_SOLICIT : Nat := 2
def SLAAC_STATE_GLOBAL_ADDR_DAD : Nat := 3
def SLAAC_STATE_CONFIGURED : Nat := 4
def SLAAC_STATE_NO_ROUTER : Nat := 5
def SLAAC_STATE_DAD_FAILURE : Nat := 6

def NDP_OPT_PREFIX_INFORMATION : Nat := 3
def NDP_OPT_RECURSIVE_DNS_SERVER : Nat := 25

/-- The first four 16-bit words of fe80::/64, the link-local prefix. -/
def IPV6_LINK_LOCAL_ADDR_PREFIX_64 : List Nat := [0xFE80, 0, 0, 0]

/-- macAddrToEui64: build the modified EUI-64 interface identifier from
a 6-byte MAC address — OUI, then 0xFFFE, then the low 24 bits, with the
Universal/Local bit (0x02 of the first byte) inverted.  The result is
returned as four 16-bit words. -/
def macAddrToEui64 (mac : List Nat) : List Nat :=
  [(Nat.xor (mac.getD 0 0) 2) * 256 + mac.getD 1 0,
   mac.getD 2 0 * 256 + 0xFF,
   0xFE * 256 + mac.getD 3 0,
   mac.getD 4 0 * 256 + mac.getD 5 0]

/-- A Prefix Information option of a Router Advertisement (the fields
slaacProcessRouterAdv reads): the declared option length in 8-byte
units, the Autonomous flag, the prefix length, the lifetimes (host
order; the code applies ntohl) and the prefix as eight 16-bit words. -/
structure NdpPrefixInfoOption where
  len : Nat
  a : Bool
  pfxLen : Nat
  validLifetime : Nat
  preferredLifetime : Nat
  pfx : List Nat
  deriving DecidableEq

/-- A Recursive DNS Server option: declared length in 8-byte units and
the carried IPv6 addresses. -/
structure NdpRdnssOption where
  len : Nat
  addresses : List (List Nat)
  deriving DecidableEq

/-- A decoded NDP option of a Router Advertisement. -/
inductive NdpOption where
  | prefixInfo (p : NdpPrefixInfoOption)
  | rdnss (r : NdpRdnssOption)
  | other (t : Nat)
  deriving DecidableEq

/-- The type byte of a decoded NDP option. -/
def NdpOption.optType : NdpOption → Nat
  | .prefixInfo _ => NDP_OPT_PREFIX_INFORMATION
  | .rdnss _ => NDP_OPT_RECURSIVE_DNS_SERVER
  | .other t => t

/-- Modelled from the spec: ndp.c is outside the repository slice.
ndpGetOption returns the first option of the requested type, scanning
the option list in order. -/
def ndpGetOption (opts : List NdpOption) (t : Nat) : Option NdpOption :=
  opts.find? (fun o => o.optType == t)

/-- A Router Advertisement as seen by slaacProcessRouterAdv. -/
structure NdpRouterAdvMessage where
  options : List NdpOption
  deriving DecidableEq

/-- SLAAC settings. -/
structure SlaacSettings where
  minRtrSolicitationDelay : Nat
  maxRtrSolicitationDelay : Nat
  rtrSolicitationInterval : Nat
  maxRtrSolicitations : Nat
  dupAddrDetectTransmits : Nat
  manualDnsConfig : Bool
  parseRouterAdvCallback : Bool
  deriving DecidableEq

/-- The SLAAC context (SlaacContext). -/
structure SlaacContext where
  settings : SlaacSettings
  running : Bool
  state : Nat
  timestamp : Nat
  timeout : Nat
  retransmitCount : Nat
  deriving DecidableEq

/-- slaacTick: the INIT, LINK-LOCAL-ADDR-DAD, ROUTER-SOLICIT and
GLOBAL-ADDR-DAD states are handled by an if/else-if chain; every other
state value (including CONFIGURED, NO-ROUTER, DAD-FAILURE and values
outside the enumeration) leaves the context untouched. -/
def slaacTick (c : SlaacContext) (iface : NetIface) (env : NetEnv) :
    SlaacContext × NetIface × List NetSend :=
  if c.state = SLAAC_STATE_INIT then
    if c.running ∧ iface.linkState then
      let iid := macAddrToEui64 iface.macAddr
      let linkLocalAddr := IPV6_LINK_LOCAL_ADDR_PREFIX_64 ++ iid
      let iface := ipv6SetLinkLocalAddrEx iface linkLocalAddr AddrState.tentative
      let c := { c with timestamp := env.time % U32, timeout := 0,
                        retransmitCount := 0,
                        state := SLAAC_STATE_LINK_LOCAL_ADDR_DAD }
      (c, iface, [])
    else (c, iface, [])
  else if c.state = SLAAC_STATE_LINK_LOCAL_ADDR_DAD then
    if timeCompareGe env.time (c.timestamp + c.timeout) then
      if iface.ipv6.linkLocalAddrDup then
        let iface := ipv6SetLinkLocalAddrEx iface IPV6_UNSPECIFIED_ADDR AddrState.invalid
        ({ c with state := SLAAC_STATE_DAD_FAILURE }, iface, [])
      else if c.retransmitCount < c.settings.dupAddrDetectTransmits then
        let send := NetSend.ndpNeighborSol iface.ipv6.linkLocalAddr
        let c := { c with timestamp := env.time % U32,
                          timeout := iface.ipv6.retransTimer,
                          retransmitCount := c.retransmitCount + 1 }
        (c, iface, [send])
      else
        let iface := { iface with
          ipv6 := { iface.ipv6 with linkLocalAddrState := AddrState.preferred } }
        let delay := u32ofInt (env.randRange
          (c.settings.minRtrSolicitationDelay : Int)
          (c.settings.maxRtrSolicitationDelay : Int))
        let c := { c with timestamp := env.time % U32, timeout := delay,
                          retransmitCount := 0,
                          state := SLAAC_STATE_ROUTER_SOLICIT }
        (c, iface, [])
    else (c, iface, [])
  else if c.state = SLAAC_STATE_ROUTER_SOLICIT then
    if timeCompareGe env.time (c.timestamp + c.timeout) then
      if c.retransmitCount < c.settings.maxRtrSolicitations then
        let c := { c with timestamp := env.time % U32,
                          timeout := c.settings.rtrSolicitationInterval,
                          retransmitCount := c.retransmitCount + 1 }
        (c, iface, [NetSend.ndpRouterSol])
      else
        ({ c with state := SLAAC_STATE_NO_ROUTER }, iface, [])
    else (c, iface, [])
  else if c.state = SLAAC_STATE_GLOBAL_ADDR_DAD then
    if timeCompareGe env.time (c.timestamp + c.timeout) then
      if iface.ipv6.globalAddrDup then
        let iface := ipv6SetGlobalAddrEx iface IPV6_UNSPECIFIED_ADDR AddrState.invalid
        ({ c with state := SLAAC_STATE_DAD_FAILURE }, iface, [])
      else if c.retransmitCount < c.settings.dupAddrDetectTransmits then
        let send := NetSend.ndpNeighborSol iface.ipv6.globalAddr
        let c := { c with timestamp := env.time % U32,
                          timeout := iface.ipv6.retransTimer,
                          retransmitCount := c.retransmitCount + 1 }
        (c, iface, [send])
      else
        let iface := { iface with
          ipv6 := { iface.ipv6 with globalAddrState := AddrState.preferred } }
        ({ c with state := SLAAC_STATE_CONFIGURED }, iface, [])
    else (c, iface, [])
  else (c, iface, [])

/-- slaacProcessRouterAdv: the user-registered RA-parse callback is
invoked first, before any validation or state check (the returned flag
records whether it fired); the message is then discarded unless the
engine is in ROUTER-SOLICIT or NO-ROUTER.  The first Prefix Information
option is extracted and must pass all checks — declared length 4,
Autonomous set, prefix distinct from the link-local prefix, non-zero
valid lifetime, preferred ≤ valid, prefix length 64 — otherwise the
message is dropped.  On success the prefix is stored, the global
address prefix ‖ EUI-64 is assigned in Tentative state, DNS servers are
taken from an RDNSS option unless manual DNS, and the engine enters
GLOBAL-ADDR-DAD. -/
def slaacProcessRouterAdv (c : SlaacContext) (iface : NetIface)
    (msg : NdpRouterAdvMessage) (env : NetEnv) :
    SlaacContext × NetIface × Bool :=
  let fired := c.settings.parseRouterAdvCallback
  if c.state ≠ SLAAC_STATE_ROUTER_SOLICIT ∧ c.state ≠ SLAAC_STATE_NO_ROUTER then
    (c, iface, fired)
  else
    match ndpGetOption msg.options NDP_OPT_PREFIX_INFORMATION with
    | none => (c, iface, fired)
    | some opt =>
      match opt with
      | .rdnss _ => (c, iface, fired)
      | .other _ => (c, iface, fired)
      | .prefixInfo pi =>
        if pi.len ≠ 4 then (c, iface, fired)
        else if ¬pi.a then (c, iface, fired)
        else if pi.pfx.take 4 = IPV6_LINK_LOCAL_ADDR_PREFIX_64 then (c, iface, fired)
        else if pi.validLifetime = 0 then (c, iface, fired)
        else if pi.preferredLifetime > pi.validLifetime then (c, iface, fired)
        else if pi.pfxLen ≠ 64 then (c, iface, fired)
        else
          let iface := ipv6SetPfx iface pi.pfx pi.pfxLen
          let iid := macAddrToEui64 iface.macAddr
          let globalAddr := pi.pfx.take 4 ++ iid
          let iface := ipv6SetGlobalAddrEx iface globalAddr AddrState.tentative
          let iface :=
            if c.settings.manualDnsConfig then iface
            else
              match ndpGetOption msg.options NDP_OPT_RECURSIVE_DNS_SERVER with
              | some (.rdnss r) =>
                if 1 ≤ r.len then
                  let n := (r.len - 1) / 2
                  (List.range n).foldl
                    (fun ifc i => ipv6SetDnsServer ifc i (r.addresses.getD i IPV6_UNSPECIFIED_ADDR))
                    iface
                else iface
              | _ => iface
          let c := { c with timestamp := env.time % U32, timeout := 0,
                            retransmitCount := 0,
                            state := SLAAC_STATE_GLOBAL_ADDR_DAD }
          (c, iface, fired)

/-- slaacLinkChangeEvent: when running, invalidate the link-local and
global addresses and clear the prefix; always reinitialize the FSM. -/
def slaacLinkChangeEvent (c : SlaacContext) (iface : NetIface) :
    SlaacContext × NetIface :=
  let iface :=
    if c.running then
      let iface := ipv6SetLinkLocalAddrEx iface IPV6_UNSPECIFIED_ADDR AddrState.invalid
      let iface := ipv6SetGlobalAddrEx iface IPV6_UNSPECIFIED_ADDR AddrState.invalid
      ipv6SetPfx iface IPV6_UNSPECIFIED_ADDR 0
    else iface
  ({ c with state := SLAAC_STATE_INIT }, iface)

/-- The context produced by a successful slaacInit. -/
def slaacInitialCtx (s : SlaacSettings) : SlaacContext :=
  { settings := s, running := false, state := SLAAC_STATE_INIT,
    timestamp := 0, timeout := 0, retransmitCount := 0 }

/-- slaacInit: validate the context, settings and interface pointers,
then build the context (mutex creation may fail). -/
def slaacInit (context : Option SlaacContext) (settings : Option SlaacSettings)
    (ifacePtr : Option NetIface) (mutexOk : Bool) : Except ErrorT SlaacContext :=
  match context with
  | none => .error .invalidParameter
  | some _ =>
    match settings with
    | none => .error .invalidParameter
    | some s =>
      match ifacePtr with
      | none => .error .invalidParameter
      | some _ =>
        if ¬mutexOk then .error .outOfResources
        else .ok (slaacInitialCtx s)

/-- slaacStart. -/
def slaacStart (context : Option SlaacContext) : Except ErrorT SlaacContext :=
  match context with
  | none => .error .invalidParameter
  | some c => .ok { c with running := true, state := SLAAC_STATE_INIT }

/-- slaacStop: NULL check, then clear the running flag and reset the FSM
to INIT; the interface is not touched. -/
def slaacStop (context : Option SlaacContext) (iface : NetIface) :
    Except ErrorT (SlaacContext × NetIface) :=
  match context with
  | none => .error .invalidParameter
  | some c => .ok ({ c with running := false, state := SLAAC_STATE_INIT }, iface)

/-- slaacGetState: the source performs no NULL check and dereferences
the context immediately. -/
def slaacGetState (context : Option SlaacContext) : Except ErrorT Nat :=
  match context with
  | none => .error .nullDereference
  | some c => .ok c.state

/-! ## Event systems

Each engine's public operations, as invoked by the surrounding stack:
the periodic tick, the receive callback, the link-change hook and the
user's start/stop.  Each event carries the interface snapshot and the
environment oracle consulted during the call.  Reachability of a context
is closure of the freshly initialized context under these events. -/

/-- One invocation of a DHCPv4 client public operation. -/
inductive DhcpEvent where
  | tick (iface : NetIface) (env : NetEnv)
  | receive (iface : NetIface) (msg : DhcpMessage) (len : Nat) (env : NetEnv)
  | linkChange (iface : NetIface)
  | start
  | stop (iface : NetIface)

/-- The effect of one DHCPv4 event on the context, with the datagrams
transmitted during the call. -/
def dhcpStep (c : DhcpClientCtx) : DhcpEvent → DhcpClientCtx × List NetSend
  | .tick iface env =>
    let r := dhcpClientTick c iface env
    (r.1, r.2.2)
  | .receive iface msg len env => ((dhcpClientProcessMessage c iface msg len env).1, [])
  | .linkChange iface => ((dhcpClientLinkChangeEvent c iface).1, [])
  | .start =>
    (match dhcpClientStart (some c) with | .ok c1 => c1 | .error _ => c, [])
  | .stop iface =>
    (match dhcpClientStop (some c) iface with
     | .ok r => r.1 | .error _ => c, [])

/-- A DHCPv4 context reachable from initialization through the public
operations. -/
inductive DhcpReach : DhcpClientCtx → Prop where
  | initial (s : DhcpClientSettings) : DhcpReach (dhcpInitialCtx s)
  | step (c : DhcpClientCtx) (e : DhcpEvent) : DhcpReach c → DhcpReach (dhcpStep c e).1

/-- A sequence of DHCPv4 tick invocations and everything they send. -/
def dhcpTickTrace (c : DhcpClientCtx) :
    List (NetIface × NetEnv) → DhcpClientCtx × List NetSend
  | [] => (c, [])
  | (iface, env) :: rest =>
    let r := dhcpClientTick c iface env
    let r2 := dhcpTickTrace r.1 rest
    (r2.1, r.2.2 ++ r2.2)

/-- One invocation of a DHCPv6 client public operation. -/
inductive Dhcpv6Event where
  | tick (iface : NetIface) (env : NetEnv)
  | receive (iface : NetIface) (msg : Dhcpv6Message) (len : Nat) (env : NetEnv)
  | linkChange (iface : NetIface)
  | start
  | stop (iface : NetIface)

/-- The effect of one DHCPv6 event on the context. -/
def dhcpv6Step (c : Dhcpv6ClientCtx) : Dhcpv6Event → Dhcpv6ClientCtx × List NetSend
  | .tick iface env =>
    let r := dhcpv6ClientTick c iface env
    (r.1, r.2.2)
  | .receive iface msg len env => ((dhcpv6ClientProcessMessage c iface msg len env).1, [])
  | .linkChange iface => ((dhcpv6ClientLinkChangeEvent c iface).1, [])
  | .start =>
    (match dhcpv6ClientStart (some c) with | .ok c1 => c1 | .error _ => c, [])
  | .stop iface =>
    (match dhcpv6ClientStop (some c) iface with
     | .ok r => r.1 | .error _ => c, [])

/-- A DHCPv6 context reachable from initialization through the public
operations. -/
inductive Dhcpv6Reach : Dhcpv6ClientCtx → Prop where
  | initial (s : Dhcpv6ClientSettings) (iface : NetIface) :
      Dhcpv6Reach (dhcpv6InitialCtx s iface)
  | step (c : Dhcpv6ClientCtx) (e : Dhcpv6Event) :
      Dhcpv6Reach c → Dhcpv6Reach (dhcpv6Step c e).1

/-- A sequence of DHCPv6 tick invocations and everything they send. -/
def dhcpv6TickTrace (c : Dhcpv6ClientCtx) :
    List (NetIface × NetEnv) → Dhcpv6ClientCtx × List NetSend
  | [] => (c, [])
  | (iface, env) :: rest =>
    let r := dhcpv6ClientTick c iface env
    let r2 := dhcpv6TickTrace r.1 rest
    (r2.1, r.2.2 ++ r2.2)

/-- One invocation of a SLAAC public operation. -/
inductive SlaacEvent where
  | tick (iface : NetIface) (env : NetEnv)
  | receiveRA (iface : NetIface) (msg : NdpRouterAdvMessage) (env : NetEnv)
  | linkChange (iface : NetIface)
  | start
  | stop (iface : NetIface)

/-- The effect of one SLAAC event on the context. -/
def slaacStep (c : SlaacContext) : SlaacEvent → SlaacContext × List NetSend
  | .tick iface env =>
    let r := slaacTick c iface env
    (r.1, r.2.2)
  | .receiveRA iface msg env => ((slaacProcessRouterAdv c iface msg env).1, [])
  | .linkChange iface => ((slaacLinkChangeEvent c iface).1, [])
  | .start =>
    (match slaacStart (some c) with | .ok c1 => c1 | .error _ => c, [])
  | .stop iface =>
    (match slaacStop (some c) iface with
     | .ok r => r.1 | .error _ => c, [])

/-- A SLAAC context reachable from initialization through the public
operations. -/
inductive SlaacReach : SlaacContext → Prop where
  | initial (s : SlaacSettings) : SlaacReach (slaacInitialCtx s)
  | step (c : SlaacContext) (e : SlaacEvent) : SlaacReach c → SlaacReach (slaacStep c e).1

/-- A sequence of SLAAC tick invocations and everything they send. -/
def slaacTickTrace (c : SlaacContext) :
    List (NetIface × NetEnv) → SlaacContext × List NetSend
  | [] => (c, [])
  | (iface, env) :: rest =>
    let r := slaacTick c iface env
    let r2 := slaacTickTrace r.1 rest
    (r2.1, r.2.2 ++ r2.2)

/-! ## Concrete fixtures for the claim evaluations -/

/-- A concrete interface used by the concrete evaluations. -/
def testIface : NetIface :=
  { id := 7, linkState := true, macAddr := [0, 1, 2, 3, 4, 5],
    ipv4 := { addr := 0, addrState := .invalid, subnetMask := 0,
              defaultGateway := 0, dnsServer := [0, 0], mtu := 1500 },
    ipv6 := { linkLocalAddr := IPV6_UNSPECIFIED_ADDR, linkLocalAddrState := .invalid,
              linkLocalAddrDup := false, globalAddr := IPV6_UNSPECIFIED_ADDR,
              globalAddrState := .invalid, globalAddrDup := false,
              ipv6Pfx := IPV6_UNSPECIFIED_ADDR, ipv6PfxLen := 0,
              dnsServer := [IPV6_UNSPECIFIED_ADDR, IPV6_UNSPECIFIED_ADDR],
              retransTimer := 1000 } }

/-- A concrete environment oracle. -/
def testEnv : NetEnv := { time := 1000, rand := 0, randRange := fun lo _ => lo }

/-- Concrete DHCPv4 settings. -/
def testDhcpSettings : DhcpClientSettings :=
  { rapidCommit := false, manualDnsConfig := false, timeout := 0,
    timeoutEvent := false, linkChangeEvent := false, stateChangeEvent := false }

/-- A DHCPv4 context waiting in REQUESTING for an Ack from server
1.2.3.4 under transaction id 42. -/
def c1Ctx : DhcpClientCtx :=
  { dhcpInitialCtx testDhcpSettings with
    state := DHCP_STATE_REQUESTING,
    transactionId := 42,
    serverIpAddr := 0x01020304 }

/-- A DHCPACK carrying leaseTime = 10 s and a server-supplied
Renewal-T1 of 100 s, with no Rebinding-T2 option. -/
def c1Msg : DhcpMessage :=
  { op := 2, htype := 1, hlen := 6, xid := 42, yiaddr := 0x0A000002,
    chaddr := [0, 1, 2, 3, 4, 5], magicCookie := DHCP_MAGIC_COOKIE,
    options := [⟨53, [5]⟩, ⟨54, [1, 2, 3, 4]⟩, ⟨51, [0, 0, 0, 10]⟩,
                ⟨58, [0, 0, 0, 100]⟩] }

/-- The same Ack with both options omitted and leaseTime = 0x80000000 s:
the uint32 default T2 computation leaseTime * 7 / 8 wraps. -/
def c1MsgWrap : DhcpMessage :=
  { op := 2, htype := 1, hlen := 6, xid := 42, yiaddr := 0x0A000002,
    chaddr := [0, 1, 2, 3, 4, 5], magicCookie := DHCP_MAGIC_COOKIE,
    options := [⟨53, [5]⟩, ⟨54, [1, 2, 3, 4]⟩, ⟨51, [128, 0, 0, 0]⟩] }

/-- The same Ack with both the Renewal and Rebinding options omitted
(the default-derivation path), leaseTime = 600 s. -/
def c1MsgDefaults : DhcpMessage :=
  { op := 2, htype := 1, hlen := 6, xid := 42, yiaddr := 0x0A000002,
    chaddr := [0, 1, 2, 3, 4, 5], magicCookie := DHCP_MAGIC_COOKIE,
    options := [⟨53, [5]⟩, ⟨54, [1, 2, 3, 4]⟩, ⟨51, [0, 0, 2, 88]⟩] }

/-- Concrete SLAAC settings. -/
def testSlaacSettings : SlaacSettings :=
  { minRtrSolicitationDelay := 0, maxRtrSolicitationDelay := 1000,
    rtrSolicitationInterval := 4000, maxRtrSolicitations := 3,
    dupAddrDetectTransmits := 1, manualDnsConfig := false,
    parseRouterAdvCallback := true }

/-- Concrete DHCPv6 settings. -/
def testDhcpv6Settings : Dhcpv6ClientSettings :=
  { rapidCommit := false, manualDnsConfig := false, timeout := 0,
    timeoutEvent := false, linkChangeEvent := false, stateChangeEvent := false }

/-- A SLAAC context holding a state value outside the declared
enumerated set (the seven states are encoded 0–6). -/
def c2SlaacCtx : SlaacContext :=
  { settings := testSlaacSettings, running := true, state := 7,
    timestamp := 0, timeout := 0, retransmitCount := 0 }

/-- A freshly initialized DHCPv6 context. -/
def c6Ctx : Dhcpv6ClientCtx := dhcpv6InitialCtx testDhcpv6Settings testIface

/-- A concrete IA_NA option value: IAID 7, T1 = T2 = 0 (omitted), one
IA Address sub-option with preferred lifetime 100 s and valid lifetime
300 s. -/
def c3OptValue : List Nat :=
  [0, 0, 0, 7, 0, 0, 0, 0, 0, 0, 0, 0] ++
  mkDhcpv6Opt DHCPV6_OPTION_IAADDR
    ([1, 2, 3, 4, 5, 6, 7, 8, 9, 10, 11, 12, 13, 14, 15, 16] ++
     [0, 0, 0, 100] ++ [0, 0, 1, 44])

/-- The context committed by parsing c3OptValue. -/
def c3ParsedCtx : Dhcpv6ClientCtx :=
  (dhcpv6ParseIaNaOption c6Ctx 7 c3OptValue).toOption.getD c6Ctx

/-- A wire-valid IA_NA option with server-supplied T1 = 0xF0000000 and
T2 omitted (zero): it passes every validation check (T2 = 0 disables
the T1 > T2 rejection), and the uint32 derivation of T2 wraps. -/
def c3WrapOptValue : List Nat :=
  [0, 0, 0, 7] ++ [0xF0, 0, 0, 0] ++ [0, 0, 0, 0] ++
  mkDhcpv6Opt DHCPV6_OPTION_IAADDR
    ([1, 2, 3, 4, 5, 6, 7, 8, 9, 10, 11, 12, 13, 14, 15, 16] ++
     [0, 0, 0, 100] ++ [0, 0, 1, 44])

/-- The context committed by parsing c3WrapOptValue. -/
def c3WrapCtx : Dhcpv6ClientCtx :=
  (dhcpv6ParseIaNaOption c6Ctx 7 c3WrapOptValue).toOption.getD c6Ctx

/-- A DHCPv6 context soliciting with transaction id 0x123456. -/
def c4Ctx : Dhcpv6ClientCtx :=
  { c6Ctx with
    state := DHCPV6_STATE_SOLICIT,
    transactionId := 0x123456,
    serverPreference := -1 }

/-- An Advertise whose server DUID length equals DHCPV6_MAX_DUID_SIZE
(32 bytes); everything else is valid (matching xid, byte-equal client
DUID, no status code). -/
def c4Msg : Dhcpv6Message :=
  { msgType := DHCPV6_MSG_TYPE_ADVERTISE, transactionId := 0x123456,
    options := mkDhcpv6Opt DHCPV6_OPTION_CLIENTID [0, 3, 0, 1, 0, 1, 2, 3, 4, 5] ++
               mkDhcpv6Opt DHCPV6_OPTION_SERVERID (List.replicate 32 7) }

/-- The same Advertise with a 10-byte server DUID, which is accepted. -/
def c4MsgOk : Dhcpv6Message :=
  { msgType := DHCPV6_MSG_TYPE_ADVERTISE, transactionId := 0x123456,
    options := mkDhcpv6Opt DHCPV6_OPTION_CLIENTID [0, 3, 0, 1, 0, 1, 2, 3, 4, 5] ++
               mkDhcpv6Opt DHCPV6_OPTION_SERVERID (List.replicate 10 7) }

/-- A Prefix Information option satisfying every adoption condition. -/
def c7GoodPi : NdpPrefixInfoOption :=
  { len := 4, a := true, pfxLen := 64, validLifetime := 600,
    preferredLifetime := 300, pfx := [0x2001, 0xDB8, 0, 0, 0, 0, 0, 0] }

/-- The same option with the Autonomous flag clear. -/
def c7BadPi : NdpPrefixInfoOption :=
  { c7GoodPi with a := false }

/-- A SLAAC context soliciting routers. -/
def c7Ctx : SlaacContext :=
  { settings := testSlaacSettings, running := true,
    state := SLAAC_STATE_ROUTER_SOLICIT,
    timestamp := 0, timeout := 0, retransmitCount := 0 }

/-- The same SLAAC context in the CONFIGURED state. -/
def c10Ctx : SlaacContext :=
  { c7Ctx with state := SLAAC_STATE_CONFIGURED }

/-- A Router Advertisement whose first Prefix Information option fails
the Autonomous check while the second satisfies every condition. -/
def c7Msg : NdpRouterAdvMessage :=
  { options := [NdpOption.prefixInfo c7BadPi, NdpOption.prefixInfo c7GoodPi] }

/-- A Router Advertisement carrying only the satisfying option. -/
def c7MsgOk : NdpRouterAdvMessage :=
  { options := [NdpOption.prefixInfo c7GoodPi] }

/-- A freshly initialized DHCPv6 context placed in SOLICIT. -/
def c6SolCtx : Dhcpv6ClientCtx :=
  { c6Ctx with state := DHCPV6_STATE_SOLICIT, running := true }

/-- Environment of the first Solicit transmission (t = 5000 ms). -/
def c6Env1 : NetEnv :=
  { time := 5000, rand := 0, randRange := fun lo _ => lo }

/-- Environment of the first retransmission (t = 6100 ms). -/
def c6Env2 : NetEnv :=
  { time := 6100, rand := 0, randRange := fun lo _ => lo }

/-- The context after the first Solicit transmission. -/
def c6After1 : Dhcpv6ClientCtx := (dhcpv6StateSolicit c6SolCtx c6Env1).1

/-! ## Theorems -/

/-- The Renewal/Rebinding option of the message is absent or has a
malformed length, so dhcpParseAckNak takes its default derivation path
for the corresponding timer. -/
def dhcpOptionMissingOrBadLen (msg : DhcpMessage) (code : Nat) : Prop :=
  match dhcpGetOption msg.options code with
  | some o => o.value.length ≠ 4
  | none => True

theorem dhcpAckT1_default {L : Nat} {o : Option DhcpOption}
    (h : match o with | some x => x.value.length ≠ 4 | none => True) :
    dhcpAckT1 L o =
      if L ≠ DHCP_INFINITE_TIME then L / 2 else DHCP_INFINITE_TIME := by
  cases o with
  | none => rfl
  | some x =>
    simp only [dhcpAckT1]
    rw [if_neg h]

theorem dhcpAckT2_default {L : Nat} {o : Option DhcpOption}
    (h : match o with | some x => x.value.length ≠ 4 | none => True) :
    dhcpAckT2 L o =
      if L ≠ DHCP_INFINITE_TIME then L * 7 % U32 / 8 else DHCP_INFINITE_TIME := by
  cases o with
  | none => rfl
  | some x =>
    simp only [dhcpAckT2]
    rw [if_neg h]

/-- C1, counterexample.  Two accepted, committed Acks violate
T1 ≤ T2 ≤ leaseTime with a finite lease.  First, c1Msg carries a
server-supplied T1 of 100 s with a lease of 10 s and a derived T2 of
8 s: server-supplied Renewal/Rebinding values are recorded without any
validation.  Second, c1MsgWrap omits both options with a lease of
0x80000000 s, and the default uint32 computation leaseTime * 7 / 8
wraps mod 2^32: the commit records T1 = 0x40000000 but
T2 = 0x10000000 < T1, so the ordering also fails on the pure
default-derivation path. -/
theorem dhcpParseAckNak_server_t1_unchecked :
    (((dhcpParseAckNak c1Ctx testIface c1Msg 5000).1.state = DHCP_STATE_BOUND) ∧
    (dhcpParseAckNak c1Ctx testIface c1Msg 5000).1.leaseTime ≠ DHCP_INFINITE_TIME ∧
    (dhcpParseAckNak c1Ctx testIface c1Msg 5000).1.t1 = 100 ∧
    (dhcpParseAckNak c1Ctx testIface c1Msg 5000).1.t2 = 8 ∧
    ¬((dhcpParseAckNak c1Ctx testIface c1Msg 5000).1.t1 ≤
        (dhcpParseAckNak c1Ctx testIface c1Msg 5000).1.t2 ∧
      (dhcpParseAckNak c1Ctx testIface c1Msg 5000).1.t2 ≤
        (dhcpParseAckNak c1Ctx testIface c1Msg 5000).1.leaseTime)) ∧
    (((dhcpParseAckNak c1Ctx testIface c1MsgWrap 5000).1.state = DHCP_STATE_BOUND) ∧
    dhcpGetOption c1MsgWrap.options DHCP_OPT_RENEWAL_TIME_VALUE = none ∧
    dhcpGetOption c1MsgWrap.options DHCP_OPT_REBINDING_TIME_VALUE = none ∧
    (dhcpParseAckNak c1Ctx testIface c1MsgWrap 5000).1.leaseTime = 0x80000000 ∧
    (dhcpParseAckNak c1Ctx testIface c1MsgWrap 5000).1.t1 = 0x40000000 ∧
    (dhcpParseAckNak c1Ctx testIface c1MsgWrap 5000).1.t2 = 0x10000000 ∧
    ¬((dhcpParseAckNak c1Ctx testIface c1MsgWrap 5000).1.t1 ≤
        (dhcpParseAckNak c1Ctx testIface c1MsgWrap 5000).1.t2)) := by
  decide

set_option maxHeartbeats 2000000 in
/-- C1, amended.  For every DHCPACK accepted and committed by
dhcpParseAckNak in which both the Renewal-T1 and Rebinding-T2 options
are absent (or malformed), i.e. both timers are derived by default, and
whose lease is either the infinite sentinel or small enough that the
uint32 product leaseTime * 7 does not wrap (leaseTime ≤ 613566756 s),
the recorded timers satisfy T1 ≤ T2 ≤ leaseTime, or
leaseTime = 0xFFFFFFFF and then T1 = T2 = 0xFFFFFFFF.  (When the server
supplies the options the values are recorded unchecked, and for larger
finite leases the wrapping default T2 computation itself breaks the
ordering; both failure modes are in the counterexample.) -/
theorem dhcpParseAckNak_default_t1_t2_ordered
    (c : DhcpClientCtx) (iface : NetIface) (msg : DhcpMessage) (time : Nat)
    (hpre : c.state ≠ DHCP_STATE_BOUND)
    (ht1 : dhcpOptionMissingOrBadLen msg DHCP_OPT_RENEWAL_TIME_VALUE)
    (ht2 : dhcpOptionMissingOrBadLen msg DHCP_OPT_REBINDING_TIME_VALUE)
    (hcommit : (dhcpParseAckNak c iface msg time).1.state = DHCP_STATE_BOUND)
    (hover : (dhcpParseAckNak c iface msg time).1.leaseTime = DHCP_INFINITE_TIME ∨
      (dhcpParseAckNak c iface msg time).1.leaseTime * 7 < U32) :
    ((dhcpParseAckNak c iface msg time).1.leaseTime = DHCP_INFINITE_TIME ∧
      (dhcpParseAckNak c iface msg time).1.t1 = DHCP_INFINITE_TIME ∧
      (dhcpParseAckNak c iface msg time).1.t2 = DHCP_INFINITE_TIME) ∨
    ((dhcpParseAckNak c iface msg time).1.t1 ≤ (dhcpParseAckNak c iface msg time).1.t2 ∧
      (dhcpParseAckNak c iface msg time).1.t2 ≤ (dhcpParseAckNak c iface msg time).1.leaseTime) := by
  unfold dhcpOptionMissingOrBadLen at ht1 ht2
  rcases hr : dhcpParseAckNak c iface msg time with ⟨c1, if1⟩
  rw [hr] at hcommit hover
  simp only at hcommit hover ⊢
  unfold dhcpParseAckNak at hr
  by_cases h1 : msg.op ≠ DHCP_OPCODE_BOOTREPLY
  · rw [if_pos h1] at hr
    injection hr with hc hi
    subst hc
    exact absurd hcommit hpre
  rw [if_neg h1] at hr
  by_cases h2 : msg.htype ≠ DHCP_HARDWARE_TYPE_ETH
  · rw [if_pos h2] at hr
    injection hr with hc hi
    subst hc
    exact absurd hcommit hpre
  rw [if_neg h2] at hr
  by_cases h3 : msg.hlen ≠ 6
  · rw [if_pos h3] at hr
    injection hr with hc hi
    subst hc
    exact absurd hcommit hpre
  rw [if_neg h3] at hr
  by_cases h4 : msg.xid ≠ c.transactionId
  · rw [if_pos h4] at hr
    injection hr with hc hi
    subst hc
    exact absurd hcommit hpre
  rw [if_neg h4] at hr
  by_cases h5 : msg.chaddr ≠ iface.macAddr
  · rw [if_pos h5] at hr
    injection hr with hc hi
    subst hc
    exact absurd hcommit hpre
  rw [if_neg h5] at hr
  by_cases h6 : msg.magicCookie ≠ DHCP_MAGIC_COOKIE
  · rw [if_pos h6] at hr
    injection hr with hc hi
    subst hc
    exact absurd hcommit hpre
  rw [if_neg h6] at hr
  rcases hmt : dhcpGetOption msg.options DHCP_OPT_DHCP_MESSAGE_TYPE with _ | mt
  · rw [hmt] at hr
    simp only at hr
    injection hr with hc hi
    subst hc
    exact absurd hcommit hpre
  rw [hmt] at hr
  simp only at hr
  by_cases h7 : mt.value.length ≠ 1
  · rw [if_pos h7] at hr
    injection hr with hc hi
    subst hc
    exact absurd hcommit hpre
  rw [if_neg h7] at hr
  by_cases h8 : mt.value.getD 0 0 = DHCP_MESSAGE_TYPE_NAK
  · rw [if_pos h8] at hr
    injection hr with hc hi
    subst hc
    simp [dhcpChangeState, DHCP_STATE_INIT, DHCP_STATE_BOUND] at hcommit
  rw [if_neg h8] at hr
  by_cases h9 : mt.value.getD 0 0 = DHCP_MESSAGE_TYPE_ACK
  swap
  · rw [if_neg h9] at hr
    injection hr with hc hi
    subst hc
    exact absurd hcommit hpre
  rw [if_pos h9] at hr
  rcases hsid : dhcpGetOption msg.options DHCP_OPT_SERVER_IDENTIFIER with _ | sid
  · rw [hsid] at hr
    simp only at hr
    injection hr with hc hi
    subst hc
    exact absurd hcommit hpre
  rw [hsid] at hr
  simp only at hr
  by_cases h10 : sid.value.length ≠ 4
  · rw [if_pos h10] at hr
    injection hr with hc hi
    subst hc
    exact absurd hcommit hpre
  rw [if_neg h10] at hr
  by_cases h11 : load32be sid.value ≠ c.serverIpAddr
  · rw [if_pos h11] at hr
    injection hr with hc hi
    subst hc
    exact absurd hcommit hpre
  rw [if_neg h11] at hr
  rcases hlt : dhcpGetOption msg.options DHCP_OPT_IP_ADDRESS_LEASE_TIME with _ | lt
  · rw [hlt] at hr
    simp only at hr
    injection hr with hc hi
    subst hc
    exact absurd hcommit hpre
  rw [hlt] at hr
  simp only at hr
  by_cases h12 : lt.value.length ≠ 4
  · rw [if_pos h12] at hr
    injection hr with hc hi
    subst hc
    exact absurd hcommit hpre
  rw [if_neg h12] at hr
  injection hr with hc hi
  subst hc
  simp only [dhcpChangeState]
  rw [dhcpAckT1_default ht1, dhcpAckT2_default ht2]
  rcases eq_or_ne (load32be lt.value) DHCP_INFINITE_TIME with hL | hL
  · left
    simp [hL]
  · right
    have hov2 : load32be lt.value * 7 < U32 := by
      rcases hover with hov | hov
      · exact absurd hov hL
      · exact hov
    simp only [ne_eq, hL, not_false_eq_true, if_true, ite_true]
    rw [Nat.mod_eq_of_lt hov2]
    constructor
    · omega
    · omega

/-- C1, witness for the amended theorem: the Ack c1MsgDefaults (lease
600 s, no T1/T2 options) commits T1 = 300, T2 = 525 with
300 ≤ 525 ≤ 600. -/
theorem dhcpParseAckNak_default_t1_t2_ordered_witness :
    ((dhcpParseAckNak c1Ctx testIface c1MsgDefaults 5000).1.leaseTime = DHCP_INFINITE_TIME ∧
      (dhcpParseAckNak c1Ctx testIface c1MsgDefaults 5000).1.t1 = DHCP_INFINITE_TIME ∧
      (dhcpParseAckNak c1Ctx testIface c1MsgDefaults 5000).1.t2 = DHCP_INFINITE_TIME) ∨
    ((dhcpParseAckNak c1Ctx testIface c1MsgDefaults 5000).1.t1 ≤
        (dhcpParseAckNak c1Ctx testIface c1MsgDefaults 5000).1.t2 ∧
      (dhcpParseAckNak c1Ctx testIface c1MsgDefaults 5000).1.t2 ≤
        (dhcpParseAckNak c1Ctx testIface c1MsgDefaults 5000).1.leaseTime) :=
  dhcpParseAckNak_default_t1_t2_ordered c1Ctx testIface c1MsgDefaults 5000
    (by decide) (by exact trivial) (by exact trivial) (by decide)
    (Or.inr (by decide))

/-! ### State-set membership lemmas (C2) -/

theorem dhcpCheckTimeout_state (c : DhcpClientCtx) (t : Nat) :
    (dhcpCheckTimeout c t).state = c.state := by
  unfold dhcpCheckTimeout
  split_ifs <;> rfl

theorem dhcpStateInit_state_le {c : DhcpClientCtx} (iface : NetIface) (env : NetEnv)
    (h : c.state ≤ 7) : (dhcpStateInit c iface env).state ≤ 7 := by
  unfold dhcpStateInit dhcpChangeState
  dsimp only
  split_ifs <;> first | exact h | simp [DHCP_STATE_INIT, DHCP_STATE_SELECTING, DHCP_STATE_REQUESTING, DHCP_STATE_INIT_REBOOT, DHCP_STATE_REBOOTING, DHCP_STATE_BOUND, DHCP_STATE_RENEWING, DHCP_STATE_REBINDING]

theorem dhcpStateInitReboot_state_le {c : DhcpClientCtx} (iface : NetIface) (env : NetEnv)
    (h : c.state ≤ 7) : (dhcpStateInitReboot c iface env).state ≤ 7 := by
  unfold dhcpStateInitReboot dhcpChangeState
  dsimp only
  split_ifs <;> first | exact h | simp [DHCP_STATE_INIT, DHCP_STATE_SELECTING, DHCP_STATE_REQUESTING, DHCP_STATE_INIT_REBOOT, DHCP_STATE_REBOOTING, DHCP_STATE_BOUND, DHCP_STATE_RENEWING, DHCP_STATE_REBINDING]

theorem dhcpStateSelecting_state_le {c : DhcpClientCtx} (env : NetEnv)
    (h : c.state ≤ 7) : (dhcpStateSelecting c env).1.state ≤ 7 := by
  unfold dhcpStateSelecting dhcpCheckTimeout
  dsimp only
  split_ifs <;> first | exact h | simp [DHCP_STATE_INIT, DHCP_STATE_SELECTING, DHCP_STATE_REQUESTING, DHCP_STATE_INIT_REBOOT, DHCP_STATE_REBOOTING, DHCP_STATE_BOUND, DHCP_STATE_RENEWING, DHCP_STATE_REBINDING]

theorem dhcpStateRequestRetrans_state_le {c : DhcpClientCtx} (env : NetEnv)
    (h : c.state ≤ 7) : (dhcpStateRequestRetrans c env).1.state ≤ 7 := by
  unfold dhcpStateRequestRetrans dhcpCheckTimeout dhcpChangeState
  dsimp only
  split_ifs <;> first | exact h | simp [DHCP_STATE_INIT, DHCP_STATE_SELECTING, DHCP_STATE_REQUESTING, DHCP_STATE_INIT_REBOOT, DHCP_STATE_REBOOTING, DHCP_STATE_BOUND, DHCP_STATE_RENEWING, DHCP_STATE_REBINDING]

theorem dhcpStateBound_state_le {c : DhcpClientCtx} (env : NetEnv)
    (h : c.state ≤ 7) : (dhcpStateBound c env).state ≤ 7 := by
  unfold dhcpStateBound dhcpChangeState
  dsimp only
  split_ifs <;> first | exact h | simp [DHCP_STATE_INIT, DHCP_STATE_SELECTING, DHCP_STATE_REQUESTING, DHCP_STATE_INIT_REBOOT, DHCP_STATE_REBOOTING, DHCP_STATE_BOUND, DHCP_STATE_RENEWING, DHCP_STATE_REBINDING]

theorem dhcpStateRenewing_state_le {c : DhcpClientCtx} (env : NetEnv)
    (h : c.state ≤ 7) : (dhcpStateRenewing c env).1.state ≤ 7 := by
  unfold dhcpStateRenewing dhcpChangeState
  dsimp only
  split_ifs <;> first | exact h | simp [DHCP_STATE_INIT, DHCP_STATE_SELECTING, DHCP_STATE_REQUESTING, DHCP_STATE_INIT_REBOOT, DHCP_STATE_REBOOTING, DHCP_STATE_BOUND, DHCP_STATE_RENEWING, DHCP_STATE_REBINDING]

theorem dhcpStateRebinding_state_le {c : DhcpClientCtx} (iface : NetIface) (env : NetEnv)
    (h : c.state ≤ 7) : (dhcpStateRebinding c iface env).1.state ≤ 7 := by
  unfold dhcpStateRebinding dhcpChangeState
  dsimp only
  split_ifs <;> first | exact h | simp [DHCP_STATE_INIT, DHCP_STATE_SELECTING, DHCP_STATE_REQUESTING, DHCP_STATE_INIT_REBOOT, DHCP_STATE_REBOOTING, DHCP_STATE_BOUND, DHCP_STATE_RENEWING, DHCP_STATE_REBINDING]

theorem dhcpClientTick_state_le (c : DhcpClientCtx) (iface : NetIface) (env : NetEnv) :
    (dhcpClientTick c iface env).1.state ≤ 7 := by
  unfold dhcpClientTick
  split_ifs with h0 h1 h2 h3 h4 h5 h6 h7
  · exact dhcpStateInit_state_le iface env (by rw [h0]; decide)
  · exact dhcpStateSelecting_state_le env (by rw [h1]; decide)
  · exact dhcpStateRequestRetrans_state_le env (by rw [h2]; decide)
  · exact dhcpStateInitReboot_state_le iface env (by rw [h3]; decide)
  · exact dhcpStateRequestRetrans_state_le env (by rw [h4]; decide)
  · exact dhcpStateBound_state_le env (by rw [h5]; decide)
  · exact dhcpStateRenewing_state_le env (by rw [h6]; decide)
  · exact dhcpStateRebinding_state_le iface env (by rw [h7]; decide)
  · simp [DHCP_STATE_INIT]

theorem dhcpClientTick_unrecognized_reset (c : DhcpClientCtx) (iface : NetIface)
    (env : NetEnv) (h : 7 < c.state) :
    (dhcpClientTick c iface env).1.state = DHCP_STATE_INIT := by
  unfold dhcpClientTick
  split_ifs with h0 h1 h2 h3 h4 h5 h6 h7
  · rw [h0] at h; exact absurd h (by decide)
  · rw [h1] at h; exact absurd h (by decide)
  · rw [h2] at h; exact absurd h (by decide)
  · rw [h3] at h; exact absurd h (by decide)
  · rw [h4] at h; exact absurd h (by decide)
  · rw [h5] at h; exact absurd h (by decide)
  · rw [h6] at h; exact absurd h (by decide)
  · rw [h7] at h; exact absurd h (by decide)
  · rfl

set_option maxHeartbeats 2000000 in
theorem dhcpParseOffer_state_le {c : DhcpClientCtx} (iface : NetIface)
    (msg : DhcpMessage) (time : Nat) (h : c.state ≤ 7) :
    (dhcpParseOffer c iface msg time).state ≤ 7 := by
  unfold dhcpParseOffer dhcpChangeState
  repeat' first | split | dsimp only
  all_goals first | exact h | simp [DHCP_STATE_INIT, DHCP_STATE_SELECTING, DHCP_STATE_REQUESTING, DHCP_STATE_INIT_REBOOT, DHCP_STATE_REBOOTING, DHCP_STATE_BOUND, DHCP_STATE_RENEWING, DHCP_STATE_REBINDING]

theorem dhcpParseAckNak_state_le {c : DhcpClientCtx} (iface : NetIface)
    (msg : DhcpMessage) (time : Nat) (h : c.state ≤ 7) :
    (dhcpParseAckNak c iface msg time).1.state ≤ 7 := by
  rcases hr : dhcpParseAckNak c iface msg time with ⟨c1, if1⟩
  simp only
  unfold dhcpParseAckNak at hr
  by_cases h1 : msg.op ≠ DHCP_OPCODE_BOOTREPLY
  · rw [if_pos h1] at hr
    injection hr with hc hi
    subst hc
    exact h
  rw [if_neg h1] at hr
  by_cases h2 : msg.htype ≠ DHCP_HARDWARE_TYPE_ETH
  · rw [if_pos h2] at hr
    injection hr with hc hi
    subst hc
    exact h
  rw [if_neg h2] at hr
  by_cases h3 : msg.hlen ≠ 6
  · rw [if_pos h3] at hr
    injection hr with hc hi
    subst hc
    exact h
  rw [if_neg h3] at hr
  by_cases h4 : msg.xid ≠ c.transactionId
  · rw [if_pos h4] at hr
    injection hr with hc hi
    subst hc
    exact h
  rw [if_neg h4] at hr
  by_cases h5 : msg.chaddr ≠ iface.macAddr
  · rw [if_pos h5] at hr
    injection hr with hc hi
    subst hc
    exact h
  rw [if_neg h5] at hr
  by_cases h6 : msg.magicCookie ≠ DHCP_MAGIC_COOKIE
  · rw [if_pos h6] at hr
    injection hr with hc hi
    subst hc
    exact h
  rw [if_neg h6] at hr
  rcases hmt : dhcpGetOption msg.options DHCP_OPT_DHCP_MESSAGE_TYPE with _ | mt
  · rw [hmt] at hr
    simp only at hr
    injection hr with hc hi
    subst hc
    exact h
  rw [hmt] at hr
  simp only at hr
  by_cases h7 : mt.value.length ≠ 1
  · rw [if_pos h7] at hr
    injection hr with hc hi
    subst hc
    exact h
  rw [if_neg h7] at hr
  by_cases h8 : mt.value.getD 0 0 = DHCP_MESSAGE_TYPE_NAK
  · rw [if_pos h8] at hr
    injection hr with hc hi
    subst hc
    exact (by decide : DHCP_STATE_INIT ≤ 7)
  rw [if_neg h8] at hr
  by_cases h9 : mt.value.getD 0 0 = DHCP_MESSAGE_TYPE_ACK
  swap
  · rw [if_neg h9] at hr
    injection hr with hc hi
    subst hc
    exact h
  rw [if_pos h9] at hr
  rcases hsid : dhcpGetOption msg.options DHCP_OPT_SERVER_IDENTIFIER with _ | sid
  · rw [hsid] at hr
    simp only at hr
    injection hr with hc hi
    subst hc
    exact h
  rw [hsid] at hr
  simp only at hr
  by_cases h10 : sid.value.length ≠ 4
  · rw [if_pos h10] at hr
    injection hr with hc hi
    subst hc
    exact h
  rw [if_neg h10] at hr
  by_cases h11 : load32be sid.value ≠ c.serverIpAddr
  · rw [if_pos h11] at hr
    injection hr with hc hi
    subst hc
    exact h
  rw [if_neg h11] at hr
  rcases hlt : dhcpGetOption msg.options DHCP_OPT_IP_ADDRESS_LEASE_TIME with _ | lt
  · rw [hlt] at hr
    simp only at hr
    injection hr with hc hi
    subst hc
    exact h
  rw [hlt] at hr
  simp only at hr
  by_cases h12 : lt.value.length ≠ 4
  · rw [if_pos h12] at hr
    injection hr with hc hi
    subst hc
    exact h
  rw [if_neg h12] at hr
  injection hr with hc hi
  subst hc
  exact (by decide : DHCP_STATE_BOUND ≤ 7)

theorem dhcpClientProcessMessage_state_le {c : DhcpClientCtx} (iface : NetIface)
    (msg : DhcpMessage) (len : Nat) (env : NetEnv) (h : c.state ≤ 7) :
    (dhcpClientProcessMessage c iface msg len env).1.state ≤ 7 := by
  unfold dhcpClientProcessMessage
  split_ifs
  all_goals
    first
    | exact h
    | exact dhcpParseOffer_state_le iface msg env.time h
    | exact dhcpParseAckNak_state_le iface msg env.time h


theorem dhcpv6StateInit_state_le {c : Dhcpv6ClientCtx} (iface : NetIface) (env : NetEnv)
    (h : c.state ≤ 8) : (dhcpv6StateInit c iface env).state ≤ 8 := by
  unfold dhcpv6StateInit dhcpv6ChangeState
  dsimp only
  split_ifs <;> first | exact h | simp [DHCPV6_STATE_INIT, DHCPV6_STATE_SOLICIT, DHCPV6_STATE_REQUEST, DHCPV6_STATE_INIT_CONFIRM, DHCPV6_STATE_CONFIRM, DHCPV6_STATE_BOUND, DHCPV6_STATE_RENEW, DHCPV6_STATE_REBIND, DHCPV6_STATE_DECLINE]

theorem dhcpv6StateSolicit_state_le {c : Dhcpv6ClientCtx} (env : NetEnv)
    (h : c.state ≤ 8) : (dhcpv6StateSolicit c env).1.state ≤ 8 := by
  unfold dhcpv6StateSolicit dhcpv6CheckTimeout dhcpv6ChangeState
  dsimp only
  split_ifs <;> first | exact h | simp [DHCPV6_STATE_INIT, DHCPV6_STATE_SOLICIT, DHCPV6_STATE_REQUEST, DHCPV6_STATE_INIT_CONFIRM, DHCPV6_STATE_CONFIRM, DHCPV6_STATE_BOUND, DHCPV6_STATE_RENEW, DHCPV6_STATE_REBIND, DHCPV6_STATE_DECLINE]

theorem dhcpv6StateRequest_state_le {c : Dhcpv6ClientCtx} (env : NetEnv)
    (h : c.state ≤ 8) : (dhcpv6StateRequest c env).1.state ≤ 8 := by
  unfold dhcpv6StateRequest dhcpv6CheckTimeout dhcpv6ChangeState
  dsimp only
  split_ifs <;> first | exact h | simp [DHCPV6_STATE_INIT, DHCPV6_STATE_SOLICIT, DHCPV6_STATE_REQUEST, DHCPV6_STATE_INIT_CONFIRM, DHCPV6_STATE_CONFIRM, DHCPV6_STATE_BOUND, DHCPV6_STATE_RENEW, DHCPV6_STATE_REBIND, DHCPV6_STATE_DECLINE]

theorem dhcpv6StateInitConfirm_state_le {c : Dhcpv6ClientCtx} (iface : NetIface) (env : NetEnv)
    (h : c.state ≤ 8) : (dhcpv6StateInitConfirm c iface env).state ≤ 8 := by
  unfold dhcpv6StateInitConfirm dhcpv6ChangeState
  dsimp only
  split_ifs <;> first | exact h | simp [DHCPV6_STATE_INIT, DHCPV6_STATE_SOLICIT, DHCPV6_STATE_REQUEST, DHCPV6_STATE_INIT_CONFIRM, DHCPV6_STATE_CONFIRM, DHCPV6_STATE_BOUND, DHCPV6_STATE_RENEW, DHCPV6_STATE_REBIND, DHCPV6_STATE_DECLINE]

theorem dhcpv6StateConfirm_state_le {c : Dhcpv6ClientCtx} (env : NetEnv)
    (h : c.state ≤ 8) : (dhcpv6StateConfirm c env).1.state ≤ 8 := by
  unfold dhcpv6StateConfirm dhcpv6CheckTimeout dhcpv6ChangeState
  dsimp only
  split_ifs <;> first | exact h | simp [DHCPV6_STATE_INIT, DHCPV6_STATE_SOLICIT, DHCPV6_STATE_REQUEST, DHCPV6_STATE_INIT_CONFIRM, DHCPV6_STATE_CONFIRM, DHCPV6_STATE_BOUND, DHCPV6_STATE_RENEW, DHCPV6_STATE_REBIND, DHCPV6_STATE_DECLINE]

theorem dhcpv6StateBound_state_le {c : Dhcpv6ClientCtx} (env : NetEnv)
    (h : c.state ≤ 8) : (dhcpv6StateBound c env).state ≤ 8 := by
  unfold dhcpv6StateBound dhcpv6ChangeState
  dsimp only
  split_ifs <;> first | exact h | simp [DHCPV6_STATE_INIT, DHCPV6_STATE_SOLICIT, DHCPV6_STATE_REQUEST, DHCPV6_STATE_INIT_CONFIRM, DHCPV6_STATE_CONFIRM, DHCPV6_STATE_BOUND, DHCPV6_STATE_RENEW, DHCPV6_STATE_REBIND, DHCPV6_STATE_DECLINE]

theorem dhcpv6StateRenew_state_le {c : Dhcpv6ClientCtx} (env : NetEnv)
    (h : c.state ≤ 8) : (dhcpv6StateRenew c env).1.state ≤ 8 := by
  unfold dhcpv6StateRenew dhcpv6ChangeState
  dsimp only
  split_ifs <;> first | exact h | simp [DHCPV6_STATE_INIT, DHCPV6_STATE_SOLICIT, DHCPV6_STATE_REQUEST, DHCPV6_STATE_INIT_CONFIRM, DHCPV6_STATE_CONFIRM, DHCPV6_STATE_BOUND, DHCPV6_STATE_RENEW, DHCPV6_STATE_REBIND, DHCPV6_STATE_DECLINE]

theorem dhcpv6StateRebind_state_le {c : Dhcpv6ClientCtx} (iface : NetIface) (env : NetEnv)
    (h : c.state ≤ 8) : (dhcpv6StateRebind c iface env).1.state ≤ 8 := by
  unfold dhcpv6StateRebind dhcpv6ChangeState
  dsimp only
  split_ifs <;> first | exact h | simp [DHCPV6_STATE_INIT, DHCPV6_STATE_SOLICIT, DHCPV6_STATE_REQUEST, DHCPV6_STATE_INIT_CONFIRM, DHCPV6_STATE_CONFIRM, DHCPV6_STATE_BOUND, DHCPV6_STATE_RENEW, DHCPV6_STATE_REBIND, DHCPV6_STATE_DECLINE]

theorem dhcpv6ClientTick_state_le (c : Dhcpv6ClientCtx) (iface : NetIface) (env : NetEnv) :
    (dhcpv6ClientTick c iface env).1.state ≤ 8 := by
  unfold dhcpv6ClientTick
  split_ifs with h0 h1 h2 h3 h4 h5 h6 h7
  · exact dhcpv6StateInit_state_le iface env (by rw [h0]; decide)
  · exact dhcpv6StateSolicit_state_le env (by rw [h1]; decide)
  · exact dhcpv6StateRequest_state_le env (by rw [h2]; decide)
  · exact dhcpv6StateInitConfirm_state_le iface env (by rw [h3]; decide)
  · exact dhcpv6StateConfirm_state_le env (by rw [h4]; decide)
  · exact dhcpv6StateBound_state_le env (by rw [h5]; decide)
  · exact dhcpv6StateRenew_state_le env (by rw [h6]; decide)
  · exact dhcpv6StateRebind_state_le iface env (by rw [h7]; decide)
  · simp [DHCPV6_STATE_INIT]

theorem dhcpv6ClientTick_unrecognized_reset (c : Dhcpv6ClientCtx) (iface : NetIface)
    (env : NetEnv) (h : 8 < c.state) :
    (dhcpv6ClientTick c iface env).1.state = DHCPV6_STATE_INIT := by
  unfold dhcpv6ClientTick
  split_ifs with h0 h1 h2 h3 h4 h5 h6 h7
  · rw [h0] at h; exact absurd h (by decide)
  · rw [h1] at h; exact absurd h (by decide)
  · rw [h2] at h; exact absurd h (by decide)
  · rw [h3] at h; exact absurd h (by decide)
  · rw [h4] at h; exact absurd h (by decide)
  · rw [h5] at h; exact absurd h (by decide)
  · rw [h6] at h; exact absurd h (by decide)
  · rw [h7] at h; exact absurd h (by decide)
  · rfl

theorem dhcpv6ParseReplyLoop_ok_state (c : Dhcpv6ClientCtx) (iface : NetIface)
    (opts : List Nat) (duid : List Nat) (time : Nat) :
    ∀ fuel i r, dhcpv6ParseReplyLoop c iface opts duid time fuel i = .ok r →
      r.1.state = DHCPV6_STATE_BOUND := by
  intro fuel
  induction fuel with
  | zero =>
    intro i r hr
    exact Except.noConfusion hr
  | succ n ih =>
    intro i r hr
    unfold dhcpv6ParseReplyLoop at hr
    by_cases hi : i < opts.length
    · rw [if_pos hi] at hr
      rcases hget : dhcpv6GetOption (opts.drop i) DHCPV6_OPTION_IA_NA with _ | v
      · rw [hget] at hr
        simp only at hr
        exact Except.noConfusion hr
      · rw [hget] at hr
        simp only at hr
        rcases hia : dhcpv6ParseIaNaOption c iface.id v with e | c1
        · rw [hia] at hr
          simp only at hr
          exact ih (i + 4 + v.length) r hr
        · rw [hia] at hr
          simp only at hr
          injection hr with h1
          subst h1
          rfl
    · rw [if_neg hi] at hr
      exact Except.noConfusion hr

theorem dhcpv6ReplyCheckServerId_state (c : Dhcpv6ClientCtx) (msg : Dhcpv6Message)
    (sid : List Nat) : (dhcpv6ReplyCheckServerId c msg sid).1.state = c.state := by
  unfold dhcpv6ReplyCheckServerId
  cases dhcpv6GetOption msg.options DHCPV6_OPTION_RAPID_COMMIT <;>
    (dsimp only; split_ifs <;> rfl)

theorem dhcpv6AdvertiseSelect_state_le {c : Dhcpv6ClientCtx} (sid : List Nat)
    (pref : Int) (time : Nat) (h : c.state ≤ 8) :
    (dhcpv6AdvertiseSelect c sid pref time).state ≤ 8 := by
  unfold dhcpv6AdvertiseSelect dhcpv6ChangeState
  dsimp only
  split_ifs <;> first | exact h | simp [DHCPV6_STATE_INIT, DHCPV6_STATE_SOLICIT, DHCPV6_STATE_REQUEST, DHCPV6_STATE_INIT_CONFIRM, DHCPV6_STATE_CONFIRM, DHCPV6_STATE_BOUND, DHCPV6_STATE_RENEW, DHCPV6_STATE_REBIND, DHCPV6_STATE_DECLINE]

theorem dhcpv6ParseReply_state_le {c : Dhcpv6ClientCtx} (iface : NetIface)
    (msg : Dhcpv6Message) (len : Nat) (time : Nat) (h : c.state ≤ 8) :
    (dhcpv6ParseReply c iface msg len time).1.1.state ≤ 8 := by
  rcases hr : dhcpv6ParseReply c iface msg len time with ⟨⟨c1, if1⟩, err⟩
  simp only
  unfold dhcpv6ParseReply at hr
  by_cases h1 : len < 4
  · rw [if_pos h1] at hr
    injection hr with ha hb
    injection ha with hc hi
    subst hc
    exact h
  rw [if_neg h1] at hr
  by_cases h2 : msg.msgType ≠ DHCPV6_MSG_TYPE_REPLY
  · rw [if_pos h2] at hr
    injection hr with ha hb
    injection ha with hc hi
    subst hc
    exact h
  rw [if_neg h2] at hr
  by_cases h3 : msg.transactionId ≠ c.transactionId
  · rw [if_pos h3] at hr
    injection hr with ha hb
    injection ha with hc hi
    subst hc
    exact h
  rw [if_neg h3] at hr
  rcases hcid : dhcpv6GetOption msg.options DHCPV6_OPTION_CLIENTID with _ | cid
  · rw [hcid] at hr
    simp only at hr
    injection hr with ha hb
    injection ha with hc hi
    subst hc
    exact h
  rw [hcid] at hr
  simp only at hr
  by_cases h4 : cid.length ≠ c.clientId.length
  · rw [if_pos h4] at hr
    injection hr with ha hb
    injection ha with hc hi
    subst hc
    exact h
  rw [if_neg h4] at hr
  by_cases h5 : cid ≠ c.clientId
  · rw [if_pos h5] at hr
    injection hr with ha hb
    injection ha with hc hi
    subst hc
    exact h
  rw [if_neg h5] at hr
  rcases hsid : dhcpv6GetOption msg.options DHCPV6_OPTION_SERVERID with _ | sid
  · rw [hsid] at hr
    simp only at hr
    injection hr with ha hb
    injection ha with hc hi
    subst hc
    exact h
  rw [hsid] at hr
  simp only at hr
  by_cases h6 : sid.length = 0
  · rw [if_pos h6] at hr
    injection hr with ha hb
    injection ha with hc hi
    subst hc
    exact h
  rw [if_neg h6] at hr
  by_cases h7 : sid.length ≥ DHCPV6_MAX_DUID_SIZE
  · rw [if_pos h7] at hr
    injection hr with ha hb
    injection ha with hc hi
    subst hc
    exact h
  rw [if_neg h7] at hr
  rcases hchk : dhcpv6ReplyCheckServerId c msg sid with ⟨c2, e2⟩
  have hc2 : c2.state = c.state := by
    have := dhcpv6ReplyCheckServerId_state c msg sid
    rw [hchk] at this
    exact this
  rw [hchk] at hr
  cases e2 with
  | some e =>
    simp only at hr
    injection hr with ha hb
    injection ha with hc hi
    subst hc
    rw [hc2]
    exact h
  | none =>
    simp only at hr
    by_cases h8 : dhcpv6ParseStatusCodeOption msg.options = true
    · rw [if_pos h8] at hr
      injection hr with ha hb
      injection ha with hc hi
      subst hc
      rw [hc2]
      exact h
    rw [if_neg h8] at hr
    rcases hloop : dhcpv6ParseReplyLoop c2 iface msg.options sid time
        (msg.options.length + 1) 0 with e | r
    · rw [hloop] at hr
      simp only at hr
      injection hr with ha hb
      injection ha with hc hi
      subst hc
      rw [hc2]
      exact h
    · rw [hloop] at hr
      simp only at hr
      have hb := dhcpv6ParseReplyLoop_ok_state c2 iface msg.options sid time
        (msg.options.length + 1) 0 r hloop
      injection hr with ha he
      rw [ha] at hb
      simp only at hb
      rw [hb]
      decide

theorem dhcpv6ParseAdvertise_state_le {c : Dhcpv6ClientCtx} (iface : NetIface)
    (msg : Dhcpv6Message) (len : Nat) (time : Nat) (h : c.state ≤ 8) :
    (dhcpv6ParseAdvertise c iface msg len time).1.1.state ≤ 8 := by
  rcases hr : dhcpv6ParseAdvertise c iface msg len time with ⟨⟨c1, if1⟩, err⟩
  simp only
  unfold dhcpv6ParseAdvertise at hr
  dsimp only at hr
  rcases hrep : (if c.settings.rapidCommit = true then dhcpv6ParseReply c iface msg len time
    else ((c, iface), some ErrorT.invalidMessage)) with ⟨⟨rc, ri⟩, rerr⟩
  have hrcst : rc.state ≤ 8 := by
    by_cases hb : c.settings.rapidCommit = true
    · rw [if_pos hb] at hrep
      have := dhcpv6ParseReply_state_le iface msg len time h
      rw [hrep] at this
      exact this
    · rw [if_neg hb] at hrep
      injection hrep with ha he
      injection ha with hc hi
      rw [← hc]
      exact h
  rw [hrep] at hr
  cases rerr with
  | none =>
    simp only at hr
    injection hr with ha hb
    injection ha with hc hi
    subst hc
    exact hrcst
  | some e0 =>
    simp only at hr
    clear hrep
    have h := hrcst
    clear hrcst
    by_cases g1 : len < 4
    · rw [if_pos g1] at hr
      injection hr with ha hb
      injection ha with hc hi
      subst hc
      exact h
    rw [if_neg g1] at hr
    by_cases g2 : msg.msgType ≠ DHCPV6_MSG_TYPE_ADVERTISE
    · rw [if_pos g2] at hr
      injection hr with ha hb
      injection ha with hc hi
      subst hc
      exact h
    rw [if_neg g2] at hr
    by_cases g3 : msg.transactionId ≠ rc.transactionId
    · rw [if_pos g3] at hr
      injection hr with ha hb
      injection ha with hc hi
      subst hc
      exact h
    rw [if_neg g3] at hr
    rcases gcid : dhcpv6GetOption msg.options DHCPV6_OPTION_CLIENTID with _ | cid
    · rw [gcid] at hr
      simp only at hr
      injection hr with ha hb
      injection ha with hc hi
      subst hc
      exact h
    rw [gcid] at hr
    simp only at hr
    by_cases g4 : cid.length ≠ rc.clientId.length
    · rw [if_pos g4] at hr
      injection hr with ha hb
      injection ha with hc hi
      subst hc
      exact h
    rw [if_neg g4] at hr
    by_cases g5 : cid ≠ rc.clientId
    · rw [if_pos g5] at hr
      injection hr with ha hb
      injection ha with hc hi
      subst hc
      exact h
    rw [if_neg g5] at hr
    rcases gsid : dhcpv6GetOption msg.options DHCPV6_OPTION_SERVERID with _ | sid
    · rw [gsid] at hr
      simp only at hr
      injection hr with ha hb
      injection ha with hc hi
      subst hc
      exact h
    rw [gsid] at hr
    simp only at hr
    by_cases g6 : sid.length = 0
    · rw [if_pos g6] at hr
      injection hr with ha hb
      injection ha with hc hi
      subst hc
      exact h
    rw [if_neg g6] at hr
    by_cases g7 : sid.length ≥ DHCPV6_MAX_DUID_SIZE
    · rw [if_pos g7] at hr
      injection hr with ha hb
      injection ha with hc hi
      subst hc
      exact h
    rw [if_neg g7] at hr
    by_cases g8 : dhcpv6ParseStatusCodeOption msg.options = true
    · rw [if_pos g8] at hr
      injection hr with ha hb
      injection ha with hc hi
      subst hc
      exact h
    rw [if_neg g8] at hr
    injection hr with ha hb
    injection ha with hc hi
    subst hc
    exact dhcpv6AdvertiseSelect_state_le sid _ time h

theorem dhcpv6ClientProcessMessage_state_le {c : Dhcpv6ClientCtx} (iface : NetIface)
    (msg : Dhcpv6Message) (len : Nat) (env : NetEnv) (h : c.state ≤ 8) :
    (dhcpv6ClientProcessMessage c iface msg len env).1.state ≤ 8 := by
  unfold dhcpv6ClientProcessMessage
  split_ifs
  all_goals
    first
    | exact h
    | exact dhcpv6ParseAdvertise_state_le iface msg len env.time h
    | exact dhcpv6ParseReply_state_le iface msg len env.time h


theorem slaacTick_state_le {c : SlaacContext} (iface : NetIface) (env : NetEnv)
    (h : c.state ≤ 6) : (slaacTick c iface env).1.state ≤ 6 := by
  unfold slaacTick
  dsimp only
  split_ifs <;> first | exact h | simp [SLAAC_STATE_INIT, SLAAC_STATE_LINK_LOCAL_ADDR_DAD, SLAAC_STATE_ROUTER_SOLICIT, SLAAC_STATE_GLOBAL_ADDR_DAD, SLAAC_STATE_CONFIGURED, SLAAC_STATE_NO_ROUTER, SLAAC_STATE_DAD_FAILURE]

theorem slaacTick_unrecognized_unchanged (c : SlaacContext) (iface : NetIface)
    (env : NetEnv) (h : 6 < c.state) :
    (slaacTick c iface env).1.state = c.state := by
  have h0 : ¬c.state = SLAAC_STATE_INIT := by
    intro hx; rw [hx] at h; exact absurd h (by decide)
  have h1 : ¬c.state = SLAAC_STATE_LINK_LOCAL_ADDR_DAD := by
    intro hx; rw [hx] at h; exact absurd h (by decide)
  have h2 : ¬c.state = SLAAC_STATE_ROUTER_SOLICIT := by
    intro hx; rw [hx] at h; exact absurd h (by decide)
  have h3 : ¬c.state = SLAAC_STATE_GLOBAL_ADDR_DAD := by
    intro hx; rw [hx] at h; exact absurd h (by decide)
  unfold slaacTick
  rw [if_neg h0, if_neg h1, if_neg h2, if_neg h3]

theorem slaacProcessRouterAdv_state_le {c : SlaacContext} (iface : NetIface)
    (msg : NdpRouterAdvMessage) (env : NetEnv) (h : c.state ≤ 6) :
    (slaacProcessRouterAdv c iface msg env).1.state ≤ 6 := by
  unfold slaacProcessRouterAdv
  dsimp only
  repeat' first | split | dsimp only
  all_goals first | exact h | simp [SLAAC_STATE_INIT, SLAAC_STATE_LINK_LOCAL_ADDR_DAD, SLAAC_STATE_ROUTER_SOLICIT, SLAAC_STATE_GLOBAL_ADDR_DAD, SLAAC_STATE_CONFIGURED, SLAAC_STATE_NO_ROUTER, SLAAC_STATE_DAD_FAILURE]


/-- C2, counterexample.  A SLAAC tick entered with the unrecognized
state value 7 does not reset the state to INIT and returns with the
state still outside the declared set {0, …, 6}: slaacTick handles only
INIT, LINK-LOCAL-ADDR-DAD, ROUTER-SOLICIT and GLOBAL-ADDR-DAD in an
if/else-if chain with no default branch, so unrecognized values are left
untouched, contradicting the claim for the SLAAC engine. -/
theorem slaacTick_no_default_reset :
    (slaacTick c2SlaacCtx testIface testEnv).1.state = 7 ∧
    ¬(slaacTick c2SlaacCtx testIface testEnv).1.state ≤ 6 ∧
    (slaacTick c2SlaacCtx testIface testEnv).1.state ≠ SLAAC_STATE_INIT := by
  decide

/-- C2, amended.  After every tick and every onReceive of the three
engines, the context's state lies in that engine's declared enumerated
set provided it did so on entry; a DHCPv4 or DHCPv6 tick entered with an
unrecognized state value (and, for DHCPv6, also the never-dispatched
DECLINE state) resets the state to INIT unconditionally, whereas a SLAAC
tick leaves an unrecognized state value unchanged rather than resetting
it. -/
theorem engines_state_in_declared_set :
    (∀ (c : DhcpClientCtx) (iface : NetIface) (env : NetEnv),
      (dhcpClientTick c iface env).1.state ≤ 7 ∧
      (7 < c.state → (dhcpClientTick c iface env).1.state = DHCP_STATE_INIT)) ∧
    (∀ (c : DhcpClientCtx) (iface : NetIface) (msg : DhcpMessage) (len : Nat)
        (env : NetEnv), c.state ≤ 7 →
      (dhcpClientProcessMessage c iface msg len env).1.state ≤ 7) ∧
    (∀ (c : Dhcpv6ClientCtx) (iface : NetIface) (env : NetEnv),
      (dhcpv6ClientTick c iface env).1.state ≤ 8 ∧
      (8 < c.state → (dhcpv6ClientTick c iface env).1.state = DHCPV6_STATE_INIT)) ∧
    (∀ (c : Dhcpv6ClientCtx) (iface : NetIface) (msg : Dhcpv6Message) (len : Nat)
        (env : NetEnv), c.state ≤ 8 →
      (dhcpv6ClientProcessMessage c iface msg len env).1.state ≤ 8) ∧
    (∀ (c : SlaacContext) (iface : NetIface) (env : NetEnv),
      (c.state ≤ 6 → (slaacTick c iface env).1.state ≤ 6) ∧
      (6 < c.state → (slaacTick c iface env).1.state = c.state)) ∧
    (∀ (c : SlaacContext) (iface : NetIface) (msg : NdpRouterAdvMessage)
        (env : NetEnv), c.state ≤ 6 →
      (slaacProcessRouterAdv c iface msg env).1.state ≤ 6) := by
  refine ⟨fun c iface env => ⟨?_, ?_⟩, fun c iface msg len env h => ?_,
    fun c iface env => ⟨?_, ?_⟩, fun c iface msg len env h => ?_,
    fun c iface env => ⟨fun h => ?_, fun h => ?_⟩,
    fun c iface msg env h => ?_⟩
  · exact dhcpClientTick_state_le c iface env
  · exact fun h => dhcpClientTick_unrecognized_reset c iface env h
  · exact dhcpClientProcessMessage_state_le iface msg len env h
  · exact dhcpv6ClientTick_state_le c iface env
  · exact fun h => dhcpv6ClientTick_unrecognized_reset c iface env h
  · exact dhcpv6ClientProcessMessage_state_le iface msg len env h
  · exact slaacTick_state_le iface env h
  · exact slaacTick_unrecognized_unchanged c iface env h
  · exact slaacProcessRouterAdv_state_le iface msg env h

/-- C2, witness for the amended theorem at concrete inputs: the DHCPv4
receive path keeps the REQUESTING-state context c1Ctx inside the
declared set, and a DHCPv4 tick from the unrecognized state 99 resets to
INIT. -/
theorem engines_state_in_declared_set_witness :
    (dhcpClientProcessMessage c1Ctx testIface c1Msg 300 testEnv).1.state ≤ 7 ∧
    (dhcpClientTick { c1Ctx with state := 99 } testIface testEnv).1.state =
      DHCP_STATE_INIT :=
  ⟨engines_state_in_declared_set.2.1 c1Ctx testIface c1Msg 300 testEnv (by decide),
   (engines_state_in_declared_set.1 { c1Ctx with state := 99 } testIface testEnv).2
     (by decide)⟩


/-- C8, counterexample.  The getState operations perform no NULL check
at all (and have no error channel: they return the state type), so a
NULL context is dereferenced rather than reported as InvalidParameter,
on all three engines. -/
theorem getState_no_null_check :
    dhcpClientGetState none ≠ Except.error ErrorT.invalidParameter ∧
    dhcpv6ClientGetState none ≠ Except.error ErrorT.invalidParameter ∧
    slaacGetState none ≠ Except.error ErrorT.invalidParameter := by
  refine ⟨?_, ?_, ?_⟩ <;>
    (intro h
     simp [dhcpClientGetState, dhcpv6ClientGetState, slaacGetState] at h)

/-- C8, amended.  For every NULL context argument, init, start and stop
report an InvalidParameter error synchronously and perform no other
effect (init likewise for NULL settings or NULL interface), on all three
engines; getState, by contrast, performs no NULL check and dereferences
the pointer. -/
theorem null_parameter_checks :
    (∀ (settings : Option DhcpClientSettings) (ifacePtr : Option NetIface)
        (m u : Bool),
      dhcpClientInit none settings ifacePtr m u = .error .invalidParameter) ∧
    (∀ (c : DhcpClientCtx) (ifacePtr : Option NetIface) (m u : Bool),
      dhcpClientInit (some c) none ifacePtr m u = .error .invalidParameter) ∧
    (∀ (c : DhcpClientCtx) (st : DhcpClientSettings) (m u : Bool),
      dhcpClientInit (some c) (some st) none m u = .error .invalidParameter) ∧
    dhcpClientStart none = .error .invalidParameter ∧
    (∀ (iface : NetIface), dhcpClientStop none iface = .error .invalidParameter) ∧
    dhcpClientGetState none = .error .nullDereference ∧
    (∀ (settings : Option Dhcpv6ClientSettings) (ifacePtr : Option NetIface)
        (m u : Bool),
      dhcpv6ClientInit none settings ifacePtr m u = .error .invalidParameter) ∧
    (∀ (c : Dhcpv6ClientCtx) (ifacePtr : Option NetIface) (m u : Bool),
      dhcpv6ClientInit (some c) none ifacePtr m u = .error .invalidParameter) ∧
    (∀ (c : Dhcpv6ClientCtx) (st : Dhcpv6ClientSettings) (m u : Bool),
      dhcpv6ClientInit (some c) (some st) none m u = .error .invalidParameter) ∧
    dhcpv6ClientStart none = .error .invalidParameter ∧
    (∀ (iface : NetIface), dhcpv6ClientStop none iface = .error .invalidParameter) ∧
    dhcpv6ClientGetState none = .error .nullDereference ∧
    (∀ (settings : Option SlaacSettings) (ifacePtr : Option NetIface) (m : Bool),
      slaacInit none settings ifacePtr m = .error .invalidParameter) ∧
    (∀ (c : SlaacContext) (ifacePtr : Option NetIface) (m : Bool),
      slaacInit (some c) none ifacePtr m = .error .invalidParameter) ∧
    (∀ (c : SlaacContext) (st : SlaacSettings) (m : Bool),
      slaacInit (some c) (some st) none m = .error .invalidParameter) ∧
    slaacStart none = .error .invalidParameter ∧
    (∀ (iface : NetIface), slaacStop none iface = .error .invalidParameter) ∧
    slaacGetState none = .error .nullDereference := by
  refine ⟨?_, ?_, ?_, rfl, ?_, rfl, ?_, ?_, ?_, rfl, ?_, rfl, ?_, ?_, ?_, rfl, ?_, rfl⟩
  all_goals intros
  all_goals rfl

/-- C9.  On every engine, stop on a non-NULL context returns success,
clears exactly the running flag, resets exactly the state field to
INIT, and leaves every other context field and the whole interface
configuration unchanged. -/
theorem stop_modifies_only_running_and_state :
    (∀ (c c2 : DhcpClientCtx) (iface if2 : NetIface),
      dhcpClientStop (some c) iface = .ok (c2, if2) →
      c2.running = false ∧ c2.state = DHCP_STATE_INIT ∧
      c2.settings = c.settings ∧
      c2.timeoutEventDone = c.timeoutEventDone ∧
      c2.timestamp = c.timestamp ∧
      c2.timeout = c.timeout ∧
      c2.retransmitTimeout = c.retransmitTimeout ∧
      c2.retransmitCount = c.retransmitCount ∧
      c2.configStartTime = c.configStartTime ∧
      c2.leaseStartTime = c.leaseStartTime ∧
      c2.transactionId = c.transactionId ∧
      c2.requestedIpAddr = c.requestedIpAddr ∧
      c2.serverIpAddr = c.serverIpAddr ∧
      c2.leaseTime = c.leaseTime ∧
      c2.t1 = c.t1 ∧
      c2.t2 = c.t2 ∧
      if2 = iface) ∧
    (∀ (c c2 : Dhcpv6ClientCtx) (iface if2 : NetIface),
      dhcpv6ClientStop (some c) iface = .ok (c2, if2) →
      c2.running = false ∧ c2.state = DHCPV6_STATE_INIT ∧
      c2.settings = c.settings ∧
      c2.timeoutEventDone = c.timeoutEventDone ∧
      c2.timestamp = c.timestamp ∧
      c2.timeout = c.timeout ∧
      c2.retransmitCount = c.retransmitCount ∧
      c2.clientId = c.clientId ∧
      c2.clientAddr = c.clientAddr ∧
      c2.serverId = c.serverId ∧
      c2.serverPreference = c.serverPreference ∧
      c2.transactionId = c.transactionId ∧
      c2.configStartTime = c.configStartTime ∧
      c2.exchangeStartTime = c.exchangeStartTime ∧
      c2.leaseStartTime = c.leaseStartTime ∧
      c2.t1 = c.t1 ∧
      c2.t2 = c.t2 ∧
      c2.preferredLifetime = c.preferredLifetime ∧
      c2.validLifetime = c.validLifetime ∧
      if2 = iface) ∧
    (∀ (c c2 : SlaacContext) (iface if2 : NetIface),
      slaacStop (some c) iface = .ok (c2, if2) →
      c2.running = false ∧ c2.state = SLAAC_STATE_INIT ∧
      c2.settings = c.settings ∧
      c2.timestamp = c.timestamp ∧
      c2.timeout = c.timeout ∧
      c2.retransmitCount = c.retransmitCount ∧
      if2 = iface) := by
  refine ⟨fun c c2 iface if2 h => ?_, fun c c2 iface if2 h => ?_,
    fun c c2 iface if2 h => ?_⟩
  all_goals
    injection h with h1
  all_goals
    injection h1 with hc hi
  all_goals
    subst hc
  all_goals
    subst hi
  all_goals
    repeat' constructor

/-- C9, witness: stop applied to the concrete REQUESTING context c1Ctx
leaves its lease timers and its transaction id untouched while clearing
the running flag and resetting the state. -/
theorem stop_modifies_only_running_and_state_witness :
    ({ c1Ctx with running := false, state := DHCP_STATE_INIT }).running = false ∧
    ({ c1Ctx with running := false, state := DHCP_STATE_INIT }).state = DHCP_STATE_INIT ∧
    ({ c1Ctx with running := false, state := DHCP_STATE_INIT }).settings = c1Ctx.settings ∧
      ({ c1Ctx with running := false, state := DHCP_STATE_INIT }).timeoutEventDone = c1Ctx.timeoutEventDone ∧
      ({ c1Ctx with running := false, state := DHCP_STATE_INIT }).timestamp = c1Ctx.timestamp ∧
      ({ c1Ctx with running := false, state := DHCP_STATE_INIT }).timeout = c1Ctx.timeout ∧
      ({ c1Ctx with running := false, state := DHCP_STATE_INIT }).retransmitTimeout = c1Ctx.retransmitTimeout ∧
      ({ c1Ctx with running := false, state := DHCP_STATE_INIT }).retransmitCount = c1Ctx.retransmitCount ∧
      ({ c1Ctx with running := false, state := DHCP_STATE_INIT }).configStartTime = c1Ctx.configStartTime ∧
      ({ c1Ctx with running := false, state := DHCP_STATE_INIT }).leaseStartTime = c1Ctx.leaseStartTime ∧
      ({ c1Ctx with running := false, state := DHCP_STATE_INIT }).transactionId = c1Ctx.transactionId ∧
      ({ c1Ctx with running := false, state := DHCP_STATE_INIT }).requestedIpAddr = c1Ctx.requestedIpAddr ∧
      ({ c1Ctx with running := false, state := DHCP_STATE_INIT }).serverIpAddr = c1Ctx.serverIpAddr ∧
      ({ c1Ctx with running := false, state := DHCP_STATE_INIT }).leaseTime = c1Ctx.leaseTime ∧
      ({ c1Ctx with running := false, state := DHCP_STATE_INIT }).t1 = c1Ctx.t1 ∧
      ({ c1Ctx with running := false, state := DHCP_STATE_INIT }).t2 = c1Ctx.t2 ∧
    testIface = testIface :=
  stop_modifies_only_running_and_state.1 c1Ctx
    { c1Ctx with running := false, state := DHCP_STATE_INIT } testIface testIface rfl


/-- C3, counterexample.  The wire-valid IA_NA option c3WrapOptValue
(server T1 = 0xF0000000, T2 omitted) is accepted, and the program
stores T2 = (0xF0000000 + 0x78000000) mod 2^32 = 1744830464, not the
claimed T1 + T1/2 = 6039797760: dhcpv6ParseIaNaOption derives T2 with
uint32 addition, which wraps whenever the server-supplied T1 is at
least 0xAAAAAAAB, so the derived T2 falls below T1. -/
theorem dhcpv6ParseIaNaOption_t2_wraps :
    (dhcpv6ParseIaNaOption c6Ctx 7 c3WrapOptValue).toOption = some c3WrapCtx ∧
    c3WrapCtx.t1 = 0xF0000000 ∧
    c3WrapCtx.t2 = 1744830464 ∧
    c3WrapCtx.t2 ≠ c3WrapCtx.t1 + c3WrapCtx.t1 / 2 ∧
    c3WrapCtx.t2 < c3WrapCtx.t1 := by
  decide

/-- C3, amended.  DHCPv6 IA_NA option parsing rejects the option with
an invalid-option error whenever the option carries T1 > T2 with
T2 > 0, and whenever its IA Address sub-option carries a preferred
lifetime exceeding the valid lifetime (rejection returns before any
context field is written, so the committed lease parameters are
unchanged); and on a successful parse a zero (omitted) T1 is derived as
preferredLifetime/2 and a zero T2 as the uint32 sum
(T1 + T1/2) mod 2^32, which wraps below T1 for T1 ≥ 0xAAAAAAAB. -/
theorem dhcpv6ParseIaNaOption_validation :
    (∀ (c : Dhcpv6ClientCtx) (ifaceId : Nat) (v : List Nat),
      12 ≤ v.length →
      load32be (v.drop 4) > load32be (v.drop 8) → 0 < load32be (v.drop 8) →
      dhcpv6ParseIaNaOption c ifaceId v = .error .invalidOption) ∧
    (∀ (c : Dhcpv6ClientCtx) (ifaceId : Nat) (v a : List Nat),
      12 ≤ v.length →
      dhcpv6GetOption (v.drop 12) DHCPV6_OPTION_IAADDR = some a →
      24 ≤ a.length →
      load32be (a.drop 16) > load32be (a.drop 20) →
      dhcpv6ParseIaNaOption c ifaceId v = .error .invalidOption) ∧
    (∀ (c c2 : Dhcpv6ClientCtx) (ifaceId : Nat) (v : List Nat),
      dhcpv6ParseIaNaOption c ifaceId v = .ok c2 →
      (load32be (v.drop 4) = 0 → c2.t1 = c2.preferredLifetime / 2) ∧
      (load32be (v.drop 8) = 0 → c2.t2 = (c2.t1 + c2.t1 / 2) % U32)) := by
  refine ⟨fun c ifaceId v hlen hgt hpos => ?_,
    fun c ifaceId v a hlen hget halen hpref => ?_,
    fun c c2 ifaceId v hr => ?_⟩
  · unfold dhcpv6ParseIaNaOption
    rw [if_neg (by omega : ¬v.length < 12)]
    dsimp only
    by_cases hid : load32be v ≠ ifaceId
    · rw [if_pos hid]
    · rw [if_neg hid, if_pos ⟨hgt, hpos⟩]
  · unfold dhcpv6ParseIaNaOption
    rw [if_neg (by omega : ¬v.length < 12)]
    dsimp only
    by_cases hid : load32be v ≠ ifaceId
    · rw [if_pos hid]
    rw [if_neg hid]
    by_cases ht : load32be (v.drop 4) > load32be (v.drop 8) ∧ 0 < load32be (v.drop 8)
    · rw [if_pos ht]
    rw [if_neg ht]
    by_cases hst : dhcpv6ParseStatusCodeOption (v.drop 12) = true
    · rw [if_pos hst]
    rw [if_neg hst, hget]
    dsimp only
    rw [if_neg (by omega : ¬a.length < 24), if_pos hpref]
  · unfold dhcpv6ParseIaNaOption at hr
    by_cases hlen : v.length < 12
    · rw [if_pos hlen] at hr
      exact Except.noConfusion hr
    rw [if_neg hlen] at hr
    dsimp only at hr
    by_cases hid : load32be v ≠ ifaceId
    · rw [if_pos hid] at hr
      exact Except.noConfusion hr
    rw [if_neg hid] at hr
    by_cases ht : load32be (v.drop 4) > load32be (v.drop 8) ∧ 0 < load32be (v.drop 8)
    · rw [if_pos ht] at hr
      exact Except.noConfusion hr
    rw [if_neg ht] at hr
    by_cases hst : dhcpv6ParseStatusCodeOption (v.drop 12) = true
    · rw [if_pos hst] at hr
      exact Except.noConfusion hr
    rw [if_neg hst] at hr
    rcases hget : dhcpv6GetOption (v.drop 12) DHCPV6_OPTION_IAADDR with _ | a
    · rw [hget] at hr
      exact Except.noConfusion hr
    rw [hget] at hr
    dsimp only at hr
    by_cases halen : a.length < 24
    · rw [if_pos halen] at hr
      exact Except.noConfusion hr
    rw [if_neg halen] at hr
    by_cases hpref : load32be (a.drop 16) > load32be (a.drop 20)
    · rw [if_pos hpref] at hr
      exact Except.noConfusion hr
    rw [if_neg hpref] at hr
    by_cases ht1 : load32be (v.drop 4) = 0
    · rw [if_pos ht1] at hr
      by_cases ht2 : load32be (v.drop 8) = 0
      · rw [if_pos ht2] at hr
        injection hr with hc
        subst hc
        exact ⟨fun _ => rfl, fun _ => rfl⟩
      · rw [if_neg ht2] at hr
        injection hr with hc
        subst hc
        exact ⟨fun _ => rfl, fun hx => absurd hx ht2⟩
    · rw [if_neg ht1] at hr
      by_cases ht2 : load32be (v.drop 8) = 0
      · rw [if_pos ht2] at hr
        injection hr with hc
        subst hc
        exact ⟨fun hx => absurd hx ht1, fun _ => rfl⟩
      · rw [if_neg ht2] at hr
        injection hr with hc
        subst hc
        exact ⟨fun hx => absurd hx ht1, fun hx => absurd hx ht2⟩

/-- C3, witness: parsing the concrete IA_NA option c3OptValue (T1 and
T2 omitted, preferred 100 s, valid 300 s) derives T1 = 50 and
T2 = (50 + 25) mod 2^32 = 75. -/
theorem dhcpv6ParseIaNaOption_validation_witness :
    c3ParsedCtx.t1 = c3ParsedCtx.preferredLifetime / 2 ∧
    c3ParsedCtx.t2 = (c3ParsedCtx.t1 + c3ParsedCtx.t1 / 2) % U32 :=
  ⟨(dhcpv6ParseIaNaOption_validation.2.2 c6Ctx c3ParsedCtx 7 c3OptValue (by rfl)).1
      (by decide),
   (dhcpv6ParseIaNaOption_validation.2.2 c6Ctx c3ParsedCtx 7 c3OptValue (by rfl)).2
      (by decide)⟩


theorem dhcpv6ParseReply_wrong_type {c : Dhcpv6ClientCtx} {iface : NetIface}
    {msg : Dhcpv6Message} (len time : Nat)
    (hmt : msg.msgType ≠ DHCPV6_MSG_TYPE_REPLY) :
    ∃ e, dhcpv6ParseReply c iface msg len time = ((c, iface), some e) := by
  unfold dhcpv6ParseReply
  by_cases h1 : len < 4
  · rw [if_pos h1]
    exact ⟨_, rfl⟩
  · rw [if_neg h1, if_pos hmt]
    exact ⟨_, rfl⟩

/-- C4, counterexample.  The Advertise c4Msg has the minimum length, the
ADVERTISE type, a matching transaction id, a byte-equal Client
Identifier, no Status Code option and a Server Identifier whose DUID
length equals DHCPV6_MAX_DUID_SIZE — yet it is dropped with an
invalid-message error and no state change, because dhcpv6ParseAdvertise
rejects server DUIDs with `length >= DHCPV6_MAX_DUID_SIZE`, not only
those strictly larger. -/
theorem dhcpv6ParseAdvertise_rejects_max_duid :
    (dhcpv6GetOption c4Msg.options DHCPV6_OPTION_SERVERID =
      some (List.replicate 32 7)) ∧
    (List.replicate 32 7 : List Nat).length = DHCPV6_MAX_DUID_SIZE ∧
    c4Msg.msgType = DHCPV6_MSG_TYPE_ADVERTISE ∧
    c4Msg.transactionId = c4Ctx.transactionId ∧
    dhcpv6GetOption c4Msg.options DHCPV6_OPTION_CLIENTID = some c4Ctx.clientId ∧
    dhcpv6ParseStatusCodeOption c4Msg.options = false ∧
    dhcpv6ParseAdvertise c4Ctx testIface c4Msg 54 1000 =
      ((c4Ctx, testIface), some ErrorT.invalidMessage) := by
  decide

/-- C4, amended.  A DHCPv6 Advertise message is accepted only if its
length is at least the 4-byte header, its msg-type is ADVERTISE, its
transaction-id matches the context's, a Client Identifier option is
present and byte-equal to the context clientId, a Server Identifier
option is present with non-zero length strictly below
DHCPV6_MAX_DUID_SIZE (a DUID whose length equals the bound is dropped),
and no Status Code option carries NoAddrsAvail; otherwise it is dropped
with an error. -/
theorem dhcpv6ParseAdvertise_accept_conditions
    (c : Dhcpv6ClientCtx) (iface : NetIface) (msg : Dhcpv6Message)
    (len time : Nat) (r : Dhcpv6ClientCtx × NetIface)
    (hmt : msg.msgType = DHCPV6_MSG_TYPE_ADVERTISE)
    (hr : dhcpv6ParseAdvertise c iface msg len time = (r, none)) :
    4 ≤ len ∧
    msg.transactionId = c.transactionId ∧
    (∃ cid, dhcpv6GetOption msg.options DHCPV6_OPTION_CLIENTID = some cid ∧
      cid = c.clientId) ∧
    (∃ sid, dhcpv6GetOption msg.options DHCPV6_OPTION_SERVERID = some sid ∧
      0 < sid.length ∧ sid.length < DHCPV6_MAX_DUID_SIZE) ∧
    dhcpv6ParseStatusCodeOption msg.options = false := by
  have hmt2 : msg.msgType ≠ DHCPV6_MSG_TYPE_REPLY := by
    rw [hmt]; decide
  unfold dhcpv6ParseAdvertise at hr
  dsimp only at hr
  have hm : ∃ e0 : ErrorT,
      (if c.settings.rapidCommit = true then dhcpv6ParseReply c iface msg len time
        else ((c, iface), some ErrorT.invalidMessage)) = ((c, iface), some e0) := by
    by_cases hb : c.settings.rapidCommit = true
    · rw [if_pos hb]
      exact dhcpv6ParseReply_wrong_type len time hmt2
    · rw [if_neg hb]
      exact ⟨_, rfl⟩
  obtain ⟨e0, hm⟩ := hm
  rw [hm] at hr
  simp only at hr
  by_cases g1 : len < 4
  · rw [if_pos g1] at hr
    injection hr with ha hb
    exact Option.noConfusion hb
  rw [if_neg g1] at hr
  rw [if_neg (not_not_intro hmt)] at hr
  by_cases g3 : msg.transactionId ≠ c.transactionId
  · rw [if_pos g3] at hr
    injection hr with ha hb
    exact Option.noConfusion hb
  rw [if_neg g3] at hr
  rcases gcid : dhcpv6GetOption msg.options DHCPV6_OPTION_CLIENTID with _ | cid
  · rw [gcid] at hr
    simp only at hr
    injection hr with ha hb
    exact Option.noConfusion hb
  rw [gcid] at hr
  simp only at hr
  by_cases g4 : cid.length ≠ c.clientId.length
  · rw [if_pos g4] at hr
    injection hr with ha hb
    exact Option.noConfusion hb
  rw [if_neg g4] at hr
  by_cases g5 : cid ≠ c.clientId
  · rw [if_pos g5] at hr
    injection hr with ha hb
    exact Option.noConfusion hb
  rw [if_neg g5] at hr
  rcases gsid : dhcpv6GetOption msg.options DHCPV6_OPTION_SERVERID with _ | sid
  · rw [gsid] at hr
    simp only at hr
    injection hr with ha hb
    exact Option.noConfusion hb
  rw [gsid] at hr
  simp only at hr
  by_cases g6 : sid.length = 0
  · rw [if_pos g6] at hr
    injection hr with ha hb
    exact Option.noConfusion hb
  rw [if_neg g6] at hr
  by_cases g7 : sid.length ≥ DHCPV6_MAX_DUID_SIZE
  · rw [if_pos g7] at hr
    injection hr with ha hb
    exact Option.noConfusion hb
  rw [if_neg g7] at hr
  by_cases g8 : dhcpv6ParseStatusCodeOption msg.options = true
  · rw [if_pos g8] at hr
    injection hr with ha hb
    exact Option.noConfusion hb
  rw [if_neg g8] at hr
  exact ⟨Nat.le_of_not_lt g1, not_not.mp g3, ⟨cid, rfl, not_not.mp g5⟩,
    ⟨sid, rfl, Nat.pos_of_ne_zero g6, Nat.lt_of_not_le g7⟩,
    Bool.eq_false_iff.mpr g8⟩

/-- C4 witness: the amended theorem applied to the concrete accepted
Advertise c4MsgOk (10-byte server DUID). -/
theorem dhcpv6ParseAdvertise_accept_conditions_witness :
    4 ≤ 54 ∧
    c4MsgOk.transactionId = c4Ctx.transactionId ∧
    (∃ cid, dhcpv6GetOption c4MsgOk.options DHCPV6_OPTION_CLIENTID = some cid ∧
      cid = c4Ctx.clientId) ∧
    (∃ sid, dhcpv6GetOption c4MsgOk.options DHCPV6_OPTION_SERVERID = some sid ∧
      0 < sid.length ∧ sid.length < DHCPV6_MAX_DUID_SIZE) ∧
    dhcpv6ParseStatusCodeOption c4MsgOk.options = false :=
  dhcpv6ParseAdvertise_accept_conditions c4Ctx testIface c4MsgOk 54 1000
    (dhcpv6ParseAdvertise c4Ctx testIface c4MsgOk 54 1000).1 (by decide) (by rfl)


theorem foldlSetDns_preserves (r : NdpRdnssOption) (l : List Nat) :
    ∀ ifc : NetIface,
    ((l.foldl (fun ifc i => ipv6SetDnsServer ifc i
        (r.addresses.getD i IPV6_UNSPECIFIED_ADDR)) ifc).ipv6.ipv6Pfx =
      ifc.ipv6.ipv6Pfx ∧
     (l.foldl (fun ifc i => ipv6SetDnsServer ifc i
        (r.addresses.getD i IPV6_UNSPECIFIED_ADDR)) ifc).ipv6.ipv6PfxLen =
      ifc.ipv6.ipv6PfxLen ∧
     (l.foldl (fun ifc i => ipv6SetDnsServer ifc i
        (r.addresses.getD i IPV6_UNSPECIFIED_ADDR)) ifc).ipv6.globalAddr =
      ifc.ipv6.globalAddr ∧
     (l.foldl (fun ifc i => ipv6SetDnsServer ifc i
        (r.addresses.getD i IPV6_UNSPECIFIED_ADDR)) ifc).ipv6.globalAddrState =
      ifc.ipv6.globalAddrState) := by
  induction l with
  | nil => intro ifc; exact ⟨rfl, rfl, rfl, rfl⟩
  | cons a t ih =>
    intro ifc
    rw [List.foldl_cons]
    exact ih _

/-- C7, counterexample.  A Router Advertisement received in
ROUTER-SOLICIT whose first Prefix Information option has the Autonomous
flag clear is discarded entirely even though its second Prefix
Information option satisfies every adoption condition: the engine
validates only the first such option rather than searching for the
first satisfying one, so no prefix is adopted and the state does not
change. -/
theorem slaacProcessRouterAdv_first_pi_only :
    c7Msg.options.getD 1 (NdpOption.other 0) = NdpOption.prefixInfo c7GoodPi ∧
    (c7GoodPi.a = true ∧ c7GoodPi.pfxLen = 64 ∧
      c7GoodPi.pfx.take 4 ≠ IPV6_LINK_LOCAL_ADDR_PREFIX_64 ∧
      c7GoodPi.validLifetime ≠ 0 ∧
      c7GoodPi.preferredLifetime ≤ c7GoodPi.validLifetime) ∧
    c7Ctx.state = SLAAC_STATE_ROUTER_SOLICIT ∧
    slaacProcessRouterAdv c7Ctx testIface c7Msg testEnv =
      (c7Ctx, testIface, c7Ctx.settings.parseRouterAdvCallback) ∧
    (slaacProcessRouterAdv c7Ctx testIface c7Msg testEnv).1.state ≠
      SLAAC_STATE_GLOBAL_ADDR_DAD := by
  decide

/-- C7, amended.  A Router Advertisement received outside ROUTER-SOLICIT
and NO-ROUTER changes nothing (only the parse callback fires); in those
two states the engine extracts the FIRST Prefix Information option and,
when that very option has declared length 4, Autonomous set, a prefix
different from the link-local prefix, non-zero valid lifetime, preferred
lifetime at most the valid lifetime, and prefix length 64, stores the
prefix, assigns prefix ‖ EUI-64 as the tentative global address, leaves
the DNS configuration alone when manual DNS is enabled, and enters
GLOBAL-ADDR-DAD; if the first Prefix Information option fails any check
the message is dropped. -/
theorem slaacProcessRouterAdv_adoption
    (c : SlaacContext) (iface : NetIface) (msg : NdpRouterAdvMessage)
    (env : NetEnv) :
    (c.state ≠ SLAAC_STATE_ROUTER_SOLICIT → c.state ≠ SLAAC_STATE_NO_ROUTER →
      slaacProcessRouterAdv c iface msg env =
        (c, iface, c.settings.parseRouterAdvCallback)) ∧
    (∀ pi : NdpPrefixInfoOption,
      (c.state = SLAAC_STATE_ROUTER_SOLICIT ∨ c.state = SLAAC_STATE_NO_ROUTER) →
      ndpGetOption msg.options NDP_OPT_PREFIX_INFORMATION =
        some (NdpOption.prefixInfo pi) →
      pi.len = 4 → pi.a = true →
      pi.pfx.take 4 ≠ IPV6_LINK_LOCAL_ADDR_PREFIX_64 →
      pi.validLifetime ≠ 0 → pi.preferredLifetime ≤ pi.validLifetime →
      pi.pfxLen = 64 →
      (slaacProcessRouterAdv c iface msg env).1.state =
        SLAAC_STATE_GLOBAL_ADDR_DAD ∧
      (slaacProcessRouterAdv c iface msg env).1.retransmitCount = 0 ∧
      (slaacProcessRouterAdv c iface msg env).1.timeout = 0 ∧
      (slaacProcessRouterAdv c iface msg env).1.timestamp = env.time % U32 ∧
      (slaacProcessRouterAdv c iface msg env).2.1.ipv6.ipv6Pfx = pi.pfx ∧
      (slaacProcessRouterAdv c iface msg env).2.1.ipv6.ipv6PfxLen = 64 ∧
      (slaacProcessRouterAdv c iface msg env).2.1.ipv6.globalAddr =
        pi.pfx.take 4 ++ macAddrToEui64 iface.macAddr ∧
      (slaacProcessRouterAdv c iface msg env).2.1.ipv6.globalAddrState =
        AddrState.tentative ∧
      (c.settings.manualDnsConfig = true →
        (slaacProcessRouterAdv c iface msg env).2.1.ipv6.dnsServer =
          iface.ipv6.dnsServer)) := by
  constructor
  · intro h1 h2
    unfold slaacProcessRouterAdv
    dsimp only
    rw [if_pos ⟨h1, h2⟩]
  · intro pi hst hopt hlen ha hll hv hpv h64
    have hguard : ¬(c.state ≠ SLAAC_STATE_ROUTER_SOLICIT ∧
        c.state ≠ SLAAC_STATE_NO_ROUTER) := by
      rcases hst with h | h
      · exact fun hc => hc.1 h
      · exact fun hc => hc.2 h
    rcases hres : slaacProcessRouterAdv c iface msg env with ⟨c1, if1, fr⟩
    unfold slaacProcessRouterAdv at hres
    dsimp only at hres
    rw [if_neg hguard, hopt] at hres
    simp only at hres
    rw [if_neg (not_not_intro hlen), if_neg (not_not_intro ha), if_neg hll,
        if_neg hv, if_neg (Nat.not_lt.mpr hpv), if_neg (not_not_intro h64)] at hres
    by_cases hdns : c.settings.manualDnsConfig = true
    · rw [if_pos hdns] at hres
      injection hres with hc hrest
      injection hrest with hi hf
      subst hc; subst hi
      exact ⟨rfl, rfl, rfl, rfl, rfl, h64, rfl, rfl, fun _ => rfl⟩
    · rw [if_neg hdns] at hres
      rcases hrd : ndpGetOption msg.options NDP_OPT_RECURSIVE_DNS_SERVER with _ | o
      · rw [hrd] at hres
        simp only at hres
        injection hres with hc hrest
        injection hrest with hi hf
        subst hc; subst hi
        exact ⟨rfl, rfl, rfl, rfl, rfl, h64, rfl, rfl, fun hm => absurd hm hdns⟩
      · rw [hrd] at hres
        cases o with
        | prefixInfo q =>
          simp only at hres
          injection hres with hc hrest
          injection hrest with hi hf
          subst hc; subst hi
          exact ⟨rfl, rfl, rfl, rfl, rfl, h64, rfl, rfl, fun hm => absurd hm hdns⟩
        | other t =>
          simp only at hres
          injection hres with hc hrest
          injection hrest with hi hf
          subst hc; subst hi
          exact ⟨rfl, rfl, rfl, rfl, rfl, h64, rfl, rfl, fun hm => absurd hm hdns⟩
        | rdnss r =>
          simp only at hres
          by_cases hrl : 1 ≤ r.len
          · rw [if_pos hrl] at hres
            injection hres with hc hrest
            injection hrest with hi hf
            subst hc; subst hi
            obtain ⟨hp, hpl, hg, hgs⟩ :=
              foldlSetDns_preserves r (List.range ((r.len - 1) / 2))
                (ipv6SetGlobalAddrEx (ipv6SetPfx iface pi.pfx pi.pfxLen)
                  (pi.pfx.take 4 ++ macAddrToEui64
                    (ipv6SetPfx iface pi.pfx pi.pfxLen).macAddr)
                  AddrState.tentative)
            exact ⟨rfl, rfl, rfl, rfl, hp, hpl.trans h64, hg, hgs,
              fun hm => absurd hm hdns⟩
          · rw [if_neg hrl] at hres
            injection hres with hc hrest
            injection hrest with hi hf
            subst hc; subst hi
            exact ⟨rfl, rfl, rfl, rfl, rfl, h64, rfl, rfl, fun hm => absurd hm hdns⟩

/-- C7, witness: the amended theorem applied to the concrete soliciting
context and the Router Advertisement carrying only the satisfying
Prefix Information option (both parts are instantiated; the first on
the CONFIGURED-state context). -/
theorem slaacProcessRouterAdv_adoption_witness :
    slaacProcessRouterAdv c10Ctx testIface c7MsgOk testEnv =
      (c10Ctx, testIface, c10Ctx.settings.parseRouterAdvCallback) ∧
    (slaacProcessRouterAdv c7Ctx testIface c7MsgOk testEnv).1.state =
      SLAAC_STATE_GLOBAL_ADDR_DAD ∧
    (slaacProcessRouterAdv c7Ctx testIface c7MsgOk testEnv).2.1.ipv6.globalAddr =
      c7GoodPi.pfx.take 4 ++ macAddrToEui64 testIface.macAddr :=
  ⟨(slaacProcessRouterAdv_adoption c10Ctx testIface c7MsgOk testEnv).1
      (by decide) (by decide),
   ((slaacProcessRouterAdv_adoption c7Ctx testIface c7MsgOk testEnv).2 c7GoodPi
      (Or.inl (by decide)) (by rfl) (by decide) (by decide) (by decide)
      (by decide) (by decide) (by decide)).1,
   (((slaacProcessRouterAdv_adoption c7Ctx testIface c7MsgOk testEnv).2 c7GoodPi
      (Or.inl (by decide)) (by rfl) (by decide) (by decide) (by decide)
      (by decide) (by decide) (by decide)).2.2.2.2.2.2).1⟩

/-- C10.  For every received Router Advertisement, the RA-parse callback
fires exactly when one is configured, regardless of the current state —
it runs before any validation or state check — and when the engine is in
a state other than ROUTER-SOLICIT and NO-ROUTER the message is then
discarded with the context and the interface completely unchanged. -/
theorem slaacProcessRouterAdv_callback_before_checks
    (c : SlaacContext) (iface : NetIface) (msg : NdpRouterAdvMessage)
    (env : NetEnv) :
    (slaacProcessRouterAdv c iface msg env).2.2 =
      c.settings.parseRouterAdvCallback ∧
    (c.state ≠ SLAAC_STATE_ROUTER_SOLICIT → c.state ≠ SLAAC_STATE_NO_ROUTER →
      (slaacProcessRouterAdv c iface msg env).1 = c ∧
      (slaacProcessRouterAdv c iface msg env).2.1 = iface) := by
  constructor
  · unfold slaacProcessRouterAdv
    dsimp only
    repeat' first | split | dsimp only
    all_goals rfl
  · intro h1 h2
    unfold slaacProcessRouterAdv
    dsimp only
    rw [if_pos ⟨h1, h2⟩]
    exact ⟨rfl, rfl⟩

/-- C10, witness: the callback flag is returned and the context and
interface are untouched for a Router Advertisement received in the
CONFIGURED state. -/
theorem slaacProcessRouterAdv_callback_before_checks_witness :
    (slaacProcessRouterAdv c10Ctx testIface c7Msg testEnv).2.2 =
      c10Ctx.settings.parseRouterAdvCallback ∧
    (slaacProcessRouterAdv c10Ctx testIface c7Msg testEnv).1 = c10Ctx ∧
    (slaacProcessRouterAdv c10Ctx testIface c7Msg testEnv).2.1 = testIface :=
  ⟨(slaacProcessRouterAdv_callback_before_checks c10Ctx testIface c7Msg testEnv).1,
   (slaacProcessRouterAdv_callback_before_checks c10Ctx testIface c7Msg testEnv).2
      (by decide) (by decide)⟩



/-- C6, code bug.  A Solicit exchange begun at t = 5000 ms sends its
first message with Elapsed-Time 0, but the retransmission at
t = 6100 ms carries Elapsed-Time 610 — hundredths of a second measured
from the stale exchangeStartTime = 0 left by initialization — instead
of the 110 hundredths elapsed since the first Solicit of the exchange:
dhcpv6ComputeElapsedTime subtracts exchangeStartTime, yet only
dhcpv6StateConfirm ever records it, so every non-Confirm exchange
measures from a stale origin. -/
theorem dhcpv6SolicitElapsedTime_stale :
    (dhcpv6StateSolicit c6SolCtx c6Env1).2 =
      [NetSend.ndpRouterSol,
       NetSend.dhcpv6 DHCPV6_MSG_TYPE_SOLICIT (beBytes16 0)] ∧
    c6After1.exchangeStartTime = 0 ∧
    c6After1.retransmitCount = 1 ∧
    c6After1.timestamp = 5000 ∧
    (dhcpv6StateSolicit c6After1 c6Env2).2 =
      [NetSend.dhcpv6 DHCPV6_MSG_TYPE_SOLICIT (beBytes16 610)] ∧
    dhcpv6ComputeElapsedTime c6After1 6100 = 610 ∧
    (6100 - 5000) / 10 = 110 ∧ (610 : Nat) ≠ 110 := by
  decide


/-! ### C5 infrastructure: the running flag is written only by start and
stop, every public operation preserves it, and a stopped (INIT) context
is a fixed point of the tick with no transmission. -/

theorem dhcpCheckTimeout_run (c : DhcpClientCtx) (t : Nat) :
    (dhcpCheckTimeout c t).running = c.running := by
  unfold dhcpCheckTimeout
  split_ifs <;> rfl

theorem dhcpStateInit_run (c : DhcpClientCtx) (iface : NetIface) (env : NetEnv) :
    (dhcpStateInit c iface env).running = c.running := by
  unfold dhcpStateInit dhcpChangeState
  dsimp only
  split_ifs <;> rfl

theorem dhcpStateInitReboot_run (c : DhcpClientCtx) (iface : NetIface)
    (env : NetEnv) : (dhcpStateInitReboot c iface env).running = c.running := by
  unfold dhcpStateInitReboot dhcpChangeState
  dsimp only
  split_ifs <;> rfl

theorem dhcpStateBound_run (c : DhcpClientCtx) (env : NetEnv) :
    (dhcpStateBound c env).running = c.running := by
  unfold dhcpStateBound dhcpChangeState
  dsimp only
  split_ifs <;> rfl

theorem dhcpStateSelecting_run (c : DhcpClientCtx) (env : NetEnv) :
    (dhcpStateSelecting c env).1.running = c.running := by
  unfold dhcpStateSelecting dhcpCheckTimeout
  dsimp only
  split_ifs <;> rfl

theorem dhcpStateRequestRetrans_run (c : DhcpClientCtx) (env : NetEnv) :
    (dhcpStateRequestRetrans c env).1.running = c.running := by
  unfold dhcpStateRequestRetrans dhcpCheckTimeout dhcpChangeState
  dsimp only
  split_ifs <;> rfl

theorem dhcpStateRenewing_run (c : DhcpClientCtx) (env : NetEnv) :
    (dhcpStateRenewing c env).1.running = c.running := by
  unfold dhcpStateRenewing dhcpChangeState
  dsimp only
  split_ifs <;> rfl

theorem dhcpStateRebinding_run (c : DhcpClientCtx) (iface : NetIface)
    (env : NetEnv) : (dhcpStateRebinding c iface env).1.running = c.running := by
  unfold dhcpStateRebinding dhcpChangeState
  dsimp only
  split_ifs <;> rfl

set_option maxRecDepth 4000 in
set_option maxHeartbeats 1000000 in
theorem dhcpClientTick_run (c : DhcpClientCtx) (iface : NetIface) (env : NetEnv) :
    (dhcpClientTick c iface env).1.running = c.running := by
  unfold dhcpClientTick
  dsimp only
  split_ifs <;>
    first
      | exact dhcpStateInit_run c iface env
      | exact dhcpStateSelecting_run c env
      | exact dhcpStateRequestRetrans_run c env
      | exact dhcpStateInitReboot_run c iface env
      | exact dhcpStateBound_run c env
      | exact dhcpStateRenewing_run c env
      | exact dhcpStateRebinding_run c iface env
      | rfl

set_option maxRecDepth 4000 in
set_option maxHeartbeats 2000000 in
theorem dhcpParseOffer_run (c : DhcpClientCtx) (iface : NetIface)
    (msg : DhcpMessage) (t : Nat) :
    (dhcpParseOffer c iface msg t).running = c.running := by
  unfold dhcpParseOffer dhcpChangeState
  dsimp only
  repeat' first | split | dsimp only
  all_goals rfl

theorem dhcpParseAckNak_run (c : DhcpClientCtx) (iface : NetIface)
    (msg : DhcpMessage) (t : Nat) :
    (dhcpParseAckNak c iface msg t).1.running = c.running := by
  unfold dhcpParseAckNak
  by_cases h1 : msg.op ≠ DHCP_OPCODE_BOOTREPLY
  · rw [if_pos h1]
  · rw [if_neg h1]
    by_cases h2 : msg.htype ≠ DHCP_HARDWARE_TYPE_ETH
    · rw [if_pos h2]
    · rw [if_neg h2]
      by_cases h3 : msg.hlen ≠ 6
      · rw [if_pos h3]
      · rw [if_neg h3]
        by_cases h4 : msg.xid ≠ c.transactionId
        · rw [if_pos h4]
        · rw [if_neg h4]
          by_cases h5 : msg.chaddr ≠ iface.macAddr
          · rw [if_pos h5]
          · rw [if_neg h5]
            by_cases h6 : msg.magicCookie ≠ DHCP_MAGIC_COOKIE
            · rw [if_pos h6]
            · rw [if_neg h6]
              rcases hmt : dhcpGetOption msg.options DHCP_OPT_DHCP_MESSAGE_TYPE with _ | mt
              · rfl
              · simp only
                by_cases h7 : mt.value.length ≠ 1
                · rw [if_pos h7]
                · rw [if_neg h7]
                  by_cases h8 : mt.value.getD 0 0 = DHCP_MESSAGE_TYPE_NAK
                  · rw [if_pos h8]
                    rfl
                  · rw [if_neg h8]
                    by_cases h9 : mt.value.getD 0 0 = DHCP_MESSAGE_TYPE_ACK
                    case neg => rw [if_neg h9]
                    case pos =>
                      rw [if_pos h9]
                      rcases hsid : dhcpGetOption msg.options DHCP_OPT_SERVER_IDENTIFIER with _ | sid
                      · rfl
                      · simp only
                        by_cases h10 : sid.value.length ≠ 4
                        · rw [if_pos h10]
                        · rw [if_neg h10]
                          by_cases h11 : load32be sid.value ≠ c.serverIpAddr
                          · rw [if_pos h11]
                          · rw [if_neg h11]
                            rcases hlt : dhcpGetOption msg.options DHCP_OPT_IP_ADDRESS_LEASE_TIME with _ | lt
                            · rfl
                            · simp only
                              by_cases h12 : lt.value.length ≠ 4
                              · rw [if_pos h12]
                              · rw [if_neg h12]
                                rfl

theorem dhcpClientProcessMessage_run (c : DhcpClientCtx) (iface : NetIface)
    (msg : DhcpMessage) (len : Nat) (env : NetEnv) :
    (dhcpClientProcessMessage c iface msg len env).1.running = c.running := by
  unfold dhcpClientProcessMessage
  split_ifs <;>
    first
      | exact dhcpParseOffer_run c iface msg env.time
      | exact dhcpParseAckNak_run c iface msg env.time
      | rfl

theorem dhcpClientLinkChangeEvent_run (c : DhcpClientCtx) (iface : NetIface) :
    (dhcpClientLinkChangeEvent c iface).1.running = c.running := by
  unfold dhcpClientLinkChangeEvent
  dsimp only
  split_ifs <;> rfl

theorem dhcpClientTick_stopped {c : DhcpClientCtx} (iface : NetIface)
    (env : NetEnv) (hrun : c.running = false) (hst : c.state = DHCP_STATE_INIT) :
    dhcpClientTick c iface env = (c, iface, []) := by
  unfold dhcpClientTick
  rw [if_pos hst]
  unfold dhcpStateInit
  rw [if_neg (by rw [hrun]; decide)]

theorem dhcpClientProcessMessage_init {c : DhcpClientCtx} (iface : NetIface)
    (msg : DhcpMessage) (len : Nat) (env : NetEnv)
    (hst : c.state = DHCP_STATE_INIT) :
    dhcpClientProcessMessage c iface msg len env = (c, iface) := by
  unfold dhcpClientProcessMessage
  by_cases h1 : len < 240
  · rw [if_pos h1]
  · rw [if_neg h1]
    by_cases h2 : len > 548
    · rw [if_pos h2]
    · rw [if_neg h2, hst]
      rw [if_neg (by decide), if_neg (by decide)]

theorem dhcpClientLinkChangeEvent_init {c : DhcpClientCtx} (iface : NetIface)
    (hst : c.state = DHCP_STATE_INIT) :
    (dhcpClientLinkChangeEvent c iface).1.state = DHCP_STATE_INIT := by
  unfold dhcpClientLinkChangeEvent
  dsimp only
  rw [hst]
  rw [if_neg (by decide)]


/-- The stopped-implies-INIT invariant of the DHCPv4 engine. -/
def DhcpInv (c : DhcpClientCtx) : Prop :=
  c.running = false → c.state = DHCP_STATE_INIT

theorem dhcpStep_inv (c : DhcpClientCtx) (e : DhcpEvent) (hI : DhcpInv c) :
    DhcpInv (dhcpStep c e).1 := by
  cases e with
  | tick iface env =>
    intro hrf
    dsimp only [dhcpStep] at hrf ⊢
    have hcr : c.running = false := by
      rw [← dhcpClientTick_run c iface env]
      exact hrf
    have hst := hI hcr
    rw [dhcpClientTick_stopped iface env hcr hst]
    exact hst
  | receive iface msg len env =>
    intro hrf
    dsimp only [dhcpStep] at hrf ⊢
    have hcr : c.running = false := by
      rw [← dhcpClientProcessMessage_run c iface msg len env]
      exact hrf
    have hst := hI hcr
    rw [dhcpClientProcessMessage_init iface msg len env hst]
    exact hst
  | linkChange iface =>
    intro hrf
    dsimp only [dhcpStep] at hrf ⊢
    have hcr : c.running = false := by
      rw [← dhcpClientLinkChangeEvent_run c iface]
      exact hrf
    exact dhcpClientLinkChangeEvent_init iface (hI hcr)
  | start => exact fun _ => rfl
  | stop iface => exact fun _ => rfl

theorem dhcpReach_inv {c : DhcpClientCtx} (h : DhcpReach c) : DhcpInv c := by
  induction h with
  | initial s => exact fun _ => rfl
  | step c e hc ih => exact dhcpStep_inv c e ih

theorem dhcpTickTrace_stopped {c : DhcpClientCtx} (hrun : c.running = false)
    (hst : c.state = DHCP_STATE_INIT) :
    ∀ tr, dhcpTickTrace c tr = (c, []) := by
  intro tr
  induction tr with
  | nil => rfl
  | cons p rest ih =>
    rcases p with ⟨iface, env⟩
    show (let r := dhcpClientTick c iface env;
          let r2 := dhcpTickTrace r.1 rest;
          (r2.1, r.2.2 ++ r2.2)) = (c, [])
    rw [dhcpClientTick_stopped iface env hrun hst]
    dsimp only
    rw [ih]
    rfl


theorem dhcpv6CheckTimeout_run (c : Dhcpv6ClientCtx) (t : Nat) :
    (dhcpv6CheckTimeout c t).running = c.running := by
  unfold dhcpv6CheckTimeout
  split_ifs <;> rfl

theorem dhcpv6StateInit_run (c : Dhcpv6ClientCtx) (iface : NetIface)
    (env : NetEnv) : (dhcpv6StateInit c iface env).running = c.running := by
  unfold dhcpv6StateInit dhcpv6ChangeState
  dsimp only
  split_ifs <;> rfl

theorem dhcpv6StateInitConfirm_run (c : Dhcpv6ClientCtx) (iface : NetIface)
    (env : NetEnv) : (dhcpv6StateInitConfirm c iface env).running = c.running := by
  unfold dhcpv6StateInitConfirm dhcpv6ChangeState
  dsimp only
  split_ifs <;> rfl

theorem dhcpv6StateBound_run (c : Dhcpv6ClientCtx) (env : NetEnv) :
    (dhcpv6StateBound c env).running = c.running := by
  unfold dhcpv6StateBound dhcpv6ChangeState
  dsimp only
  split_ifs <;> rfl

set_option maxHeartbeats 1000000 in
theorem dhcpv6StateSolicit_run (c : Dhcpv6ClientCtx) (env : NetEnv) :
    (dhcpv6StateSolicit c env).1.running = c.running := by
  unfold dhcpv6StateSolicit dhcpv6CheckTimeout dhcpv6ChangeState
  dsimp only
  split_ifs <;> rfl

set_option maxHeartbeats 1000000 in
theorem dhcpv6StateRequest_run (c : Dhcpv6ClientCtx) (env : NetEnv) :
    (dhcpv6StateRequest c env).1.running = c.running := by
  unfold dhcpv6StateRequest dhcpv6CheckTimeout dhcpv6ChangeState
  dsimp only
  split_ifs <;> rfl

set_option maxHeartbeats 1000000 in
theorem dhcpv6StateConfirm_run (c : Dhcpv6ClientCtx) (env : NetEnv) :
    (dhcpv6StateConfirm c env).1.running = c.running := by
  unfold dhcpv6StateConfirm dhcpv6CheckTimeout dhcpv6ChangeState
  dsimp only
  split_ifs <;> rfl

set_option maxHeartbeats 1000000 in
theorem dhcpv6StateRenew_run (c : Dhcpv6ClientCtx) (env : NetEnv) :
    (dhcpv6StateRenew c env).1.running = c.running := by
  unfold dhcpv6StateRenew dhcpv6ChangeState
  dsimp only
  split_ifs <;> rfl

set_option maxHeartbeats 1000000 in
theorem dhcpv6StateRebind_run (c : Dhcpv6ClientCtx) (iface : NetIface)
    (env : NetEnv) : (dhcpv6StateRebind c iface env).1.running = c.running := by
  unfold dhcpv6StateRebind dhcpv6ChangeState
  dsimp only
  split_ifs <;> rfl

set_option maxRecDepth 4000 in
set_option maxHeartbeats 1000000 in
theorem dhcpv6ClientTick_run (c : Dhcpv6ClientCtx) (iface : NetIface)
    (env : NetEnv) : (dhcpv6ClientTick c iface env).1.running = c.running := by
  unfold dhcpv6ClientTick
  dsimp only
  split_ifs <;>
    first
      | exact dhcpv6StateInit_run c iface env
      | exact dhcpv6StateSolicit_run c env
      | exact dhcpv6StateRequest_run c env
      | exact dhcpv6StateInitConfirm_run c iface env
      | exact dhcpv6StateConfirm_run c env
      | exact dhcpv6StateBound_run c env
      | exact dhcpv6StateRenew_run c env
      | exact dhcpv6StateRebind_run c iface env
      | rfl

theorem dhcpv6ParseIaNaOption_run (c : Dhcpv6ClientCtx) (ifaceId : Nat)
    (v : List Nat) (c1 : Dhcpv6ClientCtx)
    (hr : dhcpv6ParseIaNaOption c ifaceId v = .ok c1) :
    c1.running = c.running := by
  unfold dhcpv6ParseIaNaOption at hr
  dsimp only at hr
  by_cases g1 : v.length < 12
  · rw [if_pos g1] at hr
    exact Except.noConfusion hr
  rw [if_neg g1] at hr
  by_cases g2 : load32be v ≠ ifaceId
  · rw [if_pos g2] at hr
    exact Except.noConfusion hr
  rw [if_neg g2] at hr
  by_cases g3 : load32be (v.drop 4) > load32be (v.drop 8) ∧ load32be (v.drop 8) > 0
  · rw [if_pos g3] at hr
    exact Except.noConfusion hr
  rw [if_neg g3] at hr
  by_cases g4 : dhcpv6ParseStatusCodeOption (v.drop 12) = true
  · rw [if_pos g4] at hr
    exact Except.noConfusion hr
  rw [if_neg g4] at hr
  rcases g5 : dhcpv6GetOption (v.drop 12) DHCPV6_OPTION_IAADDR with _ | addrVal
  · rw [g5] at hr
    exact Except.noConfusion hr
  rw [g5] at hr
  simp only at hr
  by_cases g6 : addrVal.length < 24
  · rw [if_pos g6] at hr
    exact Except.noConfusion hr
  rw [if_neg g6] at hr
  by_cases g7 : load32be (addrVal.drop 16) > load32be (addrVal.drop 20)
  · rw [if_pos g7] at hr
    exact Except.noConfusion hr
  rw [if_neg g7] at hr
  injection hr with h
  rw [← h]
  split_ifs <;> rfl

theorem dhcpv6ParseReplyLoop_run (c : Dhcpv6ClientCtx) (iface : NetIface)
    (opts duid : List Nat) (time : Nat) :
    ∀ fuel i r, dhcpv6ParseReplyLoop c iface opts duid time fuel i = .ok r →
      r.1.running = c.running := by
  intro fuel
  induction fuel with
  | zero =>
    intro i r hr
    exact Except.noConfusion hr
  | succ n ih =>
    intro i r hr
    unfold dhcpv6ParseReplyLoop at hr
    by_cases hi : i < opts.length
    · rw [if_pos hi] at hr
      rcases hget : dhcpv6GetOption (opts.drop i) DHCPV6_OPTION_IA_NA with _ | v
      · rw [hget] at hr
        simp only at hr
        exact Except.noConfusion hr
      · rw [hget] at hr
        simp only at hr
        rcases hia : dhcpv6ParseIaNaOption c iface.id v with e | c1
        · rw [hia] at hr
          simp only at hr
          exact ih (i + 4 + v.length) r hr
        · rw [hia] at hr
          simp only at hr
          injection hr with h1
          subst h1
          exact dhcpv6ParseIaNaOption_run c iface.id v c1 hia
    · rw [if_neg hi] at hr
      exact Except.noConfusion hr

theorem dhcpv6ReplyCheckServerId_run (c : Dhcpv6ClientCtx) (msg : Dhcpv6Message)
    (sid : List Nat) : (dhcpv6ReplyCheckServerId c msg sid).1.running = c.running := by
  unfold dhcpv6ReplyCheckServerId
  cases dhcpv6GetOption msg.options DHCPV6_OPTION_RAPID_COMMIT <;>
    (dsimp only; split_ifs <;> rfl)

theorem dhcpv6ParseReply_run (c : Dhcpv6ClientCtx) (iface : NetIface)
    (msg : Dhcpv6Message) (len : Nat) (time : Nat) :
    (dhcpv6ParseReply c iface msg len time).1.1.running = c.running := by
  rcases hr : dhcpv6ParseReply c iface msg len time with ⟨⟨c1, if1⟩, err⟩
  simp only
  unfold dhcpv6ParseReply at hr
  by_cases h1 : len < 4
  · rw [if_pos h1] at hr
    injection hr with ha hb
    injection ha with hc hi
    subst hc
    rfl
  rw [if_neg h1] at hr
  by_cases h2 : msg.msgType ≠ DHCPV6_MSG_TYPE_REPLY
  · rw [if_pos h2] at hr
    injection hr with ha hb
    injection ha with hc hi
    subst hc
    rfl
  rw [if_neg h2] at hr
  by_cases h3 : msg.transactionId ≠ c.transactionId
  · rw [if_pos h3] at hr
    injection hr with ha hb
    injection ha with hc hi
    subst hc
    rfl
  rw [if_neg h3] at hr
  rcases hcid : dhcpv6GetOption msg.options DHCPV6_OPTION_CLIENTID with _ | cid
  · rw [hcid] at hr
    simp only at hr
    injection hr with ha hb
    injection ha with hc hi
    subst hc
    rfl
  rw [hcid] at hr
  simp only at hr
  by_cases h4 : cid.length ≠ c.clientId.length
  · rw [if_pos h4] at hr
    injection hr with ha hb
    injection ha with hc hi
    subst hc
    rfl
  rw [if_neg h4] at hr
  by_cases h5 : cid ≠ c.clientId
  · rw [if_pos h5] at hr
    injection hr with ha hb
    injection ha with hc hi
    subst hc
    rfl
  rw [if_neg h5] at hr
  rcases hsid : dhcpv6GetOption msg.options DHCPV6_OPTION_SERVERID with _ | sid
  · rw [hsid] at hr
    simp only at hr
    injection hr with ha hb
    injection ha with hc hi
    subst hc
    rfl
  rw [hsid] at hr
  simp only at hr
  by_cases h6 : sid.length = 0
  · rw [if_pos h6] at hr
    injection hr with ha hb
    injection ha with hc hi
    subst hc
    rfl
  rw [if_neg h6] at hr
  by_cases h7 : sid.length ≥ DHCPV6_MAX_DUID_SIZE
  · rw [if_pos h7] at hr
    injection hr with ha hb
    injection ha with hc hi
    subst hc
    rfl
  rw [if_neg h7] at hr
  rcases hchk : dhcpv6ReplyCheckServerId c msg sid with ⟨c2, e2⟩
  have hc2 : c2.running = c.running := by
    have := dhcpv6ReplyCheckServerId_run c msg sid
    rw [hchk] at this
    exact this
  rw [hchk] at hr
  cases e2 with
  | some e =>
    simp only at hr
    injection hr with ha hb
    injection ha with hc hi
    subst hc
    exact hc2
  | none =>
    simp only at hr
    by_cases h8 : dhcpv6ParseStatusCodeOption msg.options = true
    · rw [if_pos h8] at hr
      injection hr with ha hb
      injection ha with hc hi
      subst hc
      exact hc2
    rw [if_neg h8] at hr
    rcases hloop : dhcpv6ParseReplyLoop c2 iface msg.options sid time
        (msg.options.length + 1) 0 with e | r
    · rw [hloop] at hr
      simp only at hr
      injection hr with ha hb
      injection ha with hc hi
      subst hc
      exact hc2
    · rw [hloop] at hr
      simp only at hr
      have hb := dhcpv6ParseReplyLoop_run c2 iface msg.options sid time
        (msg.options.length + 1) 0 r hloop
      injection hr with ha he
      rw [ha] at hb
      simp only at hb
      rw [hb]
      exact hc2

theorem dhcpv6AdvertiseSelect_run (c : Dhcpv6ClientCtx) (sid : List Nat)
    (pref : Int) (time : Nat) :
    (dhcpv6AdvertiseSelect c sid pref time).running = c.running := by
  unfold dhcpv6AdvertiseSelect dhcpv6ChangeState
  dsimp only
  split_ifs <;> rfl

theorem dhcpv6ParseAdvertise_run (c : Dhcpv6ClientCtx) (iface : NetIface)
    (msg : Dhcpv6Message) (len : Nat) (time : Nat) :
    (dhcpv6ParseAdvertise c iface msg len time).1.1.running = c.running := by
  rcases hr : dhcpv6ParseAdvertise c iface msg len time with ⟨⟨c1, if1⟩, err⟩
  simp only
  unfold dhcpv6ParseAdvertise at hr
  dsimp only at hr
  rcases hrep : (if c.settings.rapidCommit = true then dhcpv6ParseReply c iface msg len time
    else ((c, iface), some ErrorT.invalidMessage)) with ⟨⟨rc, ri⟩, rerr⟩
  have hrcrun : rc.running = c.running := by
    by_cases hb : c.settings.rapidCommit = true
    · rw [if_pos hb] at hrep
      have := dhcpv6ParseReply_run c iface msg len time
      rw [hrep] at this
      exact this
    · rw [if_neg hb] at hrep
      injection hrep with ha he
      injection ha with hc hi
      rw [← hc]
  rw [hrep] at hr
  cases rerr with
  | none =>
    simp only at hr
    injection hr with ha hb
    injection ha with hc hi
    subst hc
    exact hrcrun
  | some e0 =>
    simp only at hr
    clear hrep
    by_cases g1 : len < 4
    · rw [if_pos g1] at hr
      injection hr with ha hb
      injection ha with hc hi
      subst hc
      exact hrcrun
    rw [if_neg g1] at hr
    by_cases g2 : msg.msgType ≠ DHCPV6_MSG_TYPE_ADVERTISE
    · rw [if_pos g2] at hr
      injection hr with ha hb
      injection ha with hc hi
      subst hc
      exact hrcrun
    rw [if_neg g2] at hr
    by_cases g3 : msg.transactionId ≠ rc.transactionId
    · rw [if_pos g3] at hr
      injection hr with ha hb
      injection ha with hc hi
      subst hc
      exact hrcrun
    rw [if_neg g3] at hr
    rcases gcid : dhcpv6GetOption msg.options DHCPV6_OPTION_CLIENTID with _ | cid
    · rw [gcid] at hr
      simp only at hr
      injection hr with ha hb
      injection ha with hc hi
      subst hc
      exact hrcrun
    rw [gcid] at hr
    simp only at hr
    by_cases g4 : cid.length ≠ rc.clientId.length
    · rw [if_pos g4] at hr
      injection hr with ha hb
      injection ha with hc hi
      subst hc
      exact hrcrun
    rw [if_neg g4] at hr
    by_cases g5 : cid ≠ rc.clientId
    · rw [if_pos g5] at hr
      injection hr with ha hb
      injection ha with hc hi
      subst hc
      exact hrcrun
    rw [if_neg g5] at hr
    rcases gsid : dhcpv6GetOption msg.options DHCPV6_OPTION_SERVERID with _ | sid
    · rw [gsid] at hr
      simp only at hr
      injection hr with ha hb
      injection ha with hc hi
      subst hc
      exact hrcrun
    rw [gsid] at hr
    simp only at hr
    by_cases g6 : sid.length = 0
    · rw [if_pos g6] at hr
      injection hr with ha hb
      injection ha with hc hi
      subst hc
      exact hrcrun
    rw [if_neg g6] at hr
    by_cases g7 : sid.length ≥ DHCPV6_MAX_DUID_SIZE
    · rw [if_pos g7] at hr
      injection hr with ha hb
      injection ha with hc hi
      subst hc
      exact hrcrun
    rw [if_neg g7] at hr
    by_cases g8 : dhcpv6ParseStatusCodeOption msg.options = true
    · rw [if_pos g8] at hr
      injection hr with ha hb
      injection ha with hc hi
      subst hc
      exact hrcrun
    rw [if_neg g8] at hr
    injection hr with ha hb
    injection ha with hc hi
    rw [← hc]
    exact (dhcpv6AdvertiseSelect_run rc sid _ time).trans hrcrun

theorem dhcpv6ClientProcessMessage_run (c : Dhcpv6ClientCtx) (iface : NetIface)
    (msg : Dhcpv6Message) (len : Nat) (env : NetEnv) :
    (dhcpv6ClientProcessMessage c iface msg len env).1.running = c.running := by
  unfold dhcpv6ClientProcessMessage
  split_ifs <;>
    first
      | exact dhcpv6ParseAdvertise_run c iface msg len env.time
      | exact dhcpv6ParseReply_run c iface msg len env.time
      | rfl

theorem dhcpv6ClientLinkChangeEvent_run (c : Dhcpv6ClientCtx) (iface : NetIface) :
    (dhcpv6ClientLinkChangeEvent c iface).1.running = c.running := by
  unfold dhcpv6ClientLinkChangeEvent
  dsimp only
  split_ifs <;> rfl

theorem dhcpv6ClientTick_stopped {c : Dhcpv6ClientCtx} (iface : NetIface)
    (env : NetEnv) (hrun : c.running = false)
    (hst : c.state = DHCPV6_STATE_INIT) :
    dhcpv6ClientTick c iface env = (c, iface, []) := by
  unfold dhcpv6ClientTick
  rw [if_pos hst]
  unfold dhcpv6StateInit
  rw [if_neg (by rw [hrun]; decide)]

theorem dhcpv6ClientProcessMessage_init {c : Dhcpv6ClientCtx} (iface : NetIface)
    (msg : Dhcpv6Message) (len : Nat) (env : NetEnv)
    (hst : c.state = DHCPV6_STATE_INIT) :
    dhcpv6ClientProcessMessage c iface msg len env = (c, iface) := by
  unfold dhcpv6ClientProcessMessage
  by_cases h1 : len < 4
  · rw [if_pos h1]
  · rw [if_neg h1, hst]
    rw [if_neg (by decide), if_neg (by decide)]

theorem dhcpv6ClientLinkChangeEvent_init {c : Dhcpv6ClientCtx} (iface : NetIface)
    (hst : c.state = DHCPV6_STATE_INIT) :
    (dhcpv6ClientLinkChangeEvent c iface).1.state = DHCPV6_STATE_INIT := by
  unfold dhcpv6ClientLinkChangeEvent
  dsimp only
  rw [hst]
  rw [if_neg (by decide)]

/-- The stopped-implies-INIT invariant of the DHCPv6 engine. -/
def Dhcpv6Inv (c : Dhcpv6ClientCtx) : Prop :=
  c.running = false → c.state = DHCPV6_STATE_INIT

theorem dhcpv6Step_inv (c : Dhcpv6ClientCtx) (e : Dhcpv6Event)
    (hI : Dhcpv6Inv c) : Dhcpv6Inv (dhcpv6Step c e).1 := by
  cases e with
  | tick iface env =>
    intro hrf
    dsimp only [dhcpv6Step] at hrf ⊢
    have hcr : c.running = false := by
      rw [← dhcpv6ClientTick_run c iface env]
      exact hrf
    have hst := hI hcr
    rw [dhcpv6ClientTick_stopped iface env hcr hst]
    exact hst
  | receive iface msg len env =>
    intro hrf
    dsimp only [dhcpv6Step] at hrf ⊢
    have hcr : c.running = false := by
      rw [← dhcpv6ClientProcessMessage_run c iface msg len env]
      exact hrf
    have hst := hI hcr
    rw [dhcpv6ClientProcessMessage_init iface msg len env hst]
    exact hst
  | linkChange iface =>
    intro hrf
    dsimp only [dhcpv6Step] at hrf ⊢
    have hcr : c.running = false := by
      rw [← dhcpv6ClientLinkChangeEvent_run c iface]
      exact hrf
    exact dhcpv6ClientLinkChangeEvent_init iface (hI hcr)
  | start => exact fun _ => rfl
  | stop iface => exact fun _ => rfl

theorem dhcpv6Reach_inv {c : Dhcpv6ClientCtx} (h : Dhcpv6Reach c) :
    Dhcpv6Inv c := by
  induction h with
  | initial s iface => exact fun _ => rfl
  | step c e hc ih => exact dhcpv6Step_inv c e ih

theorem dhcpv6TickTrace_stopped {c : Dhcpv6ClientCtx} (hrun : c.running = false)
    (hst : c.state = DHCPV6_STATE_INIT) :
    ∀ tr, dhcpv6TickTrace c tr = (c, []) := by
  intro tr
  induction tr with
  | nil => rfl
  | cons p rest ih =>
    rcases p with ⟨iface, env⟩
    show (let r := dhcpv6ClientTick c iface env;
          let r2 := dhcpv6TickTrace r.1 rest;
          (r2.1, r.2.2 ++ r2.2)) = (c, [])
    rw [dhcpv6ClientTick_stopped iface env hrun hst]
    dsimp only
    rw [ih]
    rfl


theorem slaacTick_run (c : SlaacContext) (iface : NetIface) (env : NetEnv) :
    (slaacTick c iface env).1.running = c.running := by
  unfold slaacTick
  dsimp only
  split_ifs <;> rfl

set_option maxHeartbeats 1000000 in
theorem slaacProcessRouterAdv_run (c : SlaacContext) (iface : NetIface)
    (msg : NdpRouterAdvMessage) (env : NetEnv) :
    (slaacProcessRouterAdv c iface msg env).1.running = c.running := by
  unfold slaacProcessRouterAdv
  dsimp only
  repeat' first | split | dsimp only
  all_goals rfl

theorem slaacLinkChangeEvent_run (c : SlaacContext) (iface : NetIface) :
    (slaacLinkChangeEvent c iface).1.running = c.running := rfl

theorem slaacTick_stopped {c : SlaacContext} (iface : NetIface) (env : NetEnv)
    (hrun : c.running = false) (hst : c.state = SLAAC_STATE_INIT) :
    slaacTick c iface env = (c, iface, []) := by
  unfold slaacTick
  rw [if_pos hst]
  rw [if_neg (by rw [hrun]; simp)]

theorem slaacProcessRouterAdv_init {c : SlaacContext} (iface : NetIface)
    (msg : NdpRouterAdvMessage) (env : NetEnv)
    (hst : c.state = SLAAC_STATE_INIT) :
    slaacProcessRouterAdv c iface msg env =
      (c, iface, c.settings.parseRouterAdvCallback) := by
  unfold slaacProcessRouterAdv
  dsimp only
  rw [if_pos ⟨by rw [hst]; decide, by rw [hst]; decide⟩]

theorem slaacLinkChangeEvent_init (c : SlaacContext) (iface : NetIface) :
    (slaacLinkChangeEvent c iface).1.state = SLAAC_STATE_INIT := rfl

/-- The stopped-implies-INIT invariant of the SLAAC engine. -/
def SlaacInv (c : SlaacContext) : Prop :=
  c.running = false → c.state = SLAAC_STATE_INIT

theorem slaacStep_inv (c : SlaacContext) (e : SlaacEvent) (hI : SlaacInv c) :
    SlaacInv (slaacStep c e).1 := by
  cases e with
  | tick iface env =>
    intro hrf
    dsimp only [slaacStep] at hrf ⊢
    have hcr : c.running = false := by
      rw [← slaacTick_run c iface env]
      exact hrf
    have hst := hI hcr
    rw [slaacTick_stopped iface env hcr hst]
    exact hst
  | receiveRA iface msg env =>
    intro hrf
    dsimp only [slaacStep] at hrf ⊢
    have hcr : c.running = false := by
      rw [← slaacProcessRouterAdv_run c iface msg env]
      exact hrf
    have hst := hI hcr
    rw [slaacProcessRouterAdv_init iface msg env hst]
    exact hst
  | linkChange iface => exact fun _ => rfl
  | start => exact fun _ => rfl
  | stop iface => exact fun _ => rfl

theorem slaacReach_inv {c : SlaacContext} (h : SlaacReach c) : SlaacInv c := by
  induction h with
  | initial s => exact fun _ => rfl
  | step c e hc ih => exact slaacStep_inv c e ih

theorem slaacTickTrace_stopped {c : SlaacContext} (hrun : c.running = false)
    (hst : c.state = SLAAC_STATE_INIT) :
    ∀ tr, slaacTickTrace c tr = (c, []) := by
  intro tr
  induction tr with
  | nil => rfl
  | cons p rest ih =>
    rcases p with ⟨iface, env⟩
    show (let r := slaacTick c iface env;
          let r2 := slaacTickTrace r.1 rest;
          (r2.1, r.2.2 ++ r2.2)) = (c, [])
    rw [slaacTick_stopped iface env hrun hst]
    dsimp only
    rw [ih]
    rfl

/-- C5.  On each of the three engines, every context reachable from
initialization through the public operations (tick, receive, link
change, start, stop) satisfies the invariant that a cleared running flag
forces the INIT state; consequently, from any reachable context with
running = false, an arbitrary sequence of tick invocations transmits
nothing (and, by the proof, leaves the context unchanged): the INIT
handler is the only one guarded by the running flag, and stop resets the
state to INIT, so no transmitting state is reachable while stopped. -/
theorem stopped_engines_never_send :
    (∀ c : DhcpClientCtx, DhcpReach c → c.running = false →
      ∀ tr, (dhcpTickTrace c tr).2 = []) ∧
    (∀ c : Dhcpv6ClientCtx, Dhcpv6Reach c → c.running = false →
      ∀ tr, (dhcpv6TickTrace c tr).2 = []) ∧
    (∀ c : SlaacContext, SlaacReach c → c.running = false →
      ∀ tr, (slaacTickTrace c tr).2 = []) := by
  refine ⟨?_, ?_, ?_⟩
  · intro c hreach hrun tr
    rw [dhcpTickTrace_stopped hrun (dhcpReach_inv hreach hrun) tr]
  · intro c hreach hrun tr
    rw [dhcpv6TickTrace_stopped hrun (dhcpv6Reach_inv hreach hrun) tr]
  · intro c hreach hrun tr
    rw [slaacTickTrace_stopped hrun (slaacReach_inv hreach hrun) tr]

/-- C5, witness: the theorem applied to the three freshly initialized
(hence reachable, stopped) contexts and concrete two-tick and one-tick
sequences. -/
theorem stopped_engines_never_send_witness :
    (dhcpTickTrace (dhcpInitialCtx testDhcpSettings)
      [(testIface, testEnv), (testIface, c6Env1)]).2 = [] ∧
    (dhcpv6TickTrace c6Ctx [(testIface, testEnv), (testIface, c6Env2)]).2 = [] ∧
    (slaacTickTrace (slaacInitialCtx testSlaacSettings)
      [(testIface, testEnv)]).2 = [] :=
  ⟨stopped_engines_never_send.1 (dhcpInitialCtx testDhcpSettings)
      (DhcpReach.initial testDhcpSettings) rfl
      [(testIface, testEnv), (testIface, c6Env1)],
   stopped_engines_never_send.2.1 c6Ctx
      (Dhcpv6Reach.initial testDhcpv6Settings testIface) rfl
      [(testIface, testEnv), (testIface, c6Env2)],
   stopped_engines_never_send.2.2 (slaacInitialCtx testSlaacSettings)
      (SlaacReach.initial testSlaacSettings) rfl
      [(testIface, testEnv)]⟩

end CycloneTcp
